import Mathlib

/-! Offset guessing (pkg/network/ebpf/c/prebuilt/offset-guess.c), HTTP/2
decoding over TLS (pkg/network/ebpf/c/protocols/http2/decoding-tls.h) and
connection statistics (pkg/network/ebpf/c/tracer-conn-stats.h)

A shallow embedding of the offset-discovery engine: `aligned_offset`,
`proc_t_comm_equals`, `check_family`, `guess_offsets`, the conntrack engine
`guess_conntrack_offsets` and the hook entry points; and of the HTTP/2 decoder:
the HPACK integer readers, `tls_parse_field_literal`,
`tls_filter_relevant_headers` and `tls_find_relevant_frames`; and of
`get_conn_stats`; followed by the properties established about them.

Conventions of the embedding.

* `u64` values are natural numbers; every arithmetic step of the C code is
  followed by an explicit reduction modulo `2 ^ 64` (`add64`, `sub64`).
* A pointer is the natural number of its address.
* The `tracer_status` map holds one record under the key `zero`.  A function
  that receives `status` (a pointer to that record) returns the record that
  the map holds afterwards next to its C return value.
* Kernel helpers are not part of the sources.  Memory is a byte image in
  which an address may be invalid; `bpf_get_current_comm` is the explicit
  argument `comm`, the name of the triggering thread.
* Reading the map value behind `status` into the snapshot and the final
  `bpf_map_update_elem` act on memory owned by the program and are taken to
  succeed.
* A hook returns, next to its C return value and the maps it leaves, the
  subject it handed to the engine, so that the gates can be stated.
* The loops of the decoder are unrolled a fixed number of times; they are
  recursive functions on the number of iterations left.  The decoder states
  carry records of what a run did (`parsed`, `header_reads`, `scanned`) next to
  the variables of the C code, which they do not influence.
-/

namespace OffsetGuess

/-! ## Machine arithmetic -/

/-- Number of values of a `u64`. -/
def U64 : Nat := 2 ^ 64

/-- Addition of two `u64` values, wrapping around. -/
def add64 (a b : Nat) : Nat := (a + b) % U64

/-- Subtraction of two `u64` values, wrapping around. -/
def sub64 (a b : Nat) : Nat := (a % U64 + U64 - b % U64) % U64

/-- Pointer plus byte offset (`(char* )p + off`). -/
def ptr_add (p off : Nat) : Nat := add64 p off

/-! ## aligned_offset (lines 24-32) -/

/-- The function `aligned_offset(void *p, u64 offset, uintptr_t size)`. -/
def aligned_offset (p offset size : Nat) : Nat :=
  -- u64 _p = (u64)p;
  let _p := p % U64
  -- _p += offset;
  let _p := add64 _p offset
  -- _p = _p + size - 1 - (_p + size - 1) % size;
  let _p := sub64 (sub64 (add64 _p size) 1) (sub64 (add64 _p size) 1 % size)
  -- return (char*)_p - (char*)p;
  sub64 _p p

/-- The offsets tried under the retry protocol of the driver: attempt 0 submits
the initial guess, every later attempt resubmits the previous result plus one
as the next current offset). -/
def attempts (p size o0 : Nat) : Nat → Nat
  | 0 => aligned_offset p o0 size
  | k + 1 => aligned_offset p (attempts p size o0 k + 1) size

/-! ## proc_t and proc_t_comm_equals (lines 43-54) -/

/-- Length of a task name buffer (`TASK_COMM_LEN` of the kernel headers). -/
def TASK_COMM_LEN : Nat := 16

/-- The type `proc_t`: `char comm[TASK_COMM_LEN]`, one number per byte. -/
structure proc_t where
  comm : List Nat
deriving DecidableEq, Repr

/-- Byte `comm[i]` of a name buffer. -/
def proc_t.get (a : proc_t) (i : Nat) : Nat := a.comm.getD i 0

/-- The loop of `proc_t_comm_equals` with `n` iterations left, at index `i`. -/
def proc_t_comm_equals_loop (a b : proc_t) : Nat → Nat → Bool
  | 0, _ => true
  | n + 1, i =>
    if a.get i ≠ b.get i then false
    else if a.get i = 0 then true
    else proc_t_comm_equals_loop a b n (i + 1)

/-- The function `proc_t_comm_equals(proc_t a, proc_t b)`. -/
def proc_t_comm_equals (a b : proc_t) : Bool :=
  proc_t_comm_equals_loop a b TASK_COMM_LEN 0

/-! ## Kernel memory and helpers -/

/-- The errno `EFAULT`. -/
def EFAULT : Int := 14

/-- The address family constant `AF_INET6`. -/
def AF_INET6 : Nat := 10

/-- Simulated kernel memory.  `byte a` is the byte stored at address `a`, or
`none` where the address is invalid.  `on_fault old size` is what a faulting
`bpf_probe_read_kernel` leaves in a destination of `size` bytes that held
`old`: the sources do not fix it, so it is left open. -/
structure kernel_mem where
  byte : Nat → Option Nat
  on_fault : Nat → Nat → Nat

/-- Little-endian value of the `n` bytes at `addr`, `none` when one of them is
at an invalid address. -/
def load_bytes (K : kernel_mem) (addr : Nat) : Nat → Option Nat
  | 0 => some 0
  | n + 1 =>
    match K.byte addr, load_bytes K (addr + 1) n with
    | some b, some v => some (b % 256 + 256 * v)
    | _, _ => none

/-- The helper `bpf_probe_read_kernel(dst, size, src)`: return code and the new
contents of the destination, whose old contents are `dst`. -/
def bpf_probe_read_kernel (K : kernel_mem) (dst size src : Nat) : Int × Nat :=
  match load_bytes K src size with
  | some v => (0, v)
  | none => (-EFAULT, K.on_fault dst size % 2 ^ (8 * size))

/-- The 16-bit byte swap `bpf_ntohs` (little-endian host). -/
def bpf_ntohs (x : Nat) : Nat := (x % 256) * 256 + (x / 256) % 256

/-! ## tracer_status_t -/

/-- The `state` member.  Only the two constants the engine names are
distinguished; every other value of the field is `other`. -/
inductive guess_state where
  | STATE_CHECKING
  | STATE_CHECKED
  | other (raw : Nat)
deriving DecidableEq, Repr

/-- The `what` member: the labels of the switch of `guess_offsets`, and
`unrecognized` for every value that reaches its default label. -/
inductive guess_what where
  | GUESS_SADDR
  | GUESS_DADDR
  | GUESS_FAMILY
  | GUESS_SPORT
  | GUESS_DPORT
  | GUESS_SADDR_FL4
  | GUESS_DADDR_FL4
  | GUESS_SPORT_FL4
  | GUESS_DPORT_FL4
  | GUESS_SADDR_FL6
  | GUESS_DADDR_FL6
  | GUESS_SPORT_FL6
  | GUESS_DPORT_FL6
  | GUESS_NETNS
  | GUESS_RTT
  | GUESS_DADDR_IPV6
  | GUESS_SOCKET_SK
  | GUESS_SK_BUFF_SOCK
  | GUESS_SK_BUFF_TRANSPORT_HEADER
  | GUESS_SK_BUFF_HEAD
  | unrecognized (raw : Nat)
deriving DecidableEq, Repr

/-- The `offsets` member of `tracer_status_t`: one `u64` candidate offset per
field. -/
structure offsets_t where
  saddr : Nat
  daddr : Nat
  family : Nat
  sport : Nat
  dport : Nat
  saddr_fl4 : Nat
  daddr_fl4 : Nat
  sport_fl4 : Nat
  dport_fl4 : Nat
  saddr_fl6 : Nat
  daddr_fl6 : Nat
  sport_fl6 : Nat
  dport_fl6 : Nat
  netns : Nat
  ino : Nat
  rtt : Nat
  rtt_var : Nat
  daddr_ipv6 : Nat
  socket_sk : Nat
  sk_buff_sock : Nat
  sk_buff_transport_header : Nat
  sk_buff_head : Nat
deriving DecidableEq, Repr

/-- The `values` member of `tracer_status_t`: one discovered value per field,
each the little-endian number of its bytes.  The header that declares the
member is not among the sources; the widths used by `guess_offsets` below are
those of the types the code moves through each field (16 bits for what goes
through `bpf_ntohs` and for the header locations, 32 bits for IPv4 addresses,
namespace inode and round-trip times, four 32-bit words for IPv6 addresses). -/
structure values_t where
  saddr : Nat
  daddr : Nat
  family : Nat
  sport : Nat
  dport : Nat
  saddr_fl4 : Nat
  daddr_fl4 : Nat
  sport_fl4 : Nat
  dport_fl4 : Nat
  saddr_fl6 : Nat
  daddr_fl6 : Nat
  sport_fl6 : Nat
  dport_fl6 : Nat
  netns : Nat
  rtt : Nat
  rtt_var : Nat
  daddr_ipv6 : Nat
  sport_via_sk : Nat
  dport_via_sk : Nat
  sport_via_sk_via_sk_buff : Nat
  dport_via_sk_via_sk_buff : Nat
  transport_header : Nat
  network_header : Nat
  mac_header : Nat
  sport_via_sk_buff : Nat
  dport_via_sk_buff : Nat
deriving DecidableEq, Repr

/-- The record `tracer_status_t`, with the members the engine uses. -/
structure tracer_status_t where
  state : guess_state
  what : guess_what
  proc : proc_t
  err : Nat
  tcp_info_kprobe_status : Nat
  offsets : offsets_t
  values : values_t
deriving DecidableEq, Repr

/-- The `SIZEOF_*` alignment constants of offset-guess.h.  The header is not
among the sources, so they are parameters of the engine. -/
structure sizeof_t where
  SIZEOF_SADDR : Nat
  SIZEOF_DADDR : Nat
  SIZEOF_FAMILY : Nat
  SIZEOF_SPORT : Nat
  SIZEOF_DPORT : Nat
  SIZEOF_SADDR_FL4 : Nat
  SIZEOF_DADDR_FL4 : Nat
  SIZEOF_SPORT_FL4 : Nat
  SIZEOF_DPORT_FL4 : Nat
  SIZEOF_SADDR_FL6 : Nat
  SIZEOF_DADDR_FL6 : Nat
  SIZEOF_SPORT_FL6 : Nat
  SIZEOF_DPORT_FL6 : Nat
  SIZEOF_NETNS : Nat
  SIZEOF_NETNS_INO : Nat
  SIZEOF_RTT : Nat
  SIZEOF_RTT_VAR : Nat
  SIZEOF_DADDR_IPV6 : Nat
  SIZEOF_SOCKET_SK : Nat
  SIZEOF_SK_BUFF_SOCK : Nat
  SIZEOF_SK_BUFF_TRANSPORT_HEADER : Nat
  SIZEOF_SK_BUFF_HEAD : Nat
deriving DecidableEq, Repr

/-- Width in bytes of a 16-bit object. -/
def sizeof_u16 : Nat := 2

/-- Width in bytes of a 32-bit object. -/
def sizeof_u32 : Nat := 4

/-- Width in bytes of a pointer. -/
def sizeof_ptr : Nat := 8

/-! ## check_family (lines 56-60) -/

/-- The function `check_family(sk, status, expected_family)`. -/
def check_family (K : kernel_mem) (sk : Nat) (status : tracer_status_t)
    (expected_family : Nat) : Bool :=
  -- u16 family = 0;
  let family := 0
  let family := (bpf_probe_read_kernel K family sizeof_u16 (ptr_add sk status.offsets.family)).2
  family == expected_family

/-! ## guess_offsets (lines 62-238) -/

/-- The switch of `guess_offsets` (lines 90-233), run on the snapshot
`new_status` prepared from `status`.  The result is `some` of the snapshot
with which a case leaves the switch through `break`, and `none` for the
default label, which returns from the function. -/
def guess_offsets_switch (K : kernel_mem) (sz : sizeof_t) (status new_status : tracer_status_t)
    (subject : Nat) : Option tracer_status_t :=
  match status.what with
  | .GUESS_SADDR =>
    let new_status := { new_status with offsets := { new_status.offsets with
      saddr := aligned_offset subject status.offsets.saddr sz.SIZEOF_SADDR } }
    let new_status := { new_status with values := { new_status.values with
      saddr := (bpf_probe_read_kernel K new_status.values.saddr sizeof_u32
        (ptr_add subject new_status.offsets.saddr)).2 } }
    some new_status
  | .GUESS_DADDR =>
    let new_status := { new_status with offsets := { new_status.offsets with
      daddr := aligned_offset subject status.offsets.daddr sz.SIZEOF_DADDR } }
    let new_status := { new_status with values := { new_status.values with
      daddr := (bpf_probe_read_kernel K new_status.values.daddr sizeof_u32
        (ptr_add subject new_status.offsets.daddr)).2 } }
    some new_status
  | .GUESS_FAMILY =>
    let new_status := { new_status with offsets := { new_status.offsets with
      family := aligned_offset subject status.offsets.family sz.SIZEOF_FAMILY } }
    let new_status := { new_status with values := { new_status.values with
      family := (bpf_probe_read_kernel K new_status.values.family sizeof_u16
        (ptr_add subject new_status.offsets.family)).2 } }
    some new_status
  | .GUESS_SPORT =>
    let new_status := { new_status with offsets := { new_status.offsets with
      sport := aligned_offset subject status.offsets.sport sz.SIZEOF_SPORT } }
    let new_status := { new_status with values := { new_status.values with
      sport := (bpf_probe_read_kernel K new_status.values.sport sizeof_u16
        (ptr_add subject new_status.offsets.sport)).2 } }
    let new_status := { new_status with values := { new_status.values with
      sport := bpf_ntohs new_status.values.sport } }
    some new_status
  | .GUESS_DPORT =>
    let new_status := { new_status with offsets := { new_status.offsets with
      dport := aligned_offset subject status.offsets.dport sz.SIZEOF_DPORT } }
    let new_status := { new_status with values := { new_status.values with
      dport := (bpf_probe_read_kernel K new_status.values.dport sizeof_u16
        (ptr_add subject new_status.offsets.dport)).2 } }
    let new_status := { new_status with values := { new_status.values with
      dport := bpf_ntohs new_status.values.dport } }
    some new_status
  | .GUESS_SADDR_FL4 =>
    let new_status := { new_status with offsets := { new_status.offsets with
      saddr_fl4 := aligned_offset subject status.offsets.saddr_fl4 sz.SIZEOF_SADDR_FL4 } }
    let new_status := { new_status with values := { new_status.values with
      saddr_fl4 := (bpf_probe_read_kernel K new_status.values.saddr_fl4 sizeof_u32
        (ptr_add subject new_status.offsets.saddr_fl4)).2 } }
    some new_status
  | .GUESS_DADDR_FL4 =>
    let new_status := { new_status with offsets := { new_status.offsets with
      daddr_fl4 := aligned_offset subject status.offsets.daddr_fl4 sz.SIZEOF_DADDR_FL4 } }
    let new_status := { new_status with values := { new_status.values with
      daddr_fl4 := (bpf_probe_read_kernel K new_status.values.daddr_fl4 sizeof_u32
        (ptr_add subject new_status.offsets.daddr_fl4)).2 } }
    some new_status
  | .GUESS_SPORT_FL4 =>
    let new_status := { new_status with offsets := { new_status.offsets with
      sport_fl4 := aligned_offset subject status.offsets.sport_fl4 sz.SIZEOF_SPORT_FL4 } }
    let new_status := { new_status with values := { new_status.values with
      sport_fl4 := (bpf_probe_read_kernel K new_status.values.sport_fl4 sizeof_u16
        (ptr_add subject new_status.offsets.sport_fl4)).2 } }
    let new_status := { new_status with values := { new_status.values with
      sport_fl4 := bpf_ntohs new_status.values.sport_fl4 } }
    some new_status
  | .GUESS_DPORT_FL4 =>
    let new_status := { new_status with offsets := { new_status.offsets with
      dport_fl4 := aligned_offset subject status.offsets.dport_fl4 sz.SIZEOF_DPORT_FL4 } }
    let new_status := { new_status with values := { new_status.values with
      dport_fl4 := (bpf_probe_read_kernel K new_status.values.dport_fl4 sizeof_u16
        (ptr_add subject new_status.offsets.dport_fl4)).2 } }
    let new_status := { new_status with values := { new_status.values with
      dport_fl4 := bpf_ntohs new_status.values.dport_fl4 } }
    some new_status
  | .GUESS_SADDR_FL6 =>
    let new_status := { new_status with offsets := { new_status.offsets with
      saddr_fl6 := aligned_offset subject status.offsets.saddr_fl6 sz.SIZEOF_SADDR_FL6 } }
    let new_status := { new_status with values := { new_status.values with
      saddr_fl6 := (bpf_probe_read_kernel K new_status.values.saddr_fl6 (sizeof_u32 * 4)
        (ptr_add subject new_status.offsets.saddr_fl6)).2 } }
    some new_status
  | .GUESS_DADDR_FL6 =>
    let new_status := { new_status with offsets := { new_status.offsets with
      daddr_fl6 := aligned_offset subject status.offsets.daddr_fl6 sz.SIZEOF_DADDR_FL6 } }
    let new_status := { new_status with values := { new_status.values with
      daddr_fl6 := (bpf_probe_read_kernel K new_status.values.daddr_fl6 (sizeof_u32 * 4)
        (ptr_add subject new_status.offsets.daddr_fl6)).2 } }
    some new_status
  | .GUESS_SPORT_FL6 =>
    let new_status := { new_status with offsets := { new_status.offsets with
      sport_fl6 := aligned_offset subject status.offsets.sport_fl6 sz.SIZEOF_SPORT_FL6 } }
    let new_status := { new_status with values := { new_status.values with
      sport_fl6 := (bpf_probe_read_kernel K new_status.values.sport_fl6 sizeof_u16
        (ptr_add subject new_status.offsets.sport_fl6)).2 } }
    let new_status := { new_status with values := { new_status.values with
      sport_fl6 := bpf_ntohs new_status.values.sport_fl6 } }
    some new_status
  | .GUESS_DPORT_FL6 =>
    let new_status := { new_status with offsets := { new_status.offsets with
      dport_fl6 := aligned_offset subject status.offsets.dport_fl6 sz.SIZEOF_DPORT_FL6 } }
    let new_status := { new_status with values := { new_status.values with
      dport_fl6 := (bpf_probe_read_kernel K new_status.values.dport_fl6 sizeof_u16
        (ptr_add subject new_status.offsets.dport_fl6)).2 } }
    let new_status := { new_status with values := { new_status.values with
      dport_fl6 := bpf_ntohs new_status.values.dport_fl6 } }
    some new_status
  | .GUESS_NETNS =>
    -- possible_net_t* possible_skc_net = NULL; u32 possible_netns = 0;
    let possible_skc_net := 0
    let possible_netns := 0
    let new_status := { new_status with offsets := { new_status.offsets with
      netns := aligned_offset subject status.offsets.netns sz.SIZEOF_NETNS } }
    let possible_skc_net := (bpf_probe_read_kernel K possible_skc_net sizeof_ptr
      (ptr_add subject new_status.offsets.netns)).2
    if possible_skc_net = 0 then
      some { new_status with err := 1 }
    else
      let new_status := { new_status with offsets := { new_status.offsets with
        ino := aligned_offset subject status.offsets.ino sz.SIZEOF_NETNS_INO } }
      let r := bpf_probe_read_kernel K possible_netns sizeof_u32
        (ptr_add possible_skc_net new_status.offsets.ino)
      if r.1 = -EFAULT then
        some { new_status with err := 1 }
      else
        some { new_status with values := { new_status.values with netns := r.2 } }
  | .GUESS_RTT =>
    let new_status := { new_status with offsets := { new_status.offsets with
      rtt := aligned_offset subject status.offsets.rtt sz.SIZEOF_RTT } }
    let new_status := { new_status with values := { new_status.values with
      rtt := (bpf_probe_read_kernel K new_status.values.rtt sizeof_u32
        (ptr_add subject new_status.offsets.rtt)).2 } }
    let new_status := { new_status with offsets := { new_status.offsets with
      rtt_var := aligned_offset subject (add64 new_status.offsets.rtt sz.SIZEOF_RTT)
        sz.SIZEOF_RTT_VAR } }
    let new_status := { new_status with values := { new_status.values with
      rtt_var := (bpf_probe_read_kernel K new_status.values.rtt_var sizeof_u32
        (ptr_add subject new_status.offsets.rtt_var)).2 } }
    let new_status := { new_status with values := { new_status.values with
      rtt := new_status.values.rtt >>> 3 } }
    let new_status := { new_status with values := { new_status.values with
      rtt_var := new_status.values.rtt_var >>> 2 } }
    some new_status
  | .GUESS_DADDR_IPV6 =>
    if !check_family K subject status AF_INET6 then
      some new_status
    else
      let new_status := { new_status with offsets := { new_status.offsets with
        daddr_ipv6 := aligned_offset subject status.offsets.daddr_ipv6 sz.SIZEOF_DADDR_IPV6 } }
      let new_status := { new_status with values := { new_status.values with
        daddr_ipv6 := (bpf_probe_read_kernel K new_status.values.daddr_ipv6 (sizeof_u32 * 4)
          (ptr_add subject new_status.offsets.daddr_ipv6)).2 } }
      some new_status
  | .GUESS_SOCKET_SK =>
    let new_status := { new_status with offsets := { new_status.offsets with
      socket_sk := aligned_offset subject status.offsets.socket_sk sz.SIZEOF_SOCKET_SK } }
    let subject := (bpf_probe_read_kernel K subject sizeof_ptr
      (ptr_add subject new_status.offsets.socket_sk)).2
    let new_status := { new_status with values := { new_status.values with
      sport_via_sk := (bpf_probe_read_kernel K new_status.values.sport_via_sk sizeof_u16
        (ptr_add subject new_status.offsets.sport)).2 } }
    let new_status := { new_status with values := { new_status.values with
      dport_via_sk := (bpf_probe_read_kernel K new_status.values.dport_via_sk sizeof_u16
        (ptr_add subject new_status.offsets.dport)).2 } }
    let new_status := { new_status with values := { new_status.values with
      sport_via_sk := bpf_ntohs new_status.values.sport_via_sk } }
    let new_status := { new_status with values := { new_status.values with
      dport_via_sk := bpf_ntohs new_status.values.dport_via_sk } }
    some new_status
  | .GUESS_SK_BUFF_SOCK =>
    let new_status := { new_status with offsets := { new_status.offsets with
      sk_buff_sock := aligned_offset subject status.offsets.sk_buff_sock sz.SIZEOF_SK_BUFF_SOCK } }
    let subject := (bpf_probe_read_kernel K subject sizeof_ptr
      (ptr_add subject new_status.offsets.sk_buff_sock)).2
    let new_status := { new_status with values := { new_status.values with
      sport_via_sk_via_sk_buff := (bpf_probe_read_kernel K
        new_status.values.sport_via_sk_via_sk_buff sizeof_u16
        (ptr_add subject new_status.offsets.sport)).2 } }
    let new_status := { new_status with values := { new_status.values with
      dport_via_sk_via_sk_buff := (bpf_probe_read_kernel K
        new_status.values.dport_via_sk_via_sk_buff sizeof_u16
        (ptr_add subject new_status.offsets.dport)).2 } }
    let new_status := { new_status with values := { new_status.values with
      sport_via_sk_via_sk_buff := bpf_ntohs new_status.values.sport_via_sk_via_sk_buff } }
    let new_status := { new_status with values := { new_status.values with
      dport_via_sk_via_sk_buff := bpf_ntohs new_status.values.dport_via_sk_via_sk_buff } }
    some new_status
  | .GUESS_SK_BUFF_TRANSPORT_HEADER =>
    let new_status := { new_status with offsets := { new_status.offsets with
      sk_buff_transport_header := aligned_offset subject status.offsets.sk_buff_transport_header
        sz.SIZEOF_SK_BUFF_TRANSPORT_HEADER } }
    let new_status := { new_status with values := { new_status.values with
      transport_header := (bpf_probe_read_kernel K new_status.values.transport_header sizeof_u16
        (ptr_add subject new_status.offsets.sk_buff_transport_header)).2 } }
    let new_status := { new_status with values := { new_status.values with
      network_header := (bpf_probe_read_kernel K new_status.values.network_header sizeof_u16
        (ptr_add (ptr_add subject new_status.offsets.sk_buff_transport_header) sizeof_u16)).2 } }
    let new_status := { new_status with values := { new_status.values with
      mac_header := (bpf_probe_read_kernel K new_status.values.mac_header sizeof_u16
        (ptr_add (ptr_add subject new_status.offsets.sk_buff_transport_header)
          (2 * sizeof_u16))).2 } }
    some new_status
  | .GUESS_SK_BUFF_HEAD =>
    let new_status := { new_status with offsets := { new_status.offsets with
      sk_buff_head := aligned_offset subject status.offsets.sk_buff_head sz.SIZEOF_SK_BUFF_HEAD } }
    let subject := (bpf_probe_read_kernel K subject sizeof_ptr
      (ptr_add subject new_status.offsets.sk_buff_head)).2
    let new_status := { new_status with values := { new_status.values with
      sport_via_sk_buff := (bpf_probe_read_kernel K new_status.values.sport_via_sk_buff
        sizeof_u16 (ptr_add subject status.values.transport_header)).2 } }
    let new_status := { new_status with values := { new_status.values with
      dport_via_sk_buff := (bpf_probe_read_kernel K new_status.values.dport_via_sk_buff
        sizeof_u16 (ptr_add (ptr_add subject status.values.transport_header) sizeof_u16)).2 } }
    let new_status := { new_status with values := { new_status.values with
      sport_via_sk_buff := bpf_ntohs new_status.values.sport_via_sk_buff } }
    let new_status := { new_status with values := { new_status.values with
      dport_via_sk_buff := bpf_ntohs new_status.values.dport_via_sk_buff } }
    some new_status
  | .unrecognized _ =>
    -- default: not for us
    none

/-- The function `guess_offsets(tracer_status_t* status, char* subject)`, called
from a thread named `comm`.  It returns its C return value and the record that
the `tracer_status` map holds under `zero` afterwards: `status` itself when
nothing is published, the snapshot after `bpf_map_update_elem`. -/
def guess_offsets (K : kernel_mem) (sz : sizeof_t) (comm : proc_t) (status : tracer_status_t)
    (subject : Nat) : Int × tracer_status_t :=
  if status.state ≠ guess_state.STATE_CHECKING then
    (1, status)
  else
    -- proc_t proc = {}; bpf_get_current_comm(&proc.comm, sizeof(proc.comm));
    let proc := comm
    if !proc_t_comm_equals status.proc proc then
      (0, status)
    else
      -- copy of the record, then state, err and the name of the caller
      let new_status := status
      let new_status := { new_status with state := guess_state.STATE_CHECKED }
      let new_status := { new_status with err := 0 }
      let new_status := { new_status with proc := proc }
      match guess_offsets_switch K sz status new_status subject with
      | none => (0, status)
      | some new_status => (0, new_status)

/-! ## Conntrack engine (lines 374-451) -/

/-- The `what` member of `conntrack_status_t`: the labels of the switch of
`guess_conntrack_offsets`, and `unrecognized` for every value that reaches its
default label. -/
inductive conntrack_guess_what where
  | GUESS_CT_TUPLE_ORIGIN
  | GUESS_CT_TUPLE_REPLY
  | GUESS_CT_STATUS
  | GUESS_CT_NET
  | unrecognized (raw : Nat)
deriving DecidableEq, Repr

/-- The `offsets` member of `conntrack_status_t`. -/
structure conntrack_offsets_t where
  origin : Nat
  reply : Nat
  status : Nat
  netns : Nat
  ino : Nat
deriving DecidableEq, Repr

/-- The `values` member of `conntrack_status_t`, each value the little-endian
number of its bytes.  The header that declares the member is not among the
sources; the fields are taken as 32 bits wide, the width of `possible_netns`. -/
structure conntrack_values_t where
  saddr : Nat
  daddr : Nat
  status : Nat
  netns : Nat
deriving DecidableEq, Repr

/-- The record `conntrack_status_t`, with the members the engine uses. -/
structure conntrack_status_t where
  state : guess_state
  what : conntrack_guess_what
  proc : proc_t
  offsets : conntrack_offsets_t
  values : conntrack_values_t
deriving DecidableEq, Repr

/-- The `SIZEOF_CT_*` alignment constants of offset-guess.h, parameters of the
conntrack engine. -/
structure conntrack_sizeof_t where
  SIZEOF_CT_TUPLE_ORIGIN : Nat
  SIZEOF_CT_TUPLE_REPLY : Nat
  SIZEOF_CT_STATUS : Nat
  SIZEOF_CT_NET : Nat
deriving DecidableEq, Repr

/-- The switch of `guess_conntrack_offsets` (lines 399-421): `some` of the
snapshot with which a case leaves the switch through `break`, `none` for the
default label. -/
def guess_conntrack_offsets_switch (K : kernel_mem) (sz : conntrack_sizeof_t)
    (status new_status : conntrack_status_t) (subject : Nat) : Option conntrack_status_t :=
  -- possible_net_t* possible_ct_net = NULL; u32 possible_netns = 0;
  let possible_ct_net := 0
  let possible_netns := 0
  match status.what with
  | .GUESS_CT_TUPLE_ORIGIN =>
    let new_status := { new_status with offsets := { new_status.offsets with
      origin := aligned_offset subject status.offsets.origin sz.SIZEOF_CT_TUPLE_ORIGIN } }
    let new_status := { new_status with values := { new_status.values with
      saddr := (bpf_probe_read_kernel K new_status.values.saddr sizeof_u32
        (ptr_add subject new_status.offsets.origin)).2 } }
    some new_status
  | .GUESS_CT_TUPLE_REPLY =>
    let new_status := { new_status with offsets := { new_status.offsets with
      reply := aligned_offset subject status.offsets.reply sz.SIZEOF_CT_TUPLE_REPLY } }
    let new_status := { new_status with values := { new_status.values with
      daddr := (bpf_probe_read_kernel K new_status.values.daddr sizeof_u32
        (ptr_add subject new_status.offsets.reply)).2 } }
    some new_status
  | .GUESS_CT_STATUS =>
    let new_status := { new_status with offsets := { new_status.offsets with
      status := aligned_offset subject status.offsets.status sz.SIZEOF_CT_STATUS } }
    let new_status := { new_status with values := { new_status.values with
      status := (bpf_probe_read_kernel K new_status.values.status sizeof_u32
        (ptr_add subject new_status.offsets.status)).2 } }
    some new_status
  | .GUESS_CT_NET =>
    let new_status := { new_status with offsets := { new_status.offsets with
      netns := aligned_offset subject status.offsets.netns sz.SIZEOF_CT_NET } }
    let possible_ct_net := (bpf_probe_read_kernel K possible_ct_net sizeof_ptr
      (ptr_add subject new_status.offsets.netns)).2
    let possible_netns := (bpf_probe_read_kernel K possible_netns sizeof_u32
      (ptr_add possible_ct_net status.offsets.ino)).2
    some { new_status with values := { new_status.values with netns := possible_netns } }
  | .unrecognized _ =>
    -- default: not for us
    none

/-- The function `guess_conntrack_offsets(conntrack_status_t* status, char*
subject)`, called from a thread named `comm`: its C return value and the record
that the `conntrack_status` map holds under `zero` afterwards. -/
def guess_conntrack_offsets (K : kernel_mem) (sz : conntrack_sizeof_t) (comm : proc_t)
    (status : conntrack_status_t) (subject : Nat) : Int × conntrack_status_t :=
  if status.state ≠ guess_state.STATE_CHECKING then
    (1, status)
  else
    -- proc_t proc = {}; bpf_get_current_comm(&proc.comm, sizeof(proc.comm));
    let proc := comm
    if !proc_t_comm_equals status.proc proc then
      (0, status)
    else
      -- copy of the record, then state and the name of the caller
      let new_status := status
      let new_status := { new_status with state := guess_state.STATE_CHECKED }
      let new_status := { new_status with proc := proc }
      match guess_conntrack_offsets_switch K sz status new_status subject with
      | none => (0, status)
      | some new_status => (0, new_status)

/-- The function `is_ct_event(u64 what)`. -/
def is_ct_event (what : conntrack_guess_what) : Bool :=
  match what with
  | .GUESS_CT_TUPLE_ORIGIN => true
  | .GUESS_CT_TUPLE_REPLY => true
  | .GUESS_CT_STATUS => true
  | .GUESS_CT_NET => true
  | .unrecognized _ => false

/-! ## Maps and hook entry points (lines 34-41, 240-372, 440-451) -/

/-- Capacity of the hash map `connectsock_ipv6`. -/
def CONNECTSOCK_IPV6_MAX_ENTRIES : Nat := 1024

/-- The BPF maps of the program.  `tracer_status` and `conntrack_status` hold
one record under the key `zero`, or nothing as long as the driver has not
created it; `connectsock_ipv6` maps a pid_tgid to a sock pointer and is kept as
an association list. -/
structure maps_t where
  tracer_status : Option tracer_status_t
  conntrack_status : Option conntrack_status_t
  connectsock_ipv6 : List (Nat × Nat)
deriving DecidableEq, Repr

/-- Lookup in a hash map (`bpf_map_lookup_elem`). -/
def hash_lookup (m : List (Nat × Nat)) (key : Nat) : Option Nat :=
  m.lookup key

/-- Removal from a hash map (`bpf_map_delete_elem`). -/
def hash_delete (m : List (Nat × Nat)) (key : Nat) : List (Nat × Nat) :=
  m.filter (fun e => e.1 != key)

/-- Update of a hash map of capacity `max_entries` with flag `BPF_ANY`: an
existing key is overwritten, a new key is inserted while there is room, and the
update fails, leaving the map as it was, when the map is full. -/
def hash_update (m : List (Nat × Nat)) (max_entries key value : Nat) : List (Nat × Nat) :=
  if (hash_lookup m key).isSome then (key, value) :: hash_delete m key
  else if m.length < max_entries then (key, value) :: m
  else m

/-- The arguments of the probed function that the hooks read through
`PT_REGS_PARM1`, `PT_REGS_PARM2`, `PT_REGS_PARM3`, `PT_REGS_PARM7` and
`PT_REGS_PARM9`. -/
structure pt_regs where
  parm1 : Nat
  parm2 : Nat
  parm3 : Nat
  parm7 : Nat
  parm9 : Nat
deriving DecidableEq, Repr

/-- The record `struct net_dev_queue_ctx`. -/
structure net_dev_queue_ctx where
  unused : Nat
  skb : Nat
deriving DecidableEq, Repr

/-- What a hook leaves behind: its C return value, the maps afterwards, and
the subject it handed to the engine (`none` when it did not call the engine). -/
structure hook_result where
  ret : Int
  maps : maps_t
  forwarded : Option Nat
deriving DecidableEq, Repr

/-- The conversion `(int)x` of a register value. -/
def cast_int (x : Nat) : Int :=
  if x % 2 ^ 32 < 2 ^ 31 then (x % 2 ^ 32 : Nat) else ((x % 2 ^ 32 : Nat) : Int) - 2 ^ 32

/-- The socket level `SOL_TCP`. -/
def SOL_TCP : Int := 6

/-- The socket option `TCP_INFO`. -/
def TCP_INFO : Int := 11

/-- The function `is_sk_buff_event(__u64 what)`. -/
def is_sk_buff_event (what : guess_what) : Bool :=
  what == guess_what.GUESS_SK_BUFF_SOCK || what == guess_what.GUESS_SK_BUFF_TRANSPORT_HEADER
    || what == guess_what.GUESS_SK_BUFF_HEAD

/-- The hook `kprobe__ip_make_skb` (lines 244-256). -/
def kprobe__ip_make_skb (K : kernel_mem) (sz : sizeof_t) (comm : proc_t) (maps : maps_t)
    (ctx : pt_regs) : hook_result :=
  match maps.tracer_status with
  | none => ⟨0, maps, none⟩
  | some status =>
    if is_sk_buff_event status.what then ⟨0, maps, none⟩
    else
      let fl4 := ctx.parm2
      ⟨0, { maps with tracer_status := some (guess_offsets K sz comm status fl4).2 }, some fl4⟩

/-- The hook `kprobe__ip6_make_skb` (lines 258-268). -/
def kprobe__ip6_make_skb (K : kernel_mem) (sz : sizeof_t) (comm : proc_t) (maps : maps_t)
    (ctx : pt_regs) : hook_result :=
  match maps.tracer_status with
  | none => ⟨0, maps, none⟩
  | some status =>
    if is_sk_buff_event status.what then ⟨0, maps, none⟩
    else
      let fl6 := ctx.parm7
      ⟨0, { maps with tracer_status := some (guess_offsets K sz comm status fl6).2 }, some fl6⟩

/-- The hook `kprobe__ip6_make_skb__pre_4_7_0` (lines 270-280). -/
def kprobe__ip6_make_skb__pre_4_7_0 (K : kernel_mem) (sz : sizeof_t) (comm : proc_t)
    (maps : maps_t) (ctx : pt_regs) : hook_result :=
  match maps.tracer_status with
  | none => ⟨0, maps, none⟩
  | some status =>
    if is_sk_buff_event status.what then ⟨0, maps, none⟩
    else
      let fl6 := ctx.parm9
      ⟨0, { maps with tracer_status := some (guess_offsets K sz comm status fl6).2 }, some fl6⟩

/-- The hook `kprobe__tcp_getsockopt` (lines 282-301).  The assignment to
`status->tcp_info_kprobe_status` goes through the pointer into the map, so the
engine runs on, and the map holds, the record with the flag set. -/
def kprobe__tcp_getsockopt (K : kernel_mem) (sz : sizeof_t) (comm : proc_t) (maps : maps_t)
    (ctx : pt_regs) : hook_result :=
  let level := cast_int ctx.parm2
  let optname := cast_int ctx.parm3
  if level ≠ SOL_TCP ∨ optname ≠ TCP_INFO then ⟨0, maps, none⟩
  else
    match maps.tracer_status with
    | none => ⟨0, maps, none⟩
    | some status =>
      if status.what == guess_what.GUESS_SOCKET_SK || is_sk_buff_event status.what then
        ⟨0, maps, none⟩
      else
        let sk := ctx.parm1
        let status := { status with tcp_info_kprobe_status := 1 }
        ⟨0, { maps with tracer_status := some (guess_offsets K sz comm status sk).2 }, some sk⟩

/-- The hook `kprobe__sock_common_getsockopt` (lines 303-315). -/
def kprobe__sock_common_getsockopt (K : kernel_mem) (sz : sizeof_t) (comm : proc_t)
    (maps : maps_t) (ctx : pt_regs) : hook_result :=
  match maps.tracer_status with
  | none => ⟨0, maps, none⟩
  | some status =>
    if status.what != guess_what.GUESS_SOCKET_SK then ⟨0, maps, none⟩
    else
      let socket := ctx.parm1
      ⟨0, { maps with tracer_status := some (guess_offsets K sz comm status socket).2 },
        some socket⟩

/-- The hook `kprobe__tcp_v6_connect` (lines 317-328), run by the thread with
id `pid`. -/
def kprobe__tcp_v6_connect (pid : Nat) (maps : maps_t) (ctx : pt_regs) : hook_result :=
  let sk := ctx.parm1
  let stash := hash_update maps.connectsock_ipv6 CONNECTSOCK_IPV6_MAX_ENTRIES pid sk
  ⟨0, { maps with connectsock_ipv6 := stash }, none⟩

/-- The hook `kretprobe__tcp_v6_connect` (lines 330-353), run by the thread
with id `pid`. -/
def kretprobe__tcp_v6_connect (K : kernel_mem) (sz : sizeof_t) (comm : proc_t) (pid : Nat)
    (maps : maps_t) : hook_result :=
  match hash_lookup maps.connectsock_ipv6 pid with
  | none =>
    -- missed entry
    ⟨0, maps, none⟩
  | some skp =>
    let maps := { maps with connectsock_ipv6 := hash_delete maps.connectsock_ipv6 pid }
    match maps.tracer_status with
    | none => ⟨0, maps, none⟩
    | some status =>
      if is_sk_buff_event status.what then ⟨0, maps, none⟩
      else
        ⟨0, { maps with tracer_status := some (guess_offsets K sz comm status skp).2 },
          some skp⟩

/-- The hook `tracepoint__net__net_dev_queue` (lines 360-372). -/
def tracepoint__net__net_dev_queue (K : kernel_mem) (sz : sizeof_t) (comm : proc_t)
    (maps : maps_t) (ctx : net_dev_queue_ctx) : hook_result :=
  match maps.tracer_status with
  | none => ⟨0, maps, none⟩
  | some status =>
    if !is_sk_buff_event status.what then ⟨0, maps, none⟩
    else
      ⟨0, { maps with tracer_status := some (guess_offsets K sz comm status ctx.skb).2 },
        some ctx.skb⟩

/-- The hook `kprobe___nf_conntrack_hash_insert` (lines 440-451). -/
def kprobe___nf_conntrack_hash_insert (K : kernel_mem) (sz : conntrack_sizeof_t)
    (comm : proc_t) (maps : maps_t) (ctx : pt_regs) : hook_result :=
  match maps.conntrack_status with
  | none => ⟨0, maps, none⟩
  | some status =>
    if !is_ct_event status.what then ⟨0, maps, none⟩
    else
      let ct := ctx.parm1
      ⟨0, { maps with conntrack_status := some (guess_conntrack_offsets K sz comm status ct).2 },
        some ct⟩

/-! ## HTTP/2 decoding over TLS (protocols/http2/decoding-tls.h)

The headers behind this file (decoding-common.h, decoding-defs.h and the map
definitions) are not among the sources.  Their constants and helper functions
are the fields of `decoding_common_h`; the members `off` and `len` of
`tls_dispatcher_arguments_t`, whose width is declared there, are kept as
natural numbers.  Values that the file itself declares as `__u64`, `__u32` or
`__u8` are reduced modulo their width. -/

/-- The prefix mask `MAX_6_BITS`. -/
def MAX_6_BITS : Nat := 63

/-- The prefix mask `MAX_7_BITS`. -/
def MAX_7_BITS : Nat := 127

/-- The record `tls_dispatcher_arguments_t`, with the members the decoder uses:
the user buffer, the read position in it and its length. -/
structure tls_dispatcher_arguments_t where
  buffer_ptr : Nat
  off : Nat
  len : Nat
deriving DecidableEq, Repr

/-- The helper `bpf_probe_read_user(dst, size, src)`, over the same byte image
as `bpf_probe_read_kernel`: return code and new contents of the destination. -/
def bpf_probe_read_user (K : kernel_mem) (dst size src : Nat) : Int × Nat :=
  bpf_probe_read_kernel K dst size src

/-- What an integer decoder leaves: its return value, `info` and `*out`. -/
structure hpack_int_result where
  ret : Bool
  info : tls_dispatcher_arguments_t
  out : Nat
deriving DecidableEq, Repr

/-- The function `tls_read_hpack_int_with_given_current_char` (lines 12-38);
`out` is the value that `*out` holds on entry. -/
def tls_read_hpack_int_with_given_current_char (K : kernel_mem)
    (info : tls_dispatcher_arguments_t) (current_char_as_number max_number_for_bits out : Nat) :
    hpack_int_result :=
  let current_char_as_number := current_char_as_number &&& max_number_for_bits
  if current_char_as_number < max_number_for_bits then
    ⟨true, info, current_char_as_number⟩
  else
    -- __u64 next_char = 0;
    let next_char := 0
    let r := bpf_probe_read_user K next_char 1 (ptr_add info.buffer_ptr info.off)
    let next_char := r.2
    if r.1 ≥ 0 ∧ next_char &&& 128 = 0 then
      ⟨true, { info with off := info.off + 1 }, add64 current_char_as_number (next_char &&& 127)⟩
    else
      ⟨false, info, out⟩

/-- What `tls_read_hpack_int` leaves: return value, `info`, `*out` and
`*is_huffman_encoded`. -/
structure hpack_read_result where
  ret : Bool
  info : tls_dispatcher_arguments_t
  out : Nat
  is_huffman_encoded : Bool
deriving DecidableEq, Repr

/-- The function `tls_read_hpack_int` (lines 53-64). -/
def tls_read_hpack_int (K : kernel_mem) (info : tls_dispatcher_arguments_t)
    (max_number_for_bits out : Nat) (is_huffman_encoded : Bool) : hpack_read_result :=
  -- __u64 current_char_as_number = 0;
  let current_char_as_number := 0
  let r := bpf_probe_read_user K current_char_as_number 1 (ptr_add info.buffer_ptr info.off)
  if r.1 < 0 then
    ⟨false, info, out, is_huffman_encoded⟩
  else
    let current_char_as_number := r.2
    let info := { info with off := info.off + 1 }
    let is_huffman_encoded := decide (current_char_as_number &&& 128 > 0)
    let q := tls_read_hpack_int_with_given_current_char K info current_char_as_number
      max_number_for_bits out
    ⟨q.ret, q.info, q.out, is_huffman_encoded⟩

/-- The enumeration `http2_header_type_t`. -/
inductive http2_header_type_t where
  | kStaticHeader
  | kExistingDynamicHeader
  | kNewDynamicHeader
deriving DecidableEq, Repr

/-- The record `http2_header_t`. -/
structure http2_header_t where
  index : Nat
  type : http2_header_type_t
  new_dynamic_value_offset : Nat
  new_dynamic_value_size : Nat
  is_huffman_encoded : Bool
deriving DecidableEq, Repr

/-- The record `http2_telemetry_t`, with the counters this file increments;
`path_size_bucket` stands for what `update_path_size_telemetry` maintains. -/
structure http2_telemetry_t where
  path_exceeds_frame : Nat
  exceeding_max_frames_to_filter : Nat
  exceeding_max_interesting_frames : Nat
  path_size_bucket : List Nat
deriving DecidableEq, Repr

/-- The record `http2_frame_t`: a frame header after formatting. -/
structure http2_frame_t where
  length : Nat
  type : Nat
  flags : Nat
  stream_id : Nat
deriving DecidableEq, Repr

/-- The record `http2_frame_with_offset`, one slot of `frames_array`. -/
structure http2_frame_with_offset where
  frame : http2_frame_t
  offset : Nat
deriving DecidableEq, Repr

/-- The record `dynamic_table_index_t`, as far as this file touches it. -/
structure dynamic_table_index_t where
  index : Nat
deriving DecidableEq, Repr

/-- What the headers that are not among the sources provide: constants, the
frame header reader generated by `READ_INTO_USER_BUFFER_WITHOUT_TELEMETRY`, and
the helpers `format_http2_frame_header`, `update_path_size_telemetry` and
`parse_field_indexed`.  `parse_field_indexed` receives and returns what it may
write: the dynamic index, the header slot (`none` for NULL) and the counter. -/
structure decoding_common_h where
  HTTP2_FRAME_HEADER_SIZE : Nat
  HTTP2_MAX_FRAMES_ITERATIONS : Nat
  HTTP2_MAX_FRAMES_TO_FILTER : Nat
  HTTP2_MAX_HEADERS_COUNT_FOR_FILTERING : Nat
  HTTP2_MAX_HEADERS_COUNT_FOR_PROCESSING : Nat
  HTTP2_MAX_PATH_LEN : Nat
  HTTP2_END_OF_STREAM : Nat
  kIndexPath : Nat
  kDataFrame : Nat
  kHeadersFrame : Nat
  kRSTStreamFrame : Nat
  read_into_user_buffer_http2_frame_header : kernel_mem → http2_frame_t → Nat → http2_frame_t
  format_http2_frame_header : http2_frame_t → Bool × http2_frame_t
  update_path_size_telemetry : http2_telemetry_t → Nat → http2_telemetry_t
  parse_field_indexed : dynamic_table_index_t → Option http2_header_t → Nat → Nat → Nat →
    dynamic_table_index_t × Option http2_header_t × Nat

/-- What `tls_parse_field_literal` leaves: return value, `info`, the header
slot, the counter of interesting headers and the telemetry. -/
structure parse_field_literal_result where
  ret : Bool
  info : tls_dispatcher_arguments_t
  headers_to_process : Option http2_header_t
  interesting_headers_counter : Nat
  http2_tel : http2_telemetry_t
deriving DecidableEq, Repr

/-- The function `tls_parse_field_literal` (lines 66-122).  `headers_to_process`
is `none` for a NULL pointer; the counter is a `__u8`. -/
def tls_parse_field_literal (H : decoding_common_h) (K : kernel_mem)
    (info : tls_dispatcher_arguments_t) (headers_to_process : Option http2_header_t)
    (index global_dynamic_counter interesting_headers_counter : Nat)
    (http2_tel : http2_telemetry_t) : parse_field_literal_result :=
  -- __u64 str_len = 0; bool is_huffman_encoded = false;
  let str_len := 0
  let is_huffman_encoded := false
  let r := tls_read_hpack_int K info MAX_7_BITS str_len is_huffman_encoded
  if !r.ret then
    ⟨false, r.info, headers_to_process, interesting_headers_counter, http2_tel⟩
  else
    let info := r.info
    let str_len := r.out
    let is_huffman_encoded := r.is_huffman_encoded
    if index = 0 then
      let info := { info with off := info.off + str_len }
      let str_len := 0
      let r := tls_read_hpack_int K info MAX_7_BITS str_len is_huffman_encoded
      if !r.ret then
        ⟨false, r.info, headers_to_process, interesting_headers_counter, http2_tel⟩
      else
        -- goto end
        ⟨true, { r.info with off := r.info.off + r.out }, headers_to_process,
          interesting_headers_counter, http2_tel⟩
    else if index = H.kIndexPath then
      let http2_tel := H.update_path_size_telemetry http2_tel str_len
      match headers_to_process with
      | none =>
        -- goto end
        ⟨true, { info with off := info.off + str_len }, none, interesting_headers_counter,
          http2_tel⟩
      | some header =>
        if info.off + str_len > info.len then
          let http2_tel := { http2_tel with
            path_exceeds_frame := add64 http2_tel.path_exceeds_frame 1 }
          -- goto end
          ⟨true, { info with off := info.off + str_len }, some header,
            interesting_headers_counter, http2_tel⟩
        else
          let header := { header with
            index := sub64 global_dynamic_counter 1,
            type := http2_header_type_t.kNewDynamicHeader,
            new_dynamic_value_offset := info.off,
            new_dynamic_value_size := str_len,
            is_huffman_encoded := is_huffman_encoded }
          let interesting_headers_counter := (interesting_headers_counter +
            (if str_len > 0 ∧ str_len ≤ H.HTTP2_MAX_PATH_LEN then 1 else 0)) % 256
          -- end:
          ⟨true, { info with off := info.off + str_len }, some header,
            interesting_headers_counter, http2_tel⟩
    else
      -- goto end
      ⟨true, { info with off := info.off + str_len }, headers_to_process,
        interesting_headers_counter, http2_tel⟩

/-- Assignment to one slot of an array. -/
def array_set {α : Type} (a : Nat → α) (i : Nat) (v : α) : Nat → α :=
  fun j => if j = i then v else a j

/-- The variables of `tls_filter_relevant_headers` that live across iterations
of its loop, and `parsed`, the offsets of the bytes that were handed to the
integer decoder as the first byte of a header representation. -/
structure filter_state where
  info : tls_dispatcher_arguments_t
  dynamic_index : dynamic_table_index_t
  headers_to_process : Nat → http2_header_t
  http2_tel : http2_telemetry_t
  global_dynamic_counter : Nat
  current_ch : Nat
  interesting_headers : Nat
  is_dynamic_table_update : Bool
  parsed : List Nat

/-- The loop of `tls_filter_relevant_headers` (lines 144-205) with `n`
iterations left and the bound `end_` computed before it. -/
def tls_filter_relevant_headers_loop (H : decoding_common_h) (K : kernel_mem) (end_ : Nat) :
    Nat → filter_state → filter_state
  | 0, s => s
  | n + 1, s =>
    if s.info.off ≥ end_ then s
    else
      let current_ch := (bpf_probe_read_user K s.current_ch 1
        (ptr_add s.info.buffer_ptr s.info.off)).2
      let at_off := s.info.off
      let s := { s with current_ch := current_ch, info := { s.info with off := s.info.off + 1 } }
      if s.is_dynamic_table_update then
        tls_filter_relevant_headers_loop H K end_ n
          { s with is_dynamic_table_update := decide (current_ch &&& 128 ≠ 0) }
      else if current_ch &&& 224 = 0 then
        tls_filter_relevant_headers_loop H K end_ n s
      else
        let s := { s with is_dynamic_table_update := decide (current_ch &&& 224 = 32) }
        if s.is_dynamic_table_update then
          tls_filter_relevant_headers_loop H K end_ n s
        else
          let is_indexed := decide (current_ch &&& 128 ≠ 0)
          let max_bits := if is_indexed then MAX_7_BITS else MAX_6_BITS
          let index := 0
          let q := tls_read_hpack_int_with_given_current_char K s.info current_ch max_bits index
          let s := { s with info := q.info, parsed := s.parsed ++ [at_off] }
          if !q.ret then s
          else
            let index := q.out
            let slot := s.interesting_headers
            let current_header :=
              if s.interesting_headers < H.HTTP2_MAX_HEADERS_COUNT_FOR_PROCESSING then
                some (s.headers_to_process slot)
              else none
            if is_indexed then
              let r := H.parse_field_indexed s.dynamic_index current_header index
                s.global_dynamic_counter s.interesting_headers
              let s := { s with
                dynamic_index := r.1,
                headers_to_process := match r.2.1 with
                  | some header => array_set s.headers_to_process slot header
                  | none => s.headers_to_process,
                interesting_headers := r.2.2 }
              tls_filter_relevant_headers_loop H K end_ n s
            else
              let s := { s with global_dynamic_counter := add64 s.global_dynamic_counter 1 }
              let r := tls_parse_field_literal H K s.info current_header index
                s.global_dynamic_counter s.interesting_headers s.http2_tel
              let s := { s with
                info := r.info,
                headers_to_process := match r.headers_to_process with
                  | some header => array_set s.headers_to_process slot header
                  | none => s.headers_to_process,
                interesting_headers := r.interesting_headers_counter,
                http2_tel := r.http2_tel }
              if !r.ret then s
              else tls_filter_relevant_headers_loop H K end_ n s

/-- The function `tls_filter_relevant_headers` (lines 124-208).
`global_dynamic_counter` is what `get_dynamic_counter(&info->tup)` finds, `none`
for NULL; `current_ch` is the content of the uninitialised local of that name.
The result is the state after the loop, whose `interesting_headers` is the
return value, or `none` when the function returns 0 at once. -/
def tls_filter_relevant_headers (H : decoding_common_h) (K : kernel_mem)
    (info : tls_dispatcher_arguments_t) (dynamic_index : dynamic_table_index_t)
    (headers_to_process : Nat → http2_header_t) (frame_length : Nat)
    (http2_tel : http2_telemetry_t) (global_dynamic_counter : Option Nat) (current_ch : Nat) :
    Option filter_state :=
  -- const __u32 frame_end = info->off + frame_length;
  let frame_end := (info.off + frame_length) % 2 ^ 32
  -- const __u32 end = frame_end < info->len + 1 ? frame_end : info->len + 1;
  let end_ := if frame_end < info.len + 1 then frame_end else (info.len + 1) % 2 ^ 32
  match global_dynamic_counter with
  | none => none
  | some counter =>
    some (tls_filter_relevant_headers_loop H K end_ H.HTTP2_MAX_HEADERS_COUNT_FOR_FILTERING
      ⟨info, dynamic_index, headers_to_process, http2_tel, counter, current_ch, 0, false, []⟩)

/-- The record `http2_tail_call_state_t`, with the members
`tls_find_relevant_frames` uses. -/
structure http2_tail_call_state_t where
  frames_count : Nat
  frames_array : Nat → http2_frame_with_offset

/-- One frame met by the scan of `tls_find_relevant_frames`: the offset at
which its header starts, the formatted header, `frames_count` when it was met
and whether it was stored in `frames_array` (at that index). -/
structure scanned_frame where
  header_off : Nat
  frame : http2_frame_t
  count_before : Nat
  appended : Bool
deriving DecidableEq, Repr

/-- The variables of `tls_find_relevant_frames`, and two records of what it
did: `header_reads`, the number of frame headers read, and `scanned`, the valid
frames met, in order. -/
structure find_frames_state where
  info : tls_dispatcher_arguments_t
  iteration_value : http2_tail_call_state_t
  http2_tel : http2_telemetry_t
  current_frame : http2_frame_t
  iteration : Nat
  header_reads : Nat
  scanned : List scanned_frame

/-- The test of lines 434-435: a HEADERS frame, a RST_STREAM frame, or a DATA
frame with the END_STREAM flag set. -/
def is_relevant_frame (H : decoding_common_h) (current_frame : http2_frame_t) : Bool :=
  let is_headers_or_rst_frame :=
    current_frame.type == H.kHeadersFrame || current_frame.type == H.kRSTStreamFrame
  let is_data_end_of_stream :=
    (current_frame.flags &&& H.HTTP2_END_OF_STREAM == H.HTTP2_END_OF_STREAM)
      && (current_frame.type == H.kDataFrame)
  is_headers_or_rst_frame || is_data_end_of_stream

/-- The body of the loop of `tls_find_relevant_frames` (lines 420-446): the
state it leaves, and `false` when it leaves the loop through `break`. -/
def tls_find_relevant_frames_body (H : decoding_common_h) (K : kernel_mem)
    (s : find_frames_state) : find_frames_state × Bool :=
  if s.info.off + H.HTTP2_FRAME_HEADER_SIZE > s.info.len then (s, false)
  else
    let header_off := s.info.off
    let current_frame := H.read_into_user_buffer_http2_frame_header K s.current_frame
      (ptr_add s.info.buffer_ptr s.info.off)
    let s := { s with
      current_frame := current_frame,
      header_reads := s.header_reads + 1,
      info := { s.info with off := s.info.off + H.HTTP2_FRAME_HEADER_SIZE } }
    let f := H.format_http2_frame_header s.current_frame
    let s := { s with current_frame := f.2 }
    if !f.1 then (s, false)
    else
      let count_before := s.iteration_value.frames_count
      let append := decide (s.iteration_value.frames_count < H.HTTP2_MAX_FRAMES_ITERATIONS)
        && is_relevant_frame H s.current_frame
      let s :=
        if append then
          { s with iteration_value :=
              { frames_count := s.iteration_value.frames_count + 1,
                frames_array := array_set s.iteration_value.frames_array
                  s.iteration_value.frames_count ⟨s.current_frame, s.info.off⟩ } }
        else s
      let s := { s with
        info := { s.info with off := s.info.off + s.current_frame.length },
        scanned := s.scanned ++ [⟨header_off, s.current_frame, count_before, append⟩] }
      if s.iteration_value.frames_count ≥ H.HTTP2_MAX_FRAMES_ITERATIONS then (s, false)
      else (s, true)

/-- The loop of `tls_find_relevant_frames` (lines 417-447) with `n` iterations
left: `iteration` is incremented after each body that does not break. -/
def tls_find_relevant_frames_loop (H : decoding_common_h) (K : kernel_mem) :
    Nat → find_frames_state → find_frames_state
  | 0, s => s
  | n + 1, s =>
    let r := tls_find_relevant_frames_body H K s
    if r.2 then tls_find_relevant_frames_loop H K n { r.1 with iteration := r.1.iteration + 1 }
    else r.1

/-- The function `tls_find_relevant_frames` (lines 398-457). -/
def tls_find_relevant_frames (H : decoding_common_h) (K : kernel_mem)
    (info : tls_dispatcher_arguments_t) (iteration_value : http2_tail_call_state_t)
    (http2_tel : http2_telemetry_t) : find_frames_state :=
  -- http2_frame_t current_frame = {};
  let current_frame : http2_frame_t := ⟨0, 0, 0, 0⟩
  if iteration_value.frames_count ≥ H.HTTP2_MAX_FRAMES_ITERATIONS then
    ⟨info, iteration_value, http2_tel, current_frame, 0, 0, []⟩
  else
    let s := tls_find_relevant_frames_loop H K H.HTTP2_MAX_FRAMES_TO_FILTER
      ⟨info, iteration_value, http2_tel, current_frame, 0, 0, []⟩
    let s :=
      if s.iteration = H.HTTP2_MAX_FRAMES_TO_FILTER
          ∧ s.info.off + H.HTTP2_FRAME_HEADER_SIZE ≤ s.info.len then
        { s with http2_tel := { s.http2_tel with
            exceeding_max_frames_to_filter := add64 s.http2_tel.exceeding_max_frames_to_filter 1 } }
      else s
    if s.iteration_value.frames_count = H.HTTP2_MAX_FRAMES_ITERATIONS then
      { s with http2_tel := { s.http2_tel with
          exceeding_max_interesting_frames :=
            add64 s.http2_tel.exceeding_max_interesting_frames 1 } }
    else s

/-! ## Connection statistics (tracer-conn-stats.h)

The headers behind this file (tracer.h, tracer-conn-maps.h and
tracer-telemetry.h) are not among the sources.  What they fix, the capacity of
the hash map `conn_stats` and the size of `conn_stats_ts_t`, are the fields of
`tracer_conn_maps_h`; records are kept as the sequence of their bytes. -/

/-- The record `conn_tuple_t`: the member `pid`, which `get_conn_stats` moves
through a `u32`, and the remaining members as the sequence of their bytes. -/
structure conn_tuple_t where
  pid : Nat
  rest : List Nat
deriving DecidableEq, Repr

/-- The record `conn_stats_ts_t`, as the sequence of its bytes. -/
structure conn_stats_ts_t where
  bytes : List Nat
deriving DecidableEq, Repr

/-- What the missing headers fix for `get_conn_stats`: the capacity of the map
`conn_stats` and `sizeof(conn_stats_ts_t)`. -/
structure tracer_conn_maps_h where
  CONN_STATS_MAX_ENTRIES : Nat
  SIZEOF_CONN_STATS_TS_T : Nat
deriving DecidableEq, Repr

/-- The error code `E2BIG`. -/
def E2BIG : Int := 7

/-- The error code `EEXIST`. -/
def EEXIST : Int := 17

/-- The map `conn_stats`, kept as an association list, and the telemetry
counter `conn_stats_max_entries_hit`. -/
structure conn_maps_t where
  conn_stats : List (conn_tuple_t × conn_stats_ts_t)
  conn_stats_max_entries_hit : Nat
deriving DecidableEq, Repr

/-- Update of a hash map of capacity `max_entries` with flag `BPF_NOEXIST`
(`bpf_map_update_elem`): return code and map afterwards.  An existing key makes
the update fail with `-EEXIST`, a new key is inserted while there is room, and
the update fails with `-E2BIG` when the map is full; a failing update leaves the
map as it was. -/
def hash_update_noexist (m : List (conn_tuple_t × conn_stats_ts_t)) (max_entries : Nat)
    (key : conn_tuple_t) (value : conn_stats_ts_t) :
    Int × List (conn_tuple_t × conn_stats_ts_t) :=
  if (m.lookup key).isSome then (-EEXIST, m)
  else if m.length < max_entries then (0, (key, value) :: m)
  else (-E2BIG, m)

/-- The helper `increment_telemetry_count(conn_stats_max_entries_hit)` of
tracer-telemetry.h, taken to add one to the `u64` counter it names. -/
def increment_telemetry_count (counter : Nat) : Nat := add64 counter 1

/-- What `get_conn_stats` leaves: the entry behind the returned pointer `s`
(`none` for NULL), the maps, and the tuple `*t`. -/
structure get_conn_stats_result where
  s : Option conn_stats_ts_t
  maps : conn_maps_t
  t : conn_tuple_t
deriving DecidableEq, Repr

/-- The function `get_conn_stats(conn_tuple_t *t)` (lines 8-22). -/
def get_conn_stats (P : tracer_conn_maps_h) (maps : conn_maps_t) (t : conn_tuple_t) :
    get_conn_stats_result :=
  -- u32 pid = 0; pid = t->pid;
  let pid := t.pid % 2 ^ 32
  -- t->pid = 0;
  let t := { t with pid := 0 }
  -- conn_stats_ts_t empty = {}; __builtin_memset(&empty, 0, sizeof(conn_stats_ts_t));
  let empty : conn_stats_ts_t := ⟨List.replicate P.SIZEOF_CONN_STATS_TS_T 0⟩
  let r := hash_update_noexist maps.conn_stats P.CONN_STATS_MAX_ENTRIES t empty
  let maps := { maps with conn_stats := r.2 }
  let maps :=
    if r.1 = -E2BIG then
      { maps with
        conn_stats_max_entries_hit := increment_telemetry_count maps.conn_stats_max_entries_hit }
    else maps
  let s := maps.conn_stats.lookup t
  -- t->pid = pid;
  let t := { t with pid := pid }
  ⟨s, maps, t⟩

/-! ## Predicates used in the statements -/

/-- The alignment sizes for which `aligned_offset` is specified. -/
def size_ok (s : Nat) : Prop := s = 1 ∨ s = 2 ∨ s = 4 ∨ s = 8

instance (s : Nat) : Decidable (size_ok s) := by
  unfold size_ok
  infer_instance

/-- An invocation of `guess_offsets` on `status` from a thread named `comm`
reaches the case of target `what`: the state is CHECKING, the thread name
matches and `what` is the target of the record. -/
def runs_case (status : tracer_status_t) (comm : proc_t) (what : guess_what) : Prop :=
  status.state = guess_state.STATE_CHECKING ∧ proc_t_comm_equals status.proc comm = true ∧
    status.what = what

instance (status : tracer_status_t) (comm : proc_t) (what : guess_what) :
    Decidable (runs_case status comm what) := by
  unfold runs_case
  infer_instance

/-- The test for relevant frames in the words of the comment above
`tls_find_relevant_frames`: a HEADERS frame, a RST_STREAM frame, or a DATA frame
with the END_STREAM flag set. -/
def spec_relevant (H : decoding_common_h) (f : http2_frame_t) : Prop :=
  f.type = H.kHeadersFrame ∨ f.type = H.kRSTStreamFrame ∨
    (f.type = H.kDataFrame ∧ f.flags &&& H.HTTP2_END_OF_STREAM = H.HTTP2_END_OF_STREAM)

instance (H : decoding_common_h) (f : http2_frame_t) : Decidable (spec_relevant H f) := by
  unfold spec_relevant
  infer_instance

/-- The frames of a packet, as a specification independent of the loop of
`tls_find_relevant_frames`: from offset `off` on, as long as a frame header of
HTTP2_FRAME_HEADER_SIZE bytes ends at or before `len` and is valid, the frame
whose header is read at `buffer_ptr + off`, paired with the offset of its
header, followed by the frames from the end of its payload on; at most `n`
frames.  `cur` is what the header buffer holds before the read. -/
def spec_frames_of_packet (H : decoding_common_h) (K : kernel_mem) (buffer_ptr len : Nat) :
    Nat → Nat → http2_frame_t → List (Nat × http2_frame_t)
  | 0, _, _ => []
  | n + 1, off, cur =>
    if off + H.HTTP2_FRAME_HEADER_SIZE > len then []
    else
      let f := H.format_http2_frame_header
        (H.read_into_user_buffer_http2_frame_header K cur (ptr_add buffer_ptr off))
      if f.1 = false then []
      else
        (off, f.2) :: spec_frames_of_packet H K buffer_ptr len n
          (off + H.HTTP2_FRAME_HEADER_SIZE + f.2.length) f.2

/-- The frame table after a list of frames, each with the offset of its header,
has been gone through, as a specification: a relevant frame is appended at
index frames_count, with the offset right after its header, as long as
frames_count < HTTP2_MAX_FRAMES_ITERATIONS, and frames_count counts the entries
appended; any other frame leaves the table as it is. -/
def spec_append_relevant (H : decoding_common_h) :
    http2_tail_call_state_t → List (Nat × http2_frame_t) → http2_tail_call_state_t
  | iteration_value, [] => iteration_value
  | iteration_value, e :: rest =>
    if iteration_value.frames_count < H.HTTP2_MAX_FRAMES_ITERATIONS ∧ spec_relevant H e.2 then
      spec_append_relevant H
        ⟨iteration_value.frames_count + 1,
          array_set iteration_value.frames_array iteration_value.frames_count
            ⟨e.2, e.1 + H.HTTP2_FRAME_HEADER_SIZE⟩⟩ rest
    else spec_append_relevant H iteration_value rest

/-- The candidate offsets with those that belong to target `what` set to 0:
the offset of the target itself, and with it `ino` for GUESS_NETNS and `rtt_var`
for GUESS_RTT.  Two records agree on every other offset exactly when their
images are equal. -/
def offsets_t.forget (what : guess_what) (o : offsets_t) : offsets_t :=
  match what with
  | .GUESS_SADDR => { o with saddr := 0 }
  | .GUESS_DADDR => { o with daddr := 0 }
  | .GUESS_FAMILY => { o with family := 0 }
  | .GUESS_SPORT => { o with sport := 0 }
  | .GUESS_DPORT => { o with dport := 0 }
  | .GUESS_SADDR_FL4 => { o with saddr_fl4 := 0 }
  | .GUESS_DADDR_FL4 => { o with daddr_fl4 := 0 }
  | .GUESS_SPORT_FL4 => { o with sport_fl4 := 0 }
  | .GUESS_DPORT_FL4 => { o with dport_fl4 := 0 }
  | .GUESS_SADDR_FL6 => { o with saddr_fl6 := 0 }
  | .GUESS_DADDR_FL6 => { o with daddr_fl6 := 0 }
  | .GUESS_SPORT_FL6 => { o with sport_fl6 := 0 }
  | .GUESS_DPORT_FL6 => { o with dport_fl6 := 0 }
  | .GUESS_NETNS => { o with netns := 0, ino := 0 }
  | .GUESS_RTT => { o with rtt := 0, rtt_var := 0 }
  | .GUESS_DADDR_IPV6 => { o with daddr_ipv6 := 0 }
  | .GUESS_SOCKET_SK => { o with socket_sk := 0 }
  | .GUESS_SK_BUFF_SOCK => { o with sk_buff_sock := 0 }
  | .GUESS_SK_BUFF_TRANSPORT_HEADER => { o with sk_buff_transport_header := 0 }
  | .GUESS_SK_BUFF_HEAD => { o with sk_buff_head := 0 }
  | .unrecognized _ => o

/-- The discovered values with those that belong to target `what` set to 0:
the value of the target itself, and with it `rtt_var` for GUESS_RTT, the two
port values read through the pointer for the pointer targets GUESS_SOCKET_SK,
GUESS_SK_BUFF_SOCK and GUESS_SK_BUFF_HEAD, and `network_header` and
`mac_header` for GUESS_SK_BUFF_TRANSPORT_HEADER. -/
def values_t.forget (what : guess_what) (v : values_t) : values_t :=
  match what with
  | .GUESS_SADDR => { v with saddr := 0 }
  | .GUESS_DADDR => { v with daddr := 0 }
  | .GUESS_FAMILY => { v with family := 0 }
  | .GUESS_SPORT => { v with sport := 0 }
  | .GUESS_DPORT => { v with dport := 0 }
  | .GUESS_SADDR_FL4 => { v with saddr_fl4 := 0 }
  | .GUESS_DADDR_FL4 => { v with daddr_fl4 := 0 }
  | .GUESS_SPORT_FL4 => { v with sport_fl4 := 0 }
  | .GUESS_DPORT_FL4 => { v with dport_fl4 := 0 }
  | .GUESS_SADDR_FL6 => { v with saddr_fl6 := 0 }
  | .GUESS_DADDR_FL6 => { v with daddr_fl6 := 0 }
  | .GUESS_SPORT_FL6 => { v with sport_fl6 := 0 }
  | .GUESS_DPORT_FL6 => { v with dport_fl6 := 0 }
  | .GUESS_NETNS => { v with netns := 0 }
  | .GUESS_RTT => { v with rtt := 0, rtt_var := 0 }
  | .GUESS_DADDR_IPV6 => { v with daddr_ipv6 := 0 }
  | .GUESS_SOCKET_SK => { v with sport_via_sk := 0, dport_via_sk := 0 }
  | .GUESS_SK_BUFF_SOCK => { v with sport_via_sk_via_sk_buff := 0, dport_via_sk_via_sk_buff := 0 }
  | .GUESS_SK_BUFF_TRANSPORT_HEADER =>
    { v with transport_header := 0, network_header := 0, mac_header := 0 }
  | .GUESS_SK_BUFF_HEAD => { v with sport_via_sk_buff := 0, dport_via_sk_buff := 0 }
  | .unrecognized _ => v

/-! ## Simulated inputs

Concrete records, names and memory images on which the statements below are
evaluated. -/

/-- Candidate offsets as the driver initialises them. -/
def zero_offsets : offsets_t :=
  ⟨0, 0, 0, 0, 0, 0, 0, 0, 0, 0, 0, 0, 0, 0, 0, 0, 0, 0, 0, 0, 0, 0⟩

/-- Discovered values before any attempt. -/
def zero_values : values_t :=
  ⟨0, 0, 0, 0, 0, 0, 0, 0, 0, 0, 0, 0, 0, 0, 0, 0, 0, 0, 0, 0, 0, 0, 0, 0, 0, 0⟩

/-- One choice of alignment constants, each of them 2, 4 or 8. -/
def sim_sizes : sizeof_t :=
  ⟨4, 4, 2, 2, 2, 4, 4, 2, 2, 8, 8, 2, 2, 8, 4, 4, 4, 8, 8, 8, 2, 8⟩

/-- The name "system-probe", padded with NUL bytes. -/
def sim_comm : proc_t :=
  ⟨[115, 121, 115, 116, 101, 109, 45, 112, 114, 111, 98, 101, 0, 0, 0, 0]⟩

/-- The name "system-probe" followed by other bytes after its terminator. -/
def sim_comm_garbage : proc_t :=
  ⟨[115, 121, 115, 116, 101, 109, 45, 112, 114, 111, 98, 101, 0, 7, 8, 9]⟩

/-- The name "curl", padded with NUL bytes. -/
def sim_other_comm : proc_t :=
  ⟨[99, 117, 114, 108, 0, 0, 0, 0, 0, 0, 0, 0, 0, 0, 0, 0]⟩

/-- A record armed by a driver thread named `sim_comm`. -/
def sim_status (st : guess_state) (what : guess_what) : tracer_status_t :=
  ⟨st, what, sim_comm, 0, 0, zero_offsets, zero_values⟩

/-- An 8-aligned kernel address. -/
def sim_subject : Nat := 0xffff888000001000

/-- A memory image in which every address is invalid; a faulting read leaves
its destination as it was. -/
def sim_invalid : kernel_mem := ⟨fun _ => none, fun old _ => old⟩

/-- A memory image holding `bytes` from address `base` on and nothing else; a
faulting read zero-fills its destination. -/
def sim_image (base : Nat) (bytes : List Nat) : kernel_mem :=
  ⟨fun a => if base ≤ a then bytes.get? (a - base) else none, fun _ _ => 0⟩

/-- Maps holding one primary record and an empty stash. -/
def sim_maps (status : tracer_status_t) : maps_t :=
  ⟨some status, none, []⟩

/-- Registers of a probed call: pointers in the argument slots, `SOL_TCP` and
`TCP_INFO` where `tcp_getsockopt` expects level and option name. -/
def sim_regs : pt_regs :=
  ⟨0xffff888000001000, 6, 11, 0xffff888000002000, 0xffff888000003000⟩

/-- One choice of conntrack alignment constants. -/
def sim_ct_sizes : conntrack_sizeof_t := ⟨4, 4, 8, 8⟩

/-- A conntrack record armed by a driver thread named `sim_comm`. -/
def sim_ct_status (st : guess_state) (what : conntrack_guess_what)
    (offsets : conntrack_offsets_t) (values : conntrack_values_t) : conntrack_status_t :=
  ⟨st, what, sim_comm, offsets, values⟩

/-- A stash filled to capacity with entries of the threads 1 to 1024. -/
def sim_full_stash : List (Nat × Nat) :=
  (List.range 1024).map (fun i => (i + 1, sim_subject))

/-- A frame header reader for evaluation: the nine bytes at `src` as length
(24 bits, big-endian), type, flags and stream identifier (31 bits); a faulting
read leaves the destination as it was. -/
def sim_read_frame_header (K : kernel_mem) (old : http2_frame_t) (src : Nat) : http2_frame_t :=
  match K.byte src, K.byte (src + 1), K.byte (src + 2), K.byte (src + 3), K.byte (src + 4),
      load_bytes K (src + 5) 4 with
  | some b0, some b1, some b2, some b3, some b4, some sid =>
    ⟨65536 * b0 + 256 * b1 + b2, b3, b4,
      (16777216 * (sid % 256) + 65536 * (sid / 256 % 256) + 256 * (sid / 65536 % 256)
        + sid / 16777216) % 2147483648⟩
  | _, _, _, _, _, _ => old

/-- One choice of what the missing headers provide, for evaluation: frame types
and static table indexes as in RFC 7540 and RFC 7541, small loop bounds, a frame
is valid when its type is at most 9, and an indexed header is counted when a
slot is available. -/
def sim_decoding : decoding_common_h where
  HTTP2_FRAME_HEADER_SIZE := 9
  HTTP2_MAX_FRAMES_ITERATIONS := 2
  HTTP2_MAX_FRAMES_TO_FILTER := 4
  HTTP2_MAX_HEADERS_COUNT_FOR_FILTERING := 8
  HTTP2_MAX_HEADERS_COUNT_FOR_PROCESSING := 3
  HTTP2_MAX_PATH_LEN := 160
  HTTP2_END_OF_STREAM := 1
  kIndexPath := 5
  kDataFrame := 0
  kHeadersFrame := 1
  kRSTStreamFrame := 3
  read_into_user_buffer_http2_frame_header := sim_read_frame_header
  format_http2_frame_header := fun frame => (decide (frame.type ≤ 9), frame)
  update_path_size_telemetry := fun tel n =>
    { tel with path_size_bucket := n :: tel.path_size_bucket }
  parse_field_indexed := fun dynamic_index header index _ counter =>
    match header with
    | some h =>
      (dynamic_index, some { h with index := index, type := http2_header_type_t.kStaticHeader },
        (counter + 1) % 256)
    | none => (dynamic_index, none, counter)

/-- Address of a user buffer. -/
def sim_buffer : Nat := 0x7f0000001000

/-- A decoder position at the start of a user buffer of `len` bytes. -/
def sim_info (len : Nat) : tls_dispatcher_arguments_t := ⟨sim_buffer, 0, len⟩

/-- Telemetry with every counter at zero. -/
def zero_telemetry : http2_telemetry_t := ⟨0, 0, 0, []⟩

/-- A header slot filled with zeros. -/
def zero_header : http2_header_t := ⟨0, http2_header_type_t.kStaticHeader, 0, 0, false⟩

/-- A frame slot filled with zeros. -/
def zero_frame_slot : http2_frame_with_offset := ⟨⟨0, 0, 0, 0⟩, 0⟩


/-- A buffer of three frames: HEADERS (length 2, flags END_HEADERS, stream 1)
with two indexed headers, SETTINGS (length 0, stream 0), and DATA (length 1,
flags END_STREAM, stream 1). -/
def sim_frames : List Nat :=
  [0, 0, 2, 1, 4, 0, 0, 0, 1, 130, 132,
   0, 0, 0, 4, 0, 0, 0, 0, 0,
   0, 0, 1, 0, 1, 0, 0, 0, 1, 97]

/-- An empty frame table. -/
def zero_frames : http2_tail_call_state_t := ⟨0, fun _ => zero_frame_slot⟩

/-- One choice of what the missing headers fix: a `conn_stats` map of two
entries and statistics records of four bytes. -/
def sim_conn_maps_h : tracer_conn_maps_h := ⟨2, 4⟩

/-- A connection tuple owned by process 4242. -/
def sim_tuple : conn_tuple_t := ⟨4242, [10, 0, 0, 1, 10, 0, 0, 2, 31, 144, 1, 187]⟩

/-- Another connection tuple of the same process. -/
def sim_tuple_other : conn_tuple_t := ⟨4242, [10, 0, 0, 1, 10, 0, 0, 3, 31, 144, 0, 80]⟩

/-! ## Properties of aligned_offset -/

/-- Closed form of `aligned_offset` for the sizes 1, 2, 4 and 8: the offset is
moved up by the distance of `p + offset` to the next multiple of the size, and
the sum is reduced modulo `2 ^ 64`. -/
theorem aligned_offset_closed_form (p o s : Nat) (hs : s = 1 ∨ s = 2 ∨ s = 4 ∨ s = 8) :
    aligned_offset p o s = (o + (s - 1 - (p + o + s - 1) % s)) % U64 := by
  unfold aligned_offset sub64 add64 U64
  rcases hs with rfl | rfl | rfl | rfl <;> simp only [] <;> omega

/-- The result of `aligned_offset` always aligns `p`, wrap-around or not. -/
theorem aligned_offset_aligned (p o s : Nat) (hs : s = 1 ∨ s = 2 ∨ s = 4 ∨ s = 8) :
    (p + aligned_offset p o s) % s = 0 := by
  rw [aligned_offset_closed_form p o s hs]
  unfold U64
  rcases hs with rfl | rfl | rfl | rfl <;> omega

/-- When some `u64` offset at or above `o` aligns `p`, the result is the least
such offset. -/
theorem aligned_offset_min_of_exists (p o s : Nat) (hs : s = 1 ∨ s = 2 ∨ s = 4 ∨ s = 8)
    (hex : ∃ t, o ≤ t ∧ t < U64 ∧ (p + t) % s = 0) :
    o ≤ aligned_offset p o s ∧ (p + aligned_offset p o s) % s = 0 ∧
      ∀ t, o ≤ t → t < aligned_offset p o s → (p + t) % s ≠ 0 := by
  obtain ⟨t, h1, h2, h3⟩ := hex
  rw [aligned_offset_closed_form p o s hs]
  unfold U64 at *
  rcases hs with rfl | rfl | rfl | rfl <;> refine ⟨?_, ?_, ?_⟩ <;> omega

/-- From an aligned offset, resubmitting it plus one moves one stride up, as
long as the stride stays below `2 ^ 64`. -/
theorem aligned_offset_step (p a s : Nat) (hs : s = 1 ∨ s = 2 ∨ s = 4 ∨ s = 8)
    (ha : (p + a) % s = 0) (hlt : a + s < U64) :
    aligned_offset p (a + 1) s = a + s := by
  rw [aligned_offset_closed_form p (a + 1) s hs]
  unfold U64 at *
  rcases hs with rfl | rfl | rfl | rfl <;> omega

/-- Attempt `k` of the retry protocol is the first result plus `k` strides, as
long as that stays below `2 ^ 64`. -/
theorem attempts_eq (p s o : Nat) (hs : s = 1 ∨ s = 2 ∨ s = 4 ∨ s = 8) :
    ∀ k, aligned_offset p o s + k * s < U64 →
      attempts p s o k = aligned_offset p o s + k * s := by
  intro k
  induction k with
  | zero => intro _; simp [attempts]
  | succ k ih =>
    intro hk
    have hk1 : aligned_offset p o s + k * s + s < U64 := by
      have : (k + 1) * s = k * s + s := by ring
      omega
    have hprev := ih (by omega)
    have hal : (p + (aligned_offset p o s + k * s)) % s = 0 := by
      have h0 := aligned_offset_aligned p o s hs
      have : p + (aligned_offset p o s + k * s) = (p + aligned_offset p o s) + k * s := by ring
      rw [this, Nat.add_mul_mod_self_right]
      exact h0
    show aligned_offset p (attempts p s o k + 1) s = _
    rw [hprev, aligned_offset_step p _ s hs hal hk1]
    ring

/-- C1 (as stated, refuted): at the 8-aligned base 0xffff888000001000 with
current offset 2^64 - 1 and size 8 the `u64` arithmetic wraps around and
`aligned_offset` returns 0, which is below the offset it was given. -/
theorem aligned_offset_wraps_below_offset :
    aligned_offset 0xffff888000001000 18446744073709551615 8 = 0 ∧
    ¬ (18446744073709551615 ≤ aligned_offset 0xffff888000001000 18446744073709551615 8) := by
  decide

/-- C1 (amended): for every base address p, offset o and size s in {1,2,4,8},
whenever some offset t with o ≤ t < 2^64 aligns p, `aligned_offset p o s` is at
least o, aligns p, and no offset from o up to it aligns p (it is the smallest
one); and a base with p mod 8 = 3, offset 0 and size 8 give 5. -/
theorem aligned_offset_smallest (p o s : Nat) (hs : s = 1 ∨ s = 2 ∨ s = 4 ∨ s = 8) :
    ((∃ t, o ≤ t ∧ t < U64 ∧ (p + t) % s = 0) →
      o ≤ aligned_offset p o s ∧ (p + aligned_offset p o s) % s = 0 ∧
      ∀ t, o ≤ t → t < aligned_offset p o s → (p + t) % s ≠ 0) ∧
    (p % 8 = 3 → aligned_offset p 0 8 = 5) := by
  refine ⟨aligned_offset_min_of_exists p o s hs, ?_⟩
  intro hp
  rw [aligned_offset_closed_form p 0 8 (by decide)]
  unfold U64
  omega

/-- C1 witness: base 0xffff888000001003, offset 0, size 8. -/
theorem aligned_offset_smallest_witness :
    (0 ≤ 5 ∧ 5 < U64 ∧ (0xffff888000001003 + 5) % 8 = 0) ∧
    0 ≤ aligned_offset 0xffff888000001003 0 8 ∧
    (0xffff888000001003 + aligned_offset 0xffff888000001003 0 8) % 8 = 0 ∧
    aligned_offset 0xffff888000001003 0 8 = 5 :=
  ⟨by decide,
   ((aligned_offset_smallest 0xffff888000001003 0 8 (by decide)).1 ⟨5, by decide⟩).1,
   ((aligned_offset_smallest 0xffff888000001003 0 8 (by decide)).1 ⟨5, by decide⟩).2.1,
   (aligned_offset_smallest 0xffff888000001003 0 8 (by decide)).2 (by decide)⟩

/-- C2 (as stated, refuted): at base 0xffff888000001000, offset 2^64 - 8 and
size 8 the first result is 2^64 - 8; resubmitting it plus one returns 0, which
is neither the first result plus 8 nor above the first result. -/
theorem retry_stride_wraps :
    aligned_offset 0xffff888000001000 18446744073709551608 8 = 18446744073709551608 ∧
    aligned_offset 0xffff888000001000
      (aligned_offset 0xffff888000001000 18446744073709551608 8 + 1) 8
      ≠ aligned_offset 0xffff888000001000 18446744073709551608 8 + 8 ∧
    ¬ (aligned_offset 0xffff888000001000 18446744073709551608 8 <
      aligned_offset 0xffff888000001000
        (aligned_offset 0xffff888000001000 18446744073709551608 8 + 1) 8) := by
  decide

/-- C2 (amended): for every base address p, offset o, size s in {1,2,4,8} and
attempt k such that a0 + (k+1)*s < 2^64, where a0 = aligned_offset p o s:
resubmitting a0 + 1 returns a0 + s; attempt k is a0 + k*s and attempt k+1 is
attempt k plus s, so the attempts strictly increase without repetition; and no
offset strictly between two consecutive attempts aligns p. -/
theorem retry_stride (p o s k : Nat) (hs : s = 1 ∨ s = 2 ∨ s = 4 ∨ s = 8)
    (hk : aligned_offset p o s + (k + 1) * s < U64) :
    aligned_offset p (aligned_offset p o s + 1) s = aligned_offset p o s + s ∧
    attempts p s o k = aligned_offset p o s + k * s ∧
    attempts p s o (k + 1) = attempts p s o k + s ∧
    attempts p s o k < attempts p s o (k + 1) ∧
    ∀ t, attempts p s o k < t → t < attempts p s o (k + 1) → (p + t) % s ≠ 0 := by
  have e : (k + 1) * s = k * s + s := by ring
  have spos : 0 < s := by rcases hs with rfl | rfl | rfl | rfl <;> decide
  have h0 := aligned_offset_aligned p o s hs
  have hk0 := attempts_eq p s o hs k (by omega)
  have hk1 := attempts_eq p s o hs (k + 1) hk
  have hks : 0 ≤ k * s := Nat.zero_le _
  refine ⟨aligned_offset_step p _ s hs h0 (by omega), hk0, by omega, by omega, ?_⟩
  intro t ht1 ht2 hmod
  rw [hk1] at ht2
  rw [hk0] at ht1
  have hal : (p + (aligned_offset p o s + k * s)) % s = 0 := by
    have : p + (aligned_offset p o s + k * s) = (p + aligned_offset p o s) + k * s := by ring
    rw [this, Nat.add_mul_mod_self_right]
    exact h0
  have ht3 : t < (aligned_offset p o s + k * s) + s := by omega
  generalize aligned_offset p o s + k * s = b at ht1 ht3 hal
  clear hk hk0 hk1 e h0 ht2
  rcases hs with rfl | rfl | rfl | rfl <;> omega

/-- C2 witness: base 0xffff888000001003, offset 0, size 8, attempts 4 and 5
(offsets 37 and 45). -/
theorem retry_stride_witness :
    aligned_offset 0xffff888000001003 0 8 + (4 + 1) * 8 < U64 ∧
    attempts 0xffff888000001003 8 0 4 = aligned_offset 0xffff888000001003 0 8 + 4 * 8 ∧
    attempts 0xffff888000001003 8 0 (4 + 1) = attempts 0xffff888000001003 8 0 4 + 8 :=
  ⟨by decide,
   (retry_stride 0xffff888000001003 0 8 4 (by decide) (by decide)).2.1,
   (retry_stride 0xffff888000001003 0 8 4 (by decide) (by decide)).2.2.1⟩

/-- C3: for every base address p, size s in {1,2,4,8}, initial guess o0 and true
field offset T (a `u64`) with o0 ≤ T and (p + T) mod s = 0, the attempts of the
retry protocol reach T at attempt (T - a0) / s, a0 the first result, and at no
earlier attempt; with p 8-aligned, s = 8 and o0 = 0 the first six attempts are
0, 8, 16, 24, 32, 40, so offset 40 is reached after exactly five retries. -/
theorem retry_reaches_true_offset (p s o0 T : Nat) (hs : s = 1 ∨ s = 2 ∨ s = 4 ∨ s = 8)
    (hT : o0 ≤ T) (hT64 : T < U64) (hal : (p + T) % s = 0) :
    (attempts p s o0 ((T - aligned_offset p o0 s) / s) = T ∧
      ∀ j, j < (T - aligned_offset p o0 s) / s → attempts p s o0 j ≠ T) ∧
    (p % 8 = 0 → (List.range 6).map (attempts p 8 0) = [0, 8, 16, 24, 32, 40]) := by
  have spos : 0 < s := by rcases hs with rfl | rfl | rfl | rfl <;> decide
  obtain ⟨h1, h2, h3⟩ := aligned_offset_min_of_exists p o0 s hs ⟨T, hT, hT64, hal⟩
  have hle : aligned_offset p o0 s ≤ T := by
    by_contra hc
    exact h3 T hT (by omega) hal
  have hdvd : s ∣ (T - aligned_offset p o0 s) := by
    have e1 : s ∣ p + T := Nat.dvd_of_mod_eq_zero hal
    have e2 : s ∣ p + aligned_offset p o0 s := Nat.dvd_of_mod_eq_zero h2
    have : T - aligned_offset p o0 s = (p + T) - (p + aligned_offset p o0 s) := by omega
    rw [this]
    exact Nat.dvd_sub' e1 e2
  have hmul : (T - aligned_offset p o0 s) / s * s = T - aligned_offset p o0 s :=
    Nat.div_mul_cancel hdvd
  refine ⟨⟨?_, ?_⟩, ?_⟩
  · rw [attempts_eq p s o0 hs _ (by omega)]
    omega
  · intro j hj
    have hjs : j * s < (T - aligned_offset p o0 s) / s * s := Nat.mul_lt_mul_of_pos_right hj spos
    rw [attempts_eq p s o0 hs j (by omega)]
    omega
  · intro hp
    have ha0 : aligned_offset p 0 8 = 0 := by
      rw [aligned_offset_closed_form p 0 8 (by decide)]
      unfold U64
      omega
    have hat : ∀ k, k < 6 → attempts p 8 0 k = k * 8 := by
      intro k hk
      rw [attempts_eq p 8 0 (by decide) k (by rw [ha0]; unfold U64; omega), ha0]
      omega
    simp [List.range, List.range.loop, hat]

/-- C3 witness: base 0xffff888000001000, size 8, initial guess 0, true offset
40, reached at attempt 5. -/
theorem retry_reaches_true_offset_witness :
    (0 ≤ 40 ∧ 40 < U64 ∧ (0xffff888000001000 + 40) % 8 = 0) ∧
    (40 - aligned_offset 0xffff888000001000 0 8) / 8 = 5 ∧
    attempts 0xffff888000001000 8 0 ((40 - aligned_offset 0xffff888000001000 0 8) / 8) = 40 :=
  ⟨by decide, by decide,
   (retry_reaches_true_offset 0xffff888000001000 8 0 40 (by decide) (by decide) (by decide)
      (by decide)).1.1⟩

/-! ## Properties of proc_t_comm_equals -/

/-- The loop started at index `i` with `n` iterations left answers true exactly
when the buffers agree at every visited position that no NUL of `a` precedes. -/
theorem proc_t_comm_equals_loop_iff (a b : proc_t) :
    ∀ n i, proc_t_comm_equals_loop a b n i = true ↔
      ∀ k, k < n → (∀ j, j < k → a.get (i + j) ≠ 0) → a.get (i + k) = b.get (i + k) := by
  intro n
  induction n with
  | zero => intro i; simp [proc_t_comm_equals_loop]
  | succ n ih =>
    intro i
    unfold proc_t_comm_equals_loop
    by_cases hne : a.get i ≠ b.get i
    · rw [if_pos hne]
      constructor
      · intro h; cases h
      · intro h
        exact absurd (h 0 (Nat.succ_pos n) (fun j hj => absurd hj (Nat.not_lt_zero j))) hne
    · have heq : a.get i = b.get i := not_not.mp hne
      rw [if_neg hne]
      by_cases hz : a.get i = 0
      · rw [if_pos hz]
        simp only [true_iff]
        intro k _ hk
        cases k with
        | zero => exact heq
        | succ k => exact absurd hz (hk 0 (Nat.succ_pos k))
      · rw [if_neg hz]
        rw [ih (i + 1)]
        constructor
        · intro h k hk hnz
          cases k with
          | zero => exact heq
          | succ k =>
            have := h k (by omega) (fun j hj => by
              have := hnz (j + 1) (by omega)
              rwa [show i + 1 + j = i + (j + 1) by omega])
            rwa [show i + 1 + k = i + (k + 1) by omega] at this
        · intro h k hk hnz
          have := h (k + 1) (by omega) (fun j hj => by
            cases j with
            | zero => exact hz
            | succ j =>
              have := hnz j (by omega)
              rwa [show i + 1 + j = i + (j + 1) by omega] at this)
          rwa [show i + (k + 1) = i + 1 + k by omega] at this

/-- C4: `proc_t_comm_equals a b` is true exactly when a and b agree at every
position i below TASK_COMM_LEN that is not preceded by a NUL of a, that is, up
to and including the first NUL, or everywhere when there is none; bytes after
the first common NUL do not matter: "abc",0,garbage equals "abc",0,other
garbage, and "abc",0,... differs from "abd",0,... -/
theorem proc_t_comm_equals_nul_terminated (a b : proc_t) :
    (proc_t_comm_equals a b = true ↔
      ∀ i, i < TASK_COMM_LEN → (∀ j, j < i → a.get j ≠ 0) → a.get i = b.get i) ∧
    (∀ g1 g2 : List Nat,
      proc_t_comm_equals ⟨[97, 98, 99, 0] ++ g1⟩ ⟨[97, 98, 99, 0] ++ g2⟩ = true) ∧
    (∀ g1 g2 : List Nat,
      proc_t_comm_equals ⟨[97, 98, 99, 0] ++ g1⟩ ⟨[97, 98, 100, 0] ++ g2⟩ = false) := by
  refine ⟨?_, ?_, ?_⟩
  · unfold proc_t_comm_equals
    rw [proc_t_comm_equals_loop_iff]
    simp
  · intro g1 g2
    simp [proc_t_comm_equals, TASK_COMM_LEN, proc_t_comm_equals_loop, proc_t.get]
  · intro g1 g2
    simp [proc_t_comm_equals, TASK_COMM_LEN, proc_t_comm_equals_loop, proc_t.get]

/-- C4 witness: two 16-byte buffers holding "abc" and a NUL, with different
bytes behind it, compare equal. -/
theorem proc_t_comm_equals_nul_terminated_witness :
    proc_t_comm_equals ⟨[97, 98, 99, 0] ++ [1, 2, 3, 4, 5, 6, 7, 8, 9, 10, 11, 12]⟩
      ⟨[97, 98, 99, 0] ++ [0, 0, 0, 0, 0, 0, 0, 0, 0, 0, 0, 0]⟩ = true :=
  (proc_t_comm_equals_nul_terminated sim_comm sim_comm).2.1 _ _

/-! ## Properties of guess_offsets -/

/-- Outside state CHECKING the function returns 1 and stores nothing. -/
theorem guess_offsets_of_not_checking (K : kernel_mem) (sz : sizeof_t) (comm : proc_t)
    (status : tracer_status_t) (subject : Nat)
    (h : status.state ≠ guess_state.STATE_CHECKING) :
    guess_offsets K sz comm status subject = (1, status) := by
  simp [guess_offsets, h]

/-- In state CHECKING a thread with another name makes the function return 0
and store nothing. -/
theorem guess_offsets_of_other_thread (K : kernel_mem) (sz : sizeof_t) (comm : proc_t)
    (status : tracer_status_t) (subject : Nat)
    (h1 : status.state = guess_state.STATE_CHECKING)
    (h2 : proc_t_comm_equals status.proc comm = false) :
    guess_offsets K sz comm status subject = (0, status) := by
  simp [guess_offsets, h1, h2]

/-- In state CHECKING and from the calibration thread the function runs the
switch on the prepared snapshot and publishes what the switch leaves. -/
theorem guess_offsets_checking (K : kernel_mem) (sz : sizeof_t) (comm : proc_t)
    (status : tracer_status_t) (subject : Nat)
    (h1 : status.state = guess_state.STATE_CHECKING)
    (h2 : proc_t_comm_equals status.proc comm = true) :
    guess_offsets K sz comm status subject =
      match guess_offsets_switch K sz status
        { status with state := guess_state.STATE_CHECKED, err := 0, proc := comm } subject with
      | none => (0, status)
      | some new_status => (0, new_status) := by
  simp [guess_offsets, h1, h2]

/-- No case of the switch writes the `state` member of the snapshot. -/
theorem guess_offsets_switch_state (K : kernel_mem) (sz : sizeof_t)
    (status new_status r : tracer_status_t) (subject : Nat)
    (h : guess_offsets_switch K sz status new_status subject = some r) :
    r.state = new_status.state := by
  unfold guess_offsets_switch at h
  cases hw : status.what <;> rw [hw] at h <;> simp only [] at h <;>
    (try split_ifs at h) <;> cases h <;> rfl

/-- C5: for every record whose state is not CHECKING, every subject, thread
name and memory image, `guess_offsets` returns 1 and the stored record is the
record before the call (values, offsets and state included). -/
theorem guess_offsets_inapplicable (K : kernel_mem) (sz : sizeof_t) (comm : proc_t)
    (status : tracer_status_t) (subject : Nat)
    (h : status.state ≠ guess_state.STATE_CHECKING) :
    guess_offsets K sz comm status subject = (1, status) :=
  guess_offsets_of_not_checking K sz comm status subject h

/-- C5 witness: a record in state CHECKED, target GUESS_SPORT. -/
theorem guess_offsets_inapplicable_witness :
    (sim_status guess_state.STATE_CHECKED guess_what.GUESS_SPORT).state
      ≠ guess_state.STATE_CHECKING ∧
    guess_offsets sim_invalid sim_sizes sim_comm
      (sim_status guess_state.STATE_CHECKED guess_what.GUESS_SPORT) sim_subject
      = (1, sim_status guess_state.STATE_CHECKED guess_what.GUESS_SPORT) :=
  ⟨by decide, guess_offsets_inapplicable _ _ _ _ _ (by decide)⟩

/-- C6: for every record in state CHECKING and every triggering thread whose
name does not equal the recorded name under `proc_t_comm_equals`,
`guess_offsets` returns 0 and the stored record is identical to the record
before the call, for every target and memory image. -/
theorem guess_offsets_wrong_caller (K : kernel_mem) (sz : sizeof_t) (comm : proc_t)
    (status : tracer_status_t) (subject : Nat)
    (h1 : status.state = guess_state.STATE_CHECKING)
    (h2 : proc_t_comm_equals status.proc comm = false) :
    guess_offsets K sz comm status subject = (0, status) :=
  guess_offsets_of_other_thread K sz comm status subject h1 h2

/-- C6 witness: a record armed by "system-probe", event from "curl". -/
theorem guess_offsets_wrong_caller_witness :
    (sim_status guess_state.STATE_CHECKING guess_what.GUESS_SPORT).state
      = guess_state.STATE_CHECKING ∧
    proc_t_comm_equals (sim_status guess_state.STATE_CHECKING guess_what.GUESS_SPORT).proc
      sim_other_comm = false ∧
    guess_offsets (sim_image sim_subject [31, 144]) sim_sizes sim_other_comm
      (sim_status guess_state.STATE_CHECKING guess_what.GUESS_SPORT) sim_subject
      = (0, sim_status guess_state.STATE_CHECKING guess_what.GUESS_SPORT) :=
  ⟨by decide, by decide, guess_offsets_wrong_caller _ _ _ _ _ (by decide) (by decide)⟩

/-- C7: for every invocation of `guess_offsets`, if the state of the stored
record after the call differs from the state before it, then the state before
was CHECKING, the name of the triggering thread matches the recorded name, and
the state after is CHECKED. -/
theorem guess_offsets_state_change (K : kernel_mem) (sz : sizeof_t) (comm : proc_t)
    (status : tracer_status_t) (subject : Nat)
    (h : (guess_offsets K sz comm status subject).2.state ≠ status.state) :
    status.state = guess_state.STATE_CHECKING ∧
    proc_t_comm_equals status.proc comm = true ∧
    (guess_offsets K sz comm status subject).2.state = guess_state.STATE_CHECKED := by
  by_cases h1 : status.state = guess_state.STATE_CHECKING
  · by_cases h2 : proc_t_comm_equals status.proc comm = true
    · refine ⟨h1, h2, ?_⟩
      rw [guess_offsets_checking K sz comm status subject h1 h2] at h ⊢
      cases hsw : guess_offsets_switch K sz status
        { status with state := guess_state.STATE_CHECKED, err := 0, proc := comm } subject with
      | none => rw [hsw] at h; exact absurd rfl h
      | some r => exact guess_offsets_switch_state _ _ _ _ _ _ hsw
    · have h2f : proc_t_comm_equals status.proc comm = false := by
        cases hb : proc_t_comm_equals status.proc comm
        · rfl
        · exact absurd hb h2
      rw [guess_offsets_of_other_thread K sz comm status subject h1 h2f] at h
      exact absurd rfl h
  · rw [guess_offsets_of_not_checking K sz comm status subject h1] at h
    exact absurd rfl h

/-- C7 witness: a matching event for target GUESS_SPORT over a port field
holding 0x1F 0x90 turns CHECKING into CHECKED. -/
theorem guess_offsets_state_change_witness :
    (guess_offsets (sim_image sim_subject [31, 144]) sim_sizes sim_comm_garbage
      (sim_status guess_state.STATE_CHECKING guess_what.GUESS_SPORT) sim_subject).2.state
      ≠ (sim_status guess_state.STATE_CHECKING guess_what.GUESS_SPORT).state ∧
    proc_t_comm_equals (sim_status guess_state.STATE_CHECKING guess_what.GUESS_SPORT).proc
      sim_comm_garbage = true ∧
    (guess_offsets (sim_image sim_subject [31, 144]) sim_sizes sim_comm_garbage
      (sim_status guess_state.STATE_CHECKING guess_what.GUESS_SPORT) sim_subject).2.state
      = guess_state.STATE_CHECKED :=
  ⟨by decide,
   (guess_offsets_state_change (sim_image sim_subject [31, 144]) sim_sizes sim_comm_garbage
      (sim_status guess_state.STATE_CHECKING guess_what.GUESS_SPORT) sim_subject
      (by decide)).2.1,
   (guess_offsets_state_change (sim_image sim_subject [31, 144]) sim_sizes sim_comm_garbage
      (sim_status guess_state.STATE_CHECKING guess_what.GUESS_SPORT) sim_subject
      (by decide)).2.2⟩

/-- C8 (as stated, refuted): target GUESS_SADDR, state CHECKING, matching
thread, every address invalid.  The read of the field returns -EFAULT, the
snapshot is published with state CHECKED, and its fault flag is 0. -/
theorem saddr_fault_not_flagged :
    (bpf_probe_read_kernel sim_invalid
      (sim_status guess_state.STATE_CHECKING guess_what.GUESS_SADDR).values.saddr sizeof_u32
      (ptr_add sim_subject (aligned_offset sim_subject
        (sim_status guess_state.STATE_CHECKING guess_what.GUESS_SADDR).offsets.saddr
        sim_sizes.SIZEOF_SADDR))).1 = -EFAULT ∧
    (guess_offsets sim_invalid sim_sizes sim_comm
      (sim_status guess_state.STATE_CHECKING guess_what.GUESS_SADDR) sim_subject).2.state
        = guess_state.STATE_CHECKED ∧
    (guess_offsets sim_invalid sim_sizes sim_comm
      (sim_status guess_state.STATE_CHECKING guess_what.GUESS_SADDR) sim_subject).2.err = 0 ∧
    ¬ ((guess_offsets sim_invalid sim_sizes sim_comm
      (sim_status guess_state.STATE_CHECKING guess_what.GUESS_SADDR) sim_subject).2.err = 1) := by
  decide

/-- C8 (amended): in state CHECKING and from the matching thread, faults are
reported for target GUESS_NETNS only.  For GUESS_NETNS, when the namespace
pointer read at subject + aligned netns offset is null or the inode read
through it returns -EFAULT, the published snapshot has state CHECKED, fault
flag 1 and the prior values.netns.  For every other recognized target the
return code of the read is not looked at: the published snapshot has state
CHECKED and fault flag 0, whether or not the read faulted. -/
theorem guess_offsets_fault_flag (K : kernel_mem) (sz : sizeof_t) (comm : proc_t)
    (status : tracer_status_t) (subject : Nat)
    (h1 : status.state = guess_state.STATE_CHECKING)
    (h2 : proc_t_comm_equals status.proc comm = true) :
    (status.what = guess_what.GUESS_NETNS →
      ((bpf_probe_read_kernel K 0 sizeof_ptr
          (ptr_add subject (aligned_offset subject status.offsets.netns sz.SIZEOF_NETNS))).2 = 0 ∨
       (bpf_probe_read_kernel K 0 sizeof_u32
          (ptr_add
            (bpf_probe_read_kernel K 0 sizeof_ptr
              (ptr_add subject (aligned_offset subject status.offsets.netns sz.SIZEOF_NETNS))).2
            (aligned_offset subject status.offsets.ino sz.SIZEOF_NETNS_INO))).1 = -EFAULT) →
      (guess_offsets K sz comm status subject).2.state = guess_state.STATE_CHECKED ∧
      (guess_offsets K sz comm status subject).2.err = 1 ∧
      (guess_offsets K sz comm status subject).2.values.netns = status.values.netns) ∧
    (status.what ≠ guess_what.GUESS_NETNS → (∀ raw, status.what ≠ guess_what.unrecognized raw) →
      (guess_offsets K sz comm status subject).2.state = guess_state.STATE_CHECKED ∧
      (guess_offsets K sz comm status subject).2.err = 0) := by
  rw [guess_offsets_checking K sz comm status subject h1 h2]
  unfold guess_offsets_switch
  refine ⟨?_, ?_⟩
  · intro hw hf
    rw [hw]
    simp only []
    rcases hf with hf | hf
    · rw [if_pos hf]
      exact ⟨rfl, rfl, rfl⟩
    · split_ifs <;> exact ⟨rfl, rfl, rfl⟩
  · intro hw hu
    cases hc : status.what <;> simp only [] <;> (try split_ifs) <;>
      first
        | exact ⟨trivial, trivial⟩
        | exact ⟨rfl, rfl⟩
        | exact absurd hc hw
        | exact absurd hc (hu _)

/-- C8 witness: target GUESS_NETNS over a subject whose namespace pointer
field holds a pointer to an invalid address: the inode read faults. -/
theorem guess_offsets_fault_flag_witness :
    (sim_status guess_state.STATE_CHECKING guess_what.GUESS_NETNS).state
      = guess_state.STATE_CHECKING ∧
    proc_t_comm_equals (sim_status guess_state.STATE_CHECKING guess_what.GUESS_NETNS).proc
      sim_comm = true ∧
    (bpf_probe_read_kernel (sim_image sim_subject [0, 16, 0, 0, 0, 0, 0, 0]) 0 sizeof_u32
      (ptr_add
        (bpf_probe_read_kernel (sim_image sim_subject [0, 16, 0, 0, 0, 0, 0, 0]) 0 sizeof_ptr
          (ptr_add sim_subject (aligned_offset sim_subject 0 sim_sizes.SIZEOF_NETNS))).2
        (aligned_offset sim_subject 0 sim_sizes.SIZEOF_NETNS_INO))).1 = -EFAULT ∧
    (guess_offsets (sim_image sim_subject [0, 16, 0, 0, 0, 0, 0, 0]) sim_sizes sim_comm
      (sim_status guess_state.STATE_CHECKING guess_what.GUESS_NETNS) sim_subject).2.err = 1 :=
  ⟨by decide, by decide, by decide,
   ((guess_offsets_fault_flag (sim_image sim_subject [0, 16, 0, 0, 0, 0, 0, 0]) sim_sizes
      sim_comm (sim_status guess_state.STATE_CHECKING guess_what.GUESS_NETNS) sim_subject
      (by decide) (by decide)).1 (by decide) (Or.inr (by decide))).2.1⟩

/-- C9 (as stated, refuted): target GUESS_DADDR_IPV6, state CHECKING, matching
thread, the family field of the subject holding 2 (not AF_INET6).  The stored
record after the call is not the record before it: its state is CHECKED. -/
theorem daddr_ipv6_family_mismatch_publishes :
    check_family (sim_image sim_subject [2, 0]) sim_subject
      (sim_status guess_state.STATE_CHECKING guess_what.GUESS_DADDR_IPV6) AF_INET6 = false ∧
    (guess_offsets (sim_image sim_subject [2, 0]) sim_sizes sim_comm
      (sim_status guess_state.STATE_CHECKING guess_what.GUESS_DADDR_IPV6) sim_subject).2
        ≠ sim_status guess_state.STATE_CHECKING guess_what.GUESS_DADDR_IPV6 ∧
    (guess_offsets (sim_image sim_subject [2, 0]) sim_sizes sim_comm
      (sim_status guess_state.STATE_CHECKING guess_what.GUESS_DADDR_IPV6) sim_subject).2.state
        = guess_state.STATE_CHECKED := by
  decide

/-- C9 (amended): for target GUESS_DADDR_IPV6 (state CHECKING, matching
thread), when the 16-bit value read at subject + offsets.family is not
AF_INET6, the candidate is neither advanced nor read, and the snapshot is
still published: `guess_offsets` returns 0 and the stored record is the record
before the call with state CHECKED, fault flag 0 and the name of the triggering
thread; every offset and value, daddr_ipv6 included, keeps its prior
contents. -/
theorem guess_offsets_family_mismatch (K : kernel_mem) (sz : sizeof_t) (comm : proc_t)
    (status : tracer_status_t) (subject : Nat)
    (h1 : status.state = guess_state.STATE_CHECKING)
    (h2 : proc_t_comm_equals status.proc comm = true)
    (h3 : status.what = guess_what.GUESS_DADDR_IPV6)
    (h4 : check_family K subject status AF_INET6 = false) :
    guess_offsets K sz comm status subject =
      (0, { status with state := guess_state.STATE_CHECKED, err := 0, proc := comm }) := by
  rw [guess_offsets_checking K sz comm status subject h1 h2]
  unfold guess_offsets_switch
  rw [h3]
  simp [h4]

/-- C9 witness: the family field of the subject holds 2. -/
theorem guess_offsets_family_mismatch_witness :
    check_family (sim_image sim_subject [2, 0]) sim_subject
      (sim_status guess_state.STATE_CHECKING guess_what.GUESS_DADDR_IPV6) AF_INET6 = false ∧
    guess_offsets (sim_image sim_subject [2, 0]) sim_sizes sim_comm
      (sim_status guess_state.STATE_CHECKING guess_what.GUESS_DADDR_IPV6) sim_subject =
      (0, { sim_status guess_state.STATE_CHECKING guess_what.GUESS_DADDR_IPV6 with
              state := guess_state.STATE_CHECKED, err := 0, proc := sim_comm }) :=
  ⟨by decide,
   guess_offsets_family_mismatch (sim_image sim_subject [2, 0]) sim_sizes sim_comm
     (sim_status guess_state.STATE_CHECKING guess_what.GUESS_DADDR_IPV6) sim_subject
     (by decide) (by decide) (by decide) (by decide)⟩

/-- C10: for target GUESS_NETNS (state CHECKING, matching thread), when the
namespace pointer read at subject + aligned netns offset is null,
`guess_offsets` returns 0 and stores the record before the call with state
CHECKED, fault flag 1, the name of the triggering thread and the netns offset
advanced by `aligned_offset`; the inode candidate offset, values.netns and
every other member keep their prior contents (no second-stage read). -/
theorem guess_offsets_netns_null (K : kernel_mem) (sz : sizeof_t) (comm : proc_t)
    (status : tracer_status_t) (subject : Nat)
    (h1 : status.state = guess_state.STATE_CHECKING)
    (h2 : proc_t_comm_equals status.proc comm = true)
    (h3 : status.what = guess_what.GUESS_NETNS)
    (h4 : (bpf_probe_read_kernel K 0 sizeof_ptr
          (ptr_add subject (aligned_offset subject status.offsets.netns sz.SIZEOF_NETNS))).2 = 0) :
    guess_offsets K sz comm status subject =
      (0, { status with
              state := guess_state.STATE_CHECKED, err := 1, proc := comm,
              offsets := { status.offsets with
                netns := aligned_offset subject status.offsets.netns sz.SIZEOF_NETNS } }) := by
  rw [guess_offsets_checking K sz comm status subject h1 h2]
  unfold guess_offsets_switch
  rw [h3]
  simp [h4]

/-- C10 witness: the eight bytes of the namespace pointer field are zero. -/
theorem guess_offsets_netns_null_witness :
    (bpf_probe_read_kernel (sim_image sim_subject [0, 0, 0, 0, 0, 0, 0, 0]) 0 sizeof_ptr
      (ptr_add sim_subject (aligned_offset sim_subject
        (sim_status guess_state.STATE_CHECKING guess_what.GUESS_NETNS).offsets.netns
        sim_sizes.SIZEOF_NETNS))) = (0, 0) ∧
    (guess_offsets (sim_image sim_subject [0, 0, 0, 0, 0, 0, 0, 0]) sim_sizes sim_comm
      (sim_status guess_state.STATE_CHECKING guess_what.GUESS_NETNS) sim_subject).2.err = 1 ∧
    (guess_offsets (sim_image sim_subject [0, 0, 0, 0, 0, 0, 0, 0]) sim_sizes sim_comm
      (sim_status guess_state.STATE_CHECKING guess_what.GUESS_NETNS) sim_subject).2.state
      = guess_state.STATE_CHECKED :=
  ⟨by decide,
   by rw [guess_offsets_netns_null (sim_image sim_subject [0, 0, 0, 0, 0, 0, 0, 0]) sim_sizes
        sim_comm (sim_status guess_state.STATE_CHECKING guess_what.GUESS_NETNS) sim_subject
        (by decide) (by decide) (by decide) (by decide)],
   by rw [guess_offsets_netns_null (sim_image sim_subject [0, 0, 0, 0, 0, 0, 0, 0]) sim_sizes
        sim_comm (sim_status guess_state.STATE_CHECKING guess_what.GUESS_NETNS) sim_subject
        (by decide) (by decide) (by decide) (by decide)]⟩

/-! ## Reads, normalisation and the remaining cases of guess_offsets -/

/-- A read of valid memory returns 0 and delivers the bytes. -/
theorem bpf_probe_read_kernel_of_load (K : kernel_mem) (dst size src v : Nat)
    (h : load_bytes K src size = some v) :
    bpf_probe_read_kernel K dst size src = (0, v) := by
  simp [bpf_probe_read_kernel, h]

/-- A read that meets an invalid address returns -EFAULT. -/
theorem bpf_probe_read_kernel_of_fault (K : kernel_mem) (dst size src : Nat)
    (h : load_bytes K src size = none) :
    (bpf_probe_read_kernel K dst size src).1 = -EFAULT := by
  simp [bpf_probe_read_kernel, h]

/-- Two valid bytes are loaded as a little-endian 16-bit number. -/
theorem load_bytes_two (K : kernel_mem) (a b0 b1 : Nat) (h0 : K.byte a = some b0)
    (h1 : K.byte (a + 1) = some b1) (hb0 : b0 < 256) (hb1 : b1 < 256) :
    load_bytes K a sizeof_u16 = some (b0 + 256 * b1) := by
  simp [sizeof_u16, load_bytes, h0, h1, Nat.mod_eq_of_lt hb0, Nat.mod_eq_of_lt hb1]

/-- Swapping the little-endian number of two bytes gives their big-endian
number. -/
theorem bpf_ntohs_bytes (b0 b1 : Nat) (hb0 : b0 < 256) (hb1 : b1 < 256) :
    bpf_ntohs (b0 + 256 * b1) = 256 * b0 + b1 := by
  unfold bpf_ntohs
  omega

/-- C11: for target GUESS_NETNS (state CHECKING, matching thread) with a
non-null first-stage pointer: when the read of the inode at namespace pointer +
inode candidate offset faults, the published snapshot has state CHECKED, fault
flag 1 and the prior values.netns; when that read succeeds with the 32-bit
value v, the published snapshot has state CHECKED, fault flag 0 and
values.netns = v. -/
theorem guess_offsets_netns_second_stage (K : kernel_mem) (sz : sizeof_t) (comm : proc_t)
    (status : tracer_status_t) (subject : Nat)
    (h1 : status.state = guess_state.STATE_CHECKING)
    (h2 : proc_t_comm_equals status.proc comm = true)
    (h3 : status.what = guess_what.GUESS_NETNS)
    (hptr : (bpf_probe_read_kernel K 0 sizeof_ptr
      (ptr_add subject (aligned_offset subject status.offsets.netns sz.SIZEOF_NETNS))).2 ≠ 0) :
    (load_bytes K
        (ptr_add
          (bpf_probe_read_kernel K 0 sizeof_ptr
            (ptr_add subject (aligned_offset subject status.offsets.netns sz.SIZEOF_NETNS))).2
          (aligned_offset subject status.offsets.ino sz.SIZEOF_NETNS_INO)) sizeof_u32 = none →
      (guess_offsets K sz comm status subject).2.state = guess_state.STATE_CHECKED ∧
      (guess_offsets K sz comm status subject).2.err = 1 ∧
      (guess_offsets K sz comm status subject).2.values.netns = status.values.netns) ∧
    (∀ v, load_bytes K
        (ptr_add
          (bpf_probe_read_kernel K 0 sizeof_ptr
            (ptr_add subject (aligned_offset subject status.offsets.netns sz.SIZEOF_NETNS))).2
          (aligned_offset subject status.offsets.ino sz.SIZEOF_NETNS_INO)) sizeof_u32 = some v →
      (guess_offsets K sz comm status subject).2.state = guess_state.STATE_CHECKED ∧
      (guess_offsets K sz comm status subject).2.err = 0 ∧
      (guess_offsets K sz comm status subject).2.values.netns = v) := by
  rw [guess_offsets_checking K sz comm status subject h1 h2]
  unfold guess_offsets_switch
  rw [h3]
  simp only []
  rw [if_neg hptr]
  refine ⟨?_, ?_⟩
  · intro hf
    rw [if_pos (bpf_probe_read_kernel_of_fault K _ _ _ hf)]
    exact ⟨rfl, rfl, rfl⟩
  · intro v hv
    rw [bpf_probe_read_kernel_of_load K _ _ _ v hv]
    have : ¬ ((0 : Int) = -EFAULT) := by decide
    rw [if_neg this]
    exact ⟨rfl, rfl, rfl⟩

/-- An offset that already aligns `p` is returned as it is. -/
theorem aligned_offset_of_aligned (p x s : Nat) (hs : s = 1 ∨ s = 2 ∨ s = 4 ∨ s = 8)
    (h : (p + x) % s = 0) (hx : x < U64) : aligned_offset p x s = x := by
  rw [aligned_offset_closed_form p x s hs]
  unfold U64 at *
  rcases hs with rfl | rfl | rfl | rfl <;> omega

/-- C12 (as stated, refuted): target GUESS_RTT with SIZEOF_RTT = SIZEOF_RTT_VAR
= 4, a 4-aligned subject and prior rtt offset 2^64 - 4.  The published rtt
offset is 2^64 - 4 and the published rtt_var offset is 0, which is not the rtt
offset plus 4. -/
theorem rtt_var_offset_wraps :
    (guess_offsets (sim_image sim_subject [1, 2, 3, 4]) sim_sizes sim_comm
      { sim_status guess_state.STATE_CHECKING guess_what.GUESS_RTT with
          offsets := { zero_offsets with rtt := 18446744073709551612 } }
      sim_subject).2.offsets.rtt = 18446744073709551612 ∧
    (guess_offsets (sim_image sim_subject [1, 2, 3, 4]) sim_sizes sim_comm
      { sim_status guess_state.STATE_CHECKING guess_what.GUESS_RTT with
          offsets := { zero_offsets with rtt := 18446744073709551612 } }
      sim_subject).2.offsets.rtt_var = 0 ∧
    (guess_offsets (sim_image sim_subject [1, 2, 3, 4]) sim_sizes sim_comm
      { sim_status guess_state.STATE_CHECKING guess_what.GUESS_RTT with
          offsets := { zero_offsets with rtt := 18446744073709551612 } }
      sim_subject).2.offsets.rtt_var
      ≠ (guess_offsets (sim_image sim_subject [1, 2, 3, 4]) sim_sizes sim_comm
          { sim_status guess_state.STATE_CHECKING guess_what.GUESS_RTT with
              offsets := { zero_offsets with rtt := 18446744073709551612 } }
          sim_subject).2.offsets.rtt + 4 := by
  decide

/-- C12 (amended): for target GUESS_RTT with SIZEOF_RTT = SIZEOF_RTT_VAR = 4
(state CHECKING, matching thread), for every subject and every prior rtt
candidate offset, the published snapshot has offsets.rtt_var equal to
offsets.rtt + 4 reduced modulo 2^64, which is offsets.rtt + 4 whenever that sum
is below 2^64, and values.rtt_var is what the read at subject + that offset
delivers in the same attempt, shifted right by 2. -/
theorem guess_offsets_rtt_var_adjacent (K : kernel_mem) (sz : sizeof_t) (comm : proc_t)
    (status : tracer_status_t) (subject : Nat)
    (h1 : status.state = guess_state.STATE_CHECKING)
    (h2 : proc_t_comm_equals status.proc comm = true)
    (h3 : status.what = guess_what.GUESS_RTT)
    (hr : sz.SIZEOF_RTT = 4) (hv : sz.SIZEOF_RTT_VAR = 4) :
    (guess_offsets K sz comm status subject).2.state = guess_state.STATE_CHECKED ∧
    (guess_offsets K sz comm status subject).2.offsets.rtt
      = aligned_offset subject status.offsets.rtt 4 ∧
    (guess_offsets K sz comm status subject).2.offsets.rtt_var
      = add64 (guess_offsets K sz comm status subject).2.offsets.rtt 4 ∧
    ((guess_offsets K sz comm status subject).2.offsets.rtt + 4 < U64 →
      (guess_offsets K sz comm status subject).2.offsets.rtt_var
        = (guess_offsets K sz comm status subject).2.offsets.rtt + 4) ∧
    (guess_offsets K sz comm status subject).2.values.rtt_var
      = (bpf_probe_read_kernel K status.values.rtt_var sizeof_u32
          (ptr_add subject
            (add64 (guess_offsets K sz comm status subject).2.offsets.rtt 4))).2 >>> 2 := by
  have h4 : (4 : Nat) = 1 ∨ (4 : Nat) = 2 ∨ (4 : Nat) = 4 ∨ (4 : Nat) = 8 := by decide
  have hal := aligned_offset_aligned subject status.offsets.rtt 4 h4
  have hmod : (subject + add64 (aligned_offset subject status.offsets.rtt 4) 4) % 4 = 0 := by
    unfold add64 U64
    omega
  have hlt : add64 (aligned_offset subject status.offsets.rtt 4) 4 < U64 := by
    unfold add64
    exact Nat.mod_lt _ (by unfold U64; decide)
  have hvar := aligned_offset_of_aligned subject _ 4 h4 hmod hlt
  rw [guess_offsets_checking K sz comm status subject h1 h2]
  unfold guess_offsets_switch
  rw [h3]
  simp only [hr, hv, hvar]
  refine ⟨trivial, trivial, trivial, ?_, trivial⟩
  intro hsum
  unfold add64
  exact Nat.mod_eq_of_lt hsum

/-- C12 witness: prior rtt offset 5, so that rtt is found at 8 and rtt_var
at 12. -/
theorem guess_offsets_rtt_var_adjacent_witness :
    (guess_offsets (sim_image sim_subject [1, 2, 3, 4, 5, 6, 7, 8, 64, 1, 0, 0, 32, 0, 0, 0])
      sim_sizes sim_comm
      { sim_status guess_state.STATE_CHECKING guess_what.GUESS_RTT with
          offsets := { zero_offsets with rtt := 5 } } sim_subject).2.offsets.rtt_var
    = add64 (guess_offsets
      (sim_image sim_subject [1, 2, 3, 4, 5, 6, 7, 8, 64, 1, 0, 0, 32, 0, 0, 0])
      sim_sizes sim_comm
      { sim_status guess_state.STATE_CHECKING guess_what.GUESS_RTT with
          offsets := { zero_offsets with rtt := 5 } } sim_subject).2.offsets.rtt 4 ∧
    (guess_offsets (sim_image sim_subject [1, 2, 3, 4, 5, 6, 7, 8, 64, 1, 0, 0, 32, 0, 0, 0])
      sim_sizes sim_comm
      { sim_status guess_state.STATE_CHECKING guess_what.GUESS_RTT with
          offsets := { zero_offsets with rtt := 5 } } sim_subject).2.offsets.rtt = 8 :=
  ⟨(guess_offsets_rtt_var_adjacent
      (sim_image sim_subject [1, 2, 3, 4, 5, 6, 7, 8, 64, 1, 0, 0, 32, 0, 0, 0])
      sim_sizes sim_comm
      { sim_status guess_state.STATE_CHECKING guess_what.GUESS_RTT with
          offsets := { zero_offsets with rtt := 5 } } sim_subject
      (by decide) (by decide) (by decide) (by decide) (by decide)).2.2.1,
   by decide⟩

/-- C14: for every port target (state CHECKING, matching thread), when the two
bytes b0 and b1 stored at subject + new candidate offset are readable, the
published candidate offset is the aligned one and the published value is their
big-endian number 256*b0 + b1 (bytes 0x1F, 0x90 give 8080). -/
theorem guess_offsets_port_ntohs (K : kernel_mem) (sz : sizeof_t) (comm : proc_t)
    (status : tracer_status_t) (subject b0 b1 : Nat)
    (h1 : status.state = guess_state.STATE_CHECKING)
    (h2 : proc_t_comm_equals status.proc comm = true)
    (hb0 : b0 < 256) (hb1 : b1 < 256) :
    (status.what = guess_what.GUESS_SPORT →
      K.byte (ptr_add subject (aligned_offset subject status.offsets.sport sz.SIZEOF_SPORT)) = some b0 →
      K.byte (ptr_add subject (aligned_offset subject status.offsets.sport sz.SIZEOF_SPORT) + 1) = some b1 →
      (guess_offsets K sz comm status subject).2.offsets.sport
        = aligned_offset subject status.offsets.sport sz.SIZEOF_SPORT ∧
      (guess_offsets K sz comm status subject).2.values.sport = 256 * b0 + b1) ∧
    (status.what = guess_what.GUESS_DPORT →
      K.byte (ptr_add subject (aligned_offset subject status.offsets.dport sz.SIZEOF_DPORT)) = some b0 →
      K.byte (ptr_add subject (aligned_offset subject status.offsets.dport sz.SIZEOF_DPORT) + 1) = some b1 →
      (guess_offsets K sz comm status subject).2.offsets.dport
        = aligned_offset subject status.offsets.dport sz.SIZEOF_DPORT ∧
      (guess_offsets K sz comm status subject).2.values.dport = 256 * b0 + b1) ∧
    (status.what = guess_what.GUESS_SPORT_FL4 →
      K.byte (ptr_add subject (aligned_offset subject status.offsets.sport_fl4 sz.SIZEOF_SPORT_FL4)) = some b0 →
      K.byte (ptr_add subject (aligned_offset subject status.offsets.sport_fl4 sz.SIZEOF_SPORT_FL4) + 1) = some b1 →
      (guess_offsets K sz comm status subject).2.offsets.sport_fl4
        = aligned_offset subject status.offsets.sport_fl4 sz.SIZEOF_SPORT_FL4 ∧
      (guess_offsets K sz comm status subject).2.values.sport_fl4 = 256 * b0 + b1) ∧
    (status.what = guess_what.GUESS_DPORT_FL4 →
      K.byte (ptr_add subject (aligned_offset subject status.offsets.dport_fl4 sz.SIZEOF_DPORT_FL4)) = some b0 →
      K.byte (ptr_add subject (aligned_offset subject status.offsets.dport_fl4 sz.SIZEOF_DPORT_FL4) + 1) = some b1 →
      (guess_offsets K sz comm status subject).2.offsets.dport_fl4
        = aligned_offset subject status.offsets.dport_fl4 sz.SIZEOF_DPORT_FL4 ∧
      (guess_offsets K sz comm status subject).2.values.dport_fl4 = 256 * b0 + b1) ∧
    (status.what = guess_what.GUESS_SPORT_FL6 →
      K.byte (ptr_add subject (aligned_offset subject status.offsets.sport_fl6 sz.SIZEOF_SPORT_FL6)) = some b0 →
      K.byte (ptr_add subject (aligned_offset subject status.offsets.sport_fl6 sz.SIZEOF_SPORT_FL6) + 1) = some b1 →
      (guess_offsets K sz comm status subject).2.offsets.sport_fl6
        = aligned_offset subject status.offsets.sport_fl6 sz.SIZEOF_SPORT_FL6 ∧
      (guess_offsets K sz comm status subject).2.values.sport_fl6 = 256 * b0 + b1) ∧
    (status.what = guess_what.GUESS_DPORT_FL6 →
      K.byte (ptr_add subject (aligned_offset subject status.offsets.dport_fl6 sz.SIZEOF_DPORT_FL6)) = some b0 →
      K.byte (ptr_add subject (aligned_offset subject status.offsets.dport_fl6 sz.SIZEOF_DPORT_FL6) + 1) = some b1 →
      (guess_offsets K sz comm status subject).2.offsets.dport_fl6
        = aligned_offset subject status.offsets.dport_fl6 sz.SIZEOF_DPORT_FL6 ∧
      (guess_offsets K sz comm status subject).2.values.dport_fl6 = 256 * b0 + b1) := by
  rw [guess_offsets_checking K sz comm status subject h1 h2]
  unfold guess_offsets_switch
  refine ⟨?_, ?_, ?_, ?_, ?_, ?_⟩ <;>
  · intro hw hk0 hk1
    rw [hw]
    simp only []
    rw [bpf_probe_read_kernel_of_load K _ _ _ _ (load_bytes_two K _ b0 b1 hk0 hk1 hb0 hb1)]
    exact ⟨trivial, bpf_ntohs_bytes b0 b1 hb0 hb1⟩

/-- C14 witness: target GUESS_SPORT over a subject whose first two bytes are
0x1F and 0x90: the published port is 8080. -/
theorem guess_offsets_port_ntohs_witness :
    (sim_image sim_subject [31, 144]).byte
      (ptr_add sim_subject (aligned_offset sim_subject 0 sim_sizes.SIZEOF_SPORT)) = some 31 ∧
    (sim_image sim_subject [31, 144]).byte
      (ptr_add sim_subject (aligned_offset sim_subject 0 sim_sizes.SIZEOF_SPORT) + 1)
        = some 144 ∧
    (guess_offsets (sim_image sim_subject [31, 144]) sim_sizes sim_comm
      (sim_status guess_state.STATE_CHECKING guess_what.GUESS_SPORT) sim_subject).2.values.sport
      = 8080 :=
  ⟨by decide, by decide,
   ((guess_offsets_port_ntohs (sim_image sim_subject [31, 144]) sim_sizes sim_comm
      (sim_status guess_state.STATE_CHECKING guess_what.GUESS_SPORT) sim_subject 31 144
      (by decide) (by decide) (by decide) (by decide)).1 (by decide) (by decide) (by decide)).2⟩

/-- C15: for target GUESS_RTT (state CHECKING, matching thread) and raw 32-bit
values r and v read at the rtt and rtt_var offsets, the published values are
values.rtt = r >> 3, the floor of r / 8, and values.rtt_var = v >> 2, the floor
of v / 4. -/
theorem guess_offsets_rtt_shift (K : kernel_mem) (sz : sizeof_t) (comm : proc_t)
    (status : tracer_status_t) (subject r v : Nat)
    (h1 : status.state = guess_state.STATE_CHECKING)
    (h2 : proc_t_comm_equals status.proc comm = true)
    (h3 : status.what = guess_what.GUESS_RTT)
    (hr : load_bytes K
      (ptr_add subject (aligned_offset subject status.offsets.rtt sz.SIZEOF_RTT))
      sizeof_u32 = some r)
    (hv : load_bytes K
      (ptr_add subject (aligned_offset subject
        (add64 (aligned_offset subject status.offsets.rtt sz.SIZEOF_RTT) sz.SIZEOF_RTT)
        sz.SIZEOF_RTT_VAR))
      sizeof_u32 = some v) :
    (guess_offsets K sz comm status subject).2.values.rtt = r >>> 3 ∧
    (guess_offsets K sz comm status subject).2.values.rtt = r / 8 ∧
    (guess_offsets K sz comm status subject).2.values.rtt_var = v >>> 2 ∧
    (guess_offsets K sz comm status subject).2.values.rtt_var = v / 4 := by
  rw [guess_offsets_checking K sz comm status subject h1 h2]
  unfold guess_offsets_switch
  rw [h3]
  simp only []
  rw [bpf_probe_read_kernel_of_load K _ _ _ r hr, bpf_probe_read_kernel_of_load K _ _ _ v hv]
  refine ⟨rfl, ?_, rfl, ?_⟩
  · show r >>> 3 = r / 8
    rw [Nat.shiftRight_eq_div_pow]
  · show v >>> 2 = v / 4
    rw [Nat.shiftRight_eq_div_pow]

/-- C15 witness: raw values 320 and 32 at offsets 8 and 12 are published as 40
and 8. -/
theorem guess_offsets_rtt_shift_witness :
    load_bytes (sim_image sim_subject [1, 2, 3, 4, 5, 6, 7, 8, 64, 1, 0, 0, 32, 0, 0, 0])
      (ptr_add sim_subject (aligned_offset sim_subject 5 sim_sizes.SIZEOF_RTT))
      sizeof_u32 = some 320 ∧
    (guess_offsets (sim_image sim_subject [1, 2, 3, 4, 5, 6, 7, 8, 64, 1, 0, 0, 32, 0, 0, 0])
      sim_sizes sim_comm
      { sim_status guess_state.STATE_CHECKING guess_what.GUESS_RTT with
          offsets := { zero_offsets with rtt := 5 } } sim_subject).2.values.rtt = 320 / 8 ∧
    (guess_offsets (sim_image sim_subject [1, 2, 3, 4, 5, 6, 7, 8, 64, 1, 0, 0, 32, 0, 0, 0])
      sim_sizes sim_comm
      { sim_status guess_state.STATE_CHECKING guess_what.GUESS_RTT with
          offsets := { zero_offsets with rtt := 5 } } sim_subject).2.values.rtt_var = 32 / 4 :=
  ⟨by decide,
   (guess_offsets_rtt_shift
      (sim_image sim_subject [1, 2, 3, 4, 5, 6, 7, 8, 64, 1, 0, 0, 32, 0, 0, 0])
      sim_sizes sim_comm
      { sim_status guess_state.STATE_CHECKING guess_what.GUESS_RTT with
          offsets := { zero_offsets with rtt := 5 } } sim_subject 320 32
      (by decide) (by decide) (by decide) (by decide) (by decide)).2.1,
   (guess_offsets_rtt_shift
      (sim_image sim_subject [1, 2, 3, 4, 5, 6, 7, 8, 64, 1, 0, 0, 32, 0, 0, 0])
      sim_sizes sim_comm
      { sim_status guess_state.STATE_CHECKING guess_what.GUESS_RTT with
          offsets := { zero_offsets with rtt := 5 } } sim_subject 320 32
      (by decide) (by decide) (by decide) (by decide) (by decide)).2.2.2⟩

/-- C16: for every record in state CHECKING with a matching thread whose
target is none of the labels of the switch, `guess_offsets` returns 0 and the
stored record is the record before the call: nothing is published and the state
remains CHECKING. -/
theorem guess_offsets_unrecognized (K : kernel_mem) (sz : sizeof_t) (comm : proc_t)
    (status : tracer_status_t) (subject raw : Nat)
    (h1 : status.state = guess_state.STATE_CHECKING)
    (h2 : proc_t_comm_equals status.proc comm = true)
    (h3 : status.what = guess_what.unrecognized raw) :
    guess_offsets K sz comm status subject = (0, status) ∧
    (guess_offsets K sz comm status subject).2.state = guess_state.STATE_CHECKING := by
  rw [guess_offsets_checking K sz comm status subject h1 h2]
  unfold guess_offsets_switch
  rw [h3]
  exact ⟨rfl, h1⟩

/-- C16 witness: a record whose target holds the value 99. -/
theorem guess_offsets_unrecognized_witness :
    guess_offsets (sim_image sim_subject [31, 144]) sim_sizes sim_comm
      (sim_status guess_state.STATE_CHECKING (guess_what.unrecognized 99)) sim_subject
      = (0, sim_status guess_state.STATE_CHECKING (guess_what.unrecognized 99)) :=
  (guess_offsets_unrecognized (sim_image sim_subject [31, 144]) sim_sizes sim_comm
    (sim_status guess_state.STATE_CHECKING (guess_what.unrecognized 99)) sim_subject 99
    (by decide) (by decide) (by decide)).1

/-- C11 witness: the namespace pointer field points 16 bytes into the subject,
where the inode 42 is stored. -/
theorem guess_offsets_netns_second_stage_witness :
    (bpf_probe_read_kernel
      (sim_image sim_subject
        [16, 16, 0, 0, 128, 136, 255, 255, 0, 0, 0, 0, 0, 0, 0, 0, 42, 0, 0, 0]) 0 sizeof_ptr
      (ptr_add sim_subject (aligned_offset sim_subject 0 sim_sizes.SIZEOF_NETNS))).2
      = sim_subject + 16 ∧
    (guess_offsets
      (sim_image sim_subject
        [16, 16, 0, 0, 128, 136, 255, 255, 0, 0, 0, 0, 0, 0, 0, 0, 42, 0, 0, 0])
      sim_sizes sim_comm
      (sim_status guess_state.STATE_CHECKING guess_what.GUESS_NETNS) sim_subject).2.err = 0 ∧
    (guess_offsets
      (sim_image sim_subject
        [16, 16, 0, 0, 128, 136, 255, 255, 0, 0, 0, 0, 0, 0, 0, 0, 42, 0, 0, 0])
      sim_sizes sim_comm
      (sim_status guess_state.STATE_CHECKING guess_what.GUESS_NETNS) sim_subject).2.values.netns
      = 42 :=
  ⟨by decide,
   ((guess_offsets_netns_second_stage
      (sim_image sim_subject
        [16, 16, 0, 0, 128, 136, 255, 255, 0, 0, 0, 0, 0, 0, 0, 0, 42, 0, 0, 0])
      sim_sizes sim_comm
      (sim_status guess_state.STATE_CHECKING guess_what.GUESS_NETNS) sim_subject
      (by decide) (by decide) (by decide) (by decide)).2 42 (by decide)).2.1,
   ((guess_offsets_netns_second_stage
      (sim_image sim_subject
        [16, 16, 0, 0, 128, 136, 255, 255, 0, 0, 0, 0, 0, 0, 0, 0, 42, 0, 0, 0])
      sim_sizes sim_comm
      (sim_status guess_state.STATE_CHECKING guess_what.GUESS_NETNS) sim_subject
      (by decide) (by decide) (by decide) (by decide)).2 42 (by decide)).2.2⟩

/-! ## Candidate offsets across an invocation -/

/-- Below the wrap-around the aligned offset is at least the offset given and
less than eight above it. -/
theorem aligned_offset_ge (p o s : Nat) (hs : size_ok s) (hb : o + 8 ≤ U64) :
    o ≤ aligned_offset p o s ∧ aligned_offset p o s < o + 8 := by
  rw [aligned_offset_closed_form p o s hs]
  unfold U64 at *
  rcases hs with rfl | rfl | rfl | rfl <;> omega

/-- For every base and every size of at least 1 with `o + s ≤ 2 ^ 64` the result
of `aligned_offset` is at least `o` and less than `o + s`. -/
theorem aligned_offset_ge_of_fits (p o s : Nat) (hs : 0 < s) (h : o + s ≤ U64) :
    o ≤ aligned_offset p o s ∧ aligned_offset p o s < o + s := by
  have hr := Nat.mod_lt (sub64 (add64 (add64 (p % U64) o) s) 1) hs
  unfold aligned_offset
  simp only []
  generalize (sub64 (add64 (add64 (p % U64) o) s) 1) % s = r at *
  unfold sub64 add64 U64 at *
  omega

/-- C13 (as stated, refuted): with target GUESS_RTT and a prior record whose
rtt offset is 0 and whose rtt_var offset is 8, the stored rtt_var offset after
the call is 4, below its prior value; and with target GUESS_SADDR and prior
saddr offset 2^64 - 1 the stored saddr offset after the call is 0. -/
theorem candidate_offset_decreases :
    (guess_offsets (sim_image sim_subject [1, 2, 3, 4, 5, 6, 7, 8]) sim_sizes sim_comm
      { sim_status guess_state.STATE_CHECKING guess_what.GUESS_RTT with
          offsets := { zero_offsets with rtt_var := 8 } } sim_subject).2.offsets.rtt_var = 4 ∧
    ¬ (({ sim_status guess_state.STATE_CHECKING guess_what.GUESS_RTT with
          offsets := { zero_offsets with rtt_var := 8 } } : tracer_status_t).offsets.rtt_var ≤
      (guess_offsets (sim_image sim_subject [1, 2, 3, 4, 5, 6, 7, 8]) sim_sizes sim_comm
        { sim_status guess_state.STATE_CHECKING guess_what.GUESS_RTT with
            offsets := { zero_offsets with rtt_var := 8 } } sim_subject).2.offsets.rtt_var) ∧
    ¬ (({ sim_status guess_state.STATE_CHECKING guess_what.GUESS_SADDR with
          offsets := { zero_offsets with saddr := 18446744073709551615 } }
            : tracer_status_t).offsets.saddr ≤
      (guess_offsets (sim_image sim_subject [1, 2, 3, 4, 5, 6, 7, 8]) sim_sizes sim_comm
        { sim_status guess_state.STATE_CHECKING guess_what.GUESS_SADDR with
            offsets := { zero_offsets with saddr := 18446744073709551615 } }
        sim_subject).2.offsets.saddr) := by
  decide

/-- C13 (amended): for every invocation of `guess_offsets` (any prior record,
target, subject, memory image and alignment constants) and every field F, the
candidate offset of F in the stored record is at least its prior value if and
only if one of the following holds.  The invocation does not reach a case that
assigns F (wrong state, other thread, another target, a null namespace pointer
for ino, a failed family check for daddr_ipv6).  Or F is the offset of the
target (or ino under GUESS_NETNS) and the prior offset is at most
aligned_offset(subject, prior offset, SIZEOF_F), the value assigned.  Or F is
rtt_var under GUESS_RTT and its prior value is at most
aligned_offset(subject, new rtt offset + SIZEOF_RTT, SIZEOF_RTT_VAR), the value
assigned whatever rtt_var held.  And aligned_offset(p, o, s) is at least o, and
less than o + s, for every p and every size s ≥ 1 with o + s ≤ 2^64: the offset
of the target falls below its prior value only through wrap-around. -/
theorem guess_offsets_offsets_monotone (K : kernel_mem) (sz : sizeof_t) (comm : proc_t)
    (status : tracer_status_t) (subject : Nat) :
    (status.offsets.saddr ≤ (guess_offsets K sz comm status subject).2.offsets.saddr ↔
      (runs_case status comm guess_what.GUESS_SADDR →
        status.offsets.saddr ≤ aligned_offset subject status.offsets.saddr sz.SIZEOF_SADDR)) ∧
    (status.offsets.daddr ≤ (guess_offsets K sz comm status subject).2.offsets.daddr ↔
      (runs_case status comm guess_what.GUESS_DADDR →
        status.offsets.daddr ≤ aligned_offset subject status.offsets.daddr sz.SIZEOF_DADDR)) ∧
    (status.offsets.family ≤ (guess_offsets K sz comm status subject).2.offsets.family ↔
      (runs_case status comm guess_what.GUESS_FAMILY →
        status.offsets.family ≤ aligned_offset subject status.offsets.family sz.SIZEOF_FAMILY)) ∧
    (status.offsets.sport ≤ (guess_offsets K sz comm status subject).2.offsets.sport ↔
      (runs_case status comm guess_what.GUESS_SPORT →
        status.offsets.sport ≤ aligned_offset subject status.offsets.sport sz.SIZEOF_SPORT)) ∧
    (status.offsets.dport ≤ (guess_offsets K sz comm status subject).2.offsets.dport ↔
      (runs_case status comm guess_what.GUESS_DPORT →
        status.offsets.dport ≤ aligned_offset subject status.offsets.dport sz.SIZEOF_DPORT)) ∧
    (status.offsets.saddr_fl4 ≤ (guess_offsets K sz comm status subject).2.offsets.saddr_fl4 ↔
      (runs_case status comm guess_what.GUESS_SADDR_FL4 →
        status.offsets.saddr_fl4 ≤ aligned_offset subject status.offsets.saddr_fl4 sz.SIZEOF_SADDR_FL4)) ∧
    (status.offsets.daddr_fl4 ≤ (guess_offsets K sz comm status subject).2.offsets.daddr_fl4 ↔
      (runs_case status comm guess_what.GUESS_DADDR_FL4 →
        status.offsets.daddr_fl4 ≤ aligned_offset subject status.offsets.daddr_fl4 sz.SIZEOF_DADDR_FL4)) ∧
    (status.offsets.sport_fl4 ≤ (guess_offsets K sz comm status subject).2.offsets.sport_fl4 ↔
      (runs_case status comm guess_what.GUESS_SPORT_FL4 →
        status.offsets.sport_fl4 ≤ aligned_offset subject status.offsets.sport_fl4 sz.SIZEOF_SPORT_FL4)) ∧
    (status.offsets.dport_fl4 ≤ (guess_offsets K sz comm status subject).2.offsets.dport_fl4 ↔
      (runs_case status comm guess_what.GUESS_DPORT_FL4 →
        status.offsets.dport_fl4 ≤ aligned_offset subject status.offsets.dport_fl4 sz.SIZEOF_DPORT_FL4)) ∧
    (status.offsets.saddr_fl6 ≤ (guess_offsets K sz comm status subject).2.offsets.saddr_fl6 ↔
      (runs_case status comm guess_what.GUESS_SADDR_FL6 →
        status.offsets.saddr_fl6 ≤ aligned_offset subject status.offsets.saddr_fl6 sz.SIZEOF_SADDR_FL6)) ∧
    (status.offsets.daddr_fl6 ≤ (guess_offsets K sz comm status subject).2.offsets.daddr_fl6 ↔
      (runs_case status comm guess_what.GUESS_DADDR_FL6 →
        status.offsets.daddr_fl6 ≤ aligned_offset subject status.offsets.daddr_fl6 sz.SIZEOF_DADDR_FL6)) ∧
    (status.offsets.sport_fl6 ≤ (guess_offsets K sz comm status subject).2.offsets.sport_fl6 ↔
      (runs_case status comm guess_what.GUESS_SPORT_FL6 →
        status.offsets.sport_fl6 ≤ aligned_offset subject status.offsets.sport_fl6 sz.SIZEOF_SPORT_FL6)) ∧
    (status.offsets.dport_fl6 ≤ (guess_offsets K sz comm status subject).2.offsets.dport_fl6 ↔
      (runs_case status comm guess_what.GUESS_DPORT_FL6 →
        status.offsets.dport_fl6 ≤ aligned_offset subject status.offsets.dport_fl6 sz.SIZEOF_DPORT_FL6)) ∧
    (status.offsets.netns ≤ (guess_offsets K sz comm status subject).2.offsets.netns ↔
      (runs_case status comm guess_what.GUESS_NETNS →
        status.offsets.netns ≤ aligned_offset subject status.offsets.netns sz.SIZEOF_NETNS)) ∧
    (status.offsets.ino ≤ (guess_offsets K sz comm status subject).2.offsets.ino ↔
      (runs_case status comm guess_what.GUESS_NETNS →
        (bpf_probe_read_kernel K 0 sizeof_ptr
          (ptr_add subject (aligned_offset subject status.offsets.netns sz.SIZEOF_NETNS))).2 ≠ 0 →
        status.offsets.ino ≤ aligned_offset subject status.offsets.ino sz.SIZEOF_NETNS_INO)) ∧
    (status.offsets.rtt ≤ (guess_offsets K sz comm status subject).2.offsets.rtt ↔
      (runs_case status comm guess_what.GUESS_RTT →
        status.offsets.rtt ≤ aligned_offset subject status.offsets.rtt sz.SIZEOF_RTT)) ∧
    (status.offsets.rtt_var ≤ (guess_offsets K sz comm status subject).2.offsets.rtt_var ↔
      (runs_case status comm guess_what.GUESS_RTT →
        status.offsets.rtt_var ≤ aligned_offset subject
          (add64 (aligned_offset subject status.offsets.rtt sz.SIZEOF_RTT) sz.SIZEOF_RTT)
          sz.SIZEOF_RTT_VAR)) ∧
    (status.offsets.daddr_ipv6 ≤ (guess_offsets K sz comm status subject).2.offsets.daddr_ipv6 ↔
      (runs_case status comm guess_what.GUESS_DADDR_IPV6 →
        check_family K subject status AF_INET6 = true →
        status.offsets.daddr_ipv6
          ≤ aligned_offset subject status.offsets.daddr_ipv6 sz.SIZEOF_DADDR_IPV6)) ∧
    (status.offsets.socket_sk ≤ (guess_offsets K sz comm status subject).2.offsets.socket_sk ↔
      (runs_case status comm guess_what.GUESS_SOCKET_SK →
        status.offsets.socket_sk ≤ aligned_offset subject status.offsets.socket_sk sz.SIZEOF_SOCKET_SK)) ∧
    (status.offsets.sk_buff_sock ≤ (guess_offsets K sz comm status subject).2.offsets.sk_buff_sock ↔
      (runs_case status comm guess_what.GUESS_SK_BUFF_SOCK →
        status.offsets.sk_buff_sock ≤ aligned_offset subject status.offsets.sk_buff_sock sz.SIZEOF_SK_BUFF_SOCK)) ∧
    (status.offsets.sk_buff_transport_header ≤ (guess_offsets K sz comm status subject).2.offsets.sk_buff_transport_header ↔
      (runs_case status comm guess_what.GUESS_SK_BUFF_TRANSPORT_HEADER →
        status.offsets.sk_buff_transport_header ≤ aligned_offset subject status.offsets.sk_buff_transport_header sz.SIZEOF_SK_BUFF_TRANSPORT_HEADER)) ∧
    (status.offsets.sk_buff_head ≤ (guess_offsets K sz comm status subject).2.offsets.sk_buff_head ↔
      (runs_case status comm guess_what.GUESS_SK_BUFF_HEAD →
        status.offsets.sk_buff_head ≤ aligned_offset subject status.offsets.sk_buff_head sz.SIZEOF_SK_BUFF_HEAD)) ∧
    (∀ p o s, 0 < s → o + s ≤ U64 →
      o ≤ aligned_offset p o s ∧ aligned_offset p o s < o + s) := by
  unfold runs_case
  refine ⟨?_, ?_, ?_, ?_, ?_, ?_, ?_, ?_, ?_, ?_, ?_, ?_, ?_, ?_, ?_, ?_, ?_, ?_, ?_, ?_, ?_, ?_,
    fun p o s hs h => aligned_offset_ge_of_fits p o s hs h⟩
  all_goals
    by_cases h1 : status.state = guess_state.STATE_CHECKING
    · by_cases h2 : proc_t_comm_equals status.proc comm = true
      · rw [guess_offsets_checking K sz comm status subject h1 h2]
        unfold guess_offsets_switch
        cases hw : status.what <;> simp only [] <;> (try split_ifs) <;> simp_all
      · have h2f : proc_t_comm_equals status.proc comm = false := by
          cases hc : proc_t_comm_equals status.proc comm
          · rfl
          · exact absurd hc h2
        rw [guess_offsets_of_other_thread K sz comm status subject h1 h2f]
        simp [h2f]
    · rw [guess_offsets_of_not_checking K sz comm status subject h1]
      simp [h1]

/-- C13 witness: target GUESS_RTT with prior rtt offset 1 and rtt_var offset 6
over sizes `sim_sizes`: rtt moves to 4 and rtt_var to 8, above its prior value
although that was above the prior rtt offset plus SIZEOF_RTT; an untargeted
sport offset of 2^64 - 1 stays; and target GUESS_SADDR_FL6 with an alignment
constant of 16 moves the prior offset 3 to 16. -/
theorem guess_offsets_offsets_monotone_witness :
    (6 : Nat) ≤ (guess_offsets (sim_image sim_subject [1, 2, 3, 4, 5, 6, 7, 8, 9, 10, 11, 12])
      sim_sizes sim_comm
      { sim_status guess_state.STATE_CHECKING guess_what.GUESS_RTT with
          offsets := { zero_offsets with rtt := 1, rtt_var := 6, sport := 18446744073709551615 } }
      sim_subject).2.offsets.rtt_var ∧
    (guess_offsets (sim_image sim_subject [1, 2, 3, 4, 5, 6, 7, 8, 9, 10, 11, 12])
      sim_sizes sim_comm
      { sim_status guess_state.STATE_CHECKING guess_what.GUESS_RTT with
          offsets := { zero_offsets with rtt := 1, rtt_var := 6, sport := 18446744073709551615 } }
      sim_subject).2.offsets
      = { zero_offsets with rtt := 4, rtt_var := 8, sport := 18446744073709551615 } ∧
    (3 : Nat) ≤ aligned_offset sim_subject 3 16 ∧ aligned_offset sim_subject 3 16 = 16 :=
  ⟨(guess_offsets_offsets_monotone (sim_image sim_subject [1, 2, 3, 4, 5, 6, 7, 8, 9, 10, 11, 12])
      sim_sizes sim_comm
      { sim_status guess_state.STATE_CHECKING guess_what.GUESS_RTT with
          offsets := { zero_offsets with rtt := 1, rtt_var := 6, sport := 18446744073709551615 } }
      sim_subject).2.2.2.2.2.2.2.2.2.2.2.2.2.2.2.2.1.mpr (fun _ => by decide),
   by decide,
   ((guess_offsets_offsets_monotone sim_invalid sim_sizes sim_comm
      (sim_status guess_state.STATE_CHECKING guess_what.GUESS_RTT) sim_subject).2.2.2.2.2.2.2.2.2.2.2.2.2.2.2.2.2.2.2.2.2.2
      sim_subject 3 16 (by decide) (by decide)).1,
   by decide⟩

/-! ## Hook entry points -/

/-- An event from a thread with another name leaves the record handed to
`guess_offsets` in the map, whatever its state. -/
theorem guess_offsets_record_of_other_thread (K : kernel_mem) (sz : sizeof_t) (comm : proc_t)
    (status : tracer_status_t) (subject : Nat)
    (h : proc_t_comm_equals status.proc comm = false) :
    (guess_offsets K sz comm status subject).2 = status := by
  by_cases h1 : status.state = guess_state.STATE_CHECKING
  · rw [guess_offsets_of_other_thread K sz comm status subject h1 h]
  · rw [guess_offsets_of_not_checking K sz comm status subject h1]

/-- C17 (as stated, refuted): a `tcp_getsockopt` event with level SOL_TCP and
option TCP_INFO from a thread named "curl", while the record is armed by
"system-probe" for target GUESS_SPORT: the stored record after the hook differs
from the record before it, its liveness flag being 1. -/
theorem tcp_getsockopt_other_thread_sets_flag :
    proc_t_comm_equals (sim_status guess_state.STATE_CHECKING guess_what.GUESS_SPORT).proc
      sim_other_comm = false ∧
    (kprobe__tcp_getsockopt sim_invalid sim_sizes sim_other_comm
      (sim_maps (sim_status guess_state.STATE_CHECKING guess_what.GUESS_SPORT))
      sim_regs).maps.tracer_status
      ≠ (sim_maps (sim_status guess_state.STATE_CHECKING guess_what.GUESS_SPORT)).tracer_status ∧
    (kprobe__tcp_getsockopt sim_invalid sim_sizes sim_other_comm
      (sim_maps (sim_status guess_state.STATE_CHECKING guess_what.GUESS_SPORT))
      sim_regs).maps.tracer_status
      = some { sim_status guess_state.STATE_CHECKING guess_what.GUESS_SPORT with
                tcp_info_kprobe_status := 1 } := by
  decide

/-- C17 (amended): for every event triggered by a thread whose name does not
match the recorded name, the hooks ip_make_skb, both ip6_make_skb variants,
sock_common_getsockopt, the tcp_v6_connect return probe and net_dev_queue leave
the stored tracer_status record as it was; the tcp_getsockopt hook leaves it as
it was when it does not call the engine, and otherwise stores the prior record
with tcp_info_kprobe_status set to 1 and nothing else changed. -/
theorem hooks_other_thread (K : kernel_mem) (sz : sizeof_t) (comm : proc_t) (pid : Nat)
    (maps : maps_t) (ctx : pt_regs) (tctx : net_dev_queue_ctx) (status : tracer_status_t)
    (hrec : maps.tracer_status = some status)
    (hne : proc_t_comm_equals status.proc comm = false) :
    (kprobe__ip_make_skb K sz comm maps ctx).maps.tracer_status = some status ∧
    (kprobe__ip6_make_skb K sz comm maps ctx).maps.tracer_status = some status ∧
    (kprobe__ip6_make_skb__pre_4_7_0 K sz comm maps ctx).maps.tracer_status = some status ∧
    (kprobe__sock_common_getsockopt K sz comm maps ctx).maps.tracer_status = some status ∧
    (kretprobe__tcp_v6_connect K sz comm pid maps).maps.tracer_status = some status ∧
    (tracepoint__net__net_dev_queue K sz comm maps tctx).maps.tracer_status = some status ∧
    ((kprobe__tcp_getsockopt K sz comm maps ctx).forwarded = none →
      (kprobe__tcp_getsockopt K sz comm maps ctx).maps.tracer_status = some status) ∧
    ((kprobe__tcp_getsockopt K sz comm maps ctx).forwarded ≠ none →
      (kprobe__tcp_getsockopt K sz comm maps ctx).maps.tracer_status
        = some { status with tcp_info_kprobe_status := 1 }) := by
  have hflag : proc_t_comm_equals
      ({ status with tcp_info_kprobe_status := 1 } : tracer_status_t).proc comm = false := hne
  refine ⟨?_, ?_, ?_, ?_, ?_, ?_, ?_, ?_⟩
  · unfold kprobe__ip_make_skb
    rw [hrec]
    simp only []
    split_ifs
    · exact hrec
    · simp only [guess_offsets_record_of_other_thread K sz comm status _ hne]
  · unfold kprobe__ip6_make_skb
    rw [hrec]
    simp only []
    split_ifs
    · exact hrec
    · simp only [guess_offsets_record_of_other_thread K sz comm status _ hne]
  · unfold kprobe__ip6_make_skb__pre_4_7_0
    rw [hrec]
    simp only []
    split_ifs
    · exact hrec
    · simp only [guess_offsets_record_of_other_thread K sz comm status _ hne]
  · unfold kprobe__sock_common_getsockopt
    rw [hrec]
    simp only []
    split_ifs
    · exact hrec
    · simp only [guess_offsets_record_of_other_thread K sz comm status _ hne]
  · unfold kretprobe__tcp_v6_connect
    cases hl : hash_lookup maps.connectsock_ipv6 pid with
    | none => exact hrec
    | some skp =>
      simp only [hrec]
      split_ifs
      · rfl
      · simp only [guess_offsets_record_of_other_thread K sz comm status _ hne]
  · unfold tracepoint__net__net_dev_queue
    rw [hrec]
    simp only []
    split_ifs
    · exact hrec
    · simp only [guess_offsets_record_of_other_thread K sz comm status _ hne]
  · unfold kprobe__tcp_getsockopt
    rw [hrec]
    simp only []
    split_ifs
    · intro _; exact hrec
    · intro _; exact hrec
    · intro h; cases h
  · unfold kprobe__tcp_getsockopt
    rw [hrec]
    simp only []
    split_ifs
    · intro h; exact absurd rfl h
    · intro h; exact absurd rfl h
    · intro _
      simp only [guess_offsets_record_of_other_thread K sz comm _ _ hflag]

/-- C17 witness: an `ip_make_skb` event from "curl" on a record armed by
"system-probe". -/
theorem hooks_other_thread_witness :
    proc_t_comm_equals (sim_status guess_state.STATE_CHECKING guess_what.GUESS_SPORT).proc
      sim_other_comm = false ∧
    (kprobe__ip_make_skb sim_invalid sim_sizes sim_other_comm
      (sim_maps (sim_status guess_state.STATE_CHECKING guess_what.GUESS_SPORT))
      sim_regs).maps.tracer_status
      = some (sim_status guess_state.STATE_CHECKING guess_what.GUESS_SPORT) :=
  ⟨by decide,
   (hooks_other_thread sim_invalid sim_sizes sim_other_comm 7
      (sim_maps (sim_status guess_state.STATE_CHECKING guess_what.GUESS_SPORT)) sim_regs
      ⟨0, sim_subject⟩ (sim_status guess_state.STATE_CHECKING guess_what.GUESS_SPORT)
      rfl (by decide)).1⟩

/-! ## Conntrack engine -/

/-- In state CHECKING and from the calibration thread the conntrack engine runs
its switch on the prepared snapshot and publishes what the switch leaves. -/
theorem guess_conntrack_offsets_checking (K : kernel_mem) (sz : conntrack_sizeof_t)
    (comm : proc_t) (status : conntrack_status_t) (subject : Nat)
    (h1 : status.state = guess_state.STATE_CHECKING)
    (h2 : proc_t_comm_equals status.proc comm = true) :
    guess_conntrack_offsets K sz comm status subject =
      match guess_conntrack_offsets_switch K sz status
        { status with state := guess_state.STATE_CHECKED, proc := comm } subject with
      | none => (0, status)
      | some new_status => (0, new_status) := by
  simp [guess_conntrack_offsets, h1, h2]

/-- C18 (as stated, refuted): target GUESS_CT_NET, state CHECKING, matching
thread, prior inode offset 1 and prior values.netns 7.  Over a subject whose
namespace pointer field is null the engine still stores the second-stage
result: values.netns becomes 0 and the record is published with nothing that
reports a fault.  Over a subject whose pointer field is valid the inode is read
at pointer + 1, the prior inode offset as it stands (bytes 2, 3, 4, 5), and the
stored inode offset is still 1, not the aligned offset 4. -/
theorem ct_net_not_netns_pattern :
    (bpf_probe_read_kernel (sim_image sim_subject [0, 0, 0, 0, 0, 0, 0, 0]) 0 sizeof_ptr
      (ptr_add sim_subject (aligned_offset sim_subject 0 sim_ct_sizes.SIZEOF_CT_NET))).2 = 0 ∧
    guess_conntrack_offsets (sim_image sim_subject [0, 0, 0, 0, 0, 0, 0, 0]) sim_ct_sizes sim_comm
      (sim_ct_status guess_state.STATE_CHECKING conntrack_guess_what.GUESS_CT_NET
        ⟨0, 0, 0, 0, 1⟩ ⟨0, 0, 0, 7⟩) sim_subject
      = (0, sim_ct_status guess_state.STATE_CHECKED conntrack_guess_what.GUESS_CT_NET
              ⟨0, 0, 0, 0, 1⟩ ⟨0, 0, 0, 0⟩) ∧
    (guess_conntrack_offsets (sim_image sim_subject
        [16, 16, 0, 0, 128, 136, 255, 255, 0, 0, 0, 0, 0, 0, 0, 0, 1, 2, 3, 4, 5, 6, 7, 8]) sim_ct_sizes sim_comm
      (sim_ct_status guess_state.STATE_CHECKING conntrack_guess_what.GUESS_CT_NET
        ⟨0, 0, 0, 0, 1⟩ ⟨0, 0, 0, 7⟩) sim_subject).2.values.netns
      = 2 + 256 * 3 + 65536 * 4 + 16777216 * 5 ∧
    (guess_conntrack_offsets (sim_image sim_subject
        [16, 16, 0, 0, 128, 136, 255, 255, 0, 0, 0, 0, 0, 0, 0, 0, 1, 2, 3, 4, 5, 6, 7, 8]) sim_ct_sizes sim_comm
      (sim_ct_status guess_state.STATE_CHECKING conntrack_guess_what.GUESS_CT_NET
        ⟨0, 0, 0, 0, 1⟩ ⟨0, 0, 0, 7⟩) sim_subject).2.offsets.ino = 1 ∧
    aligned_offset sim_subject 1 4 = 4 := by
  decide

/-- C18 (amended): for target GUESS_CT_NET (state CHECKING, matching thread),
for every subject and memory image, `guess_conntrack_offsets` reads the
namespace pointer at subject + aligned netns offset and then, whether or not
that pointer is null, reads the inode through it at the prior inode offset as
it stands; it looks at no return code, publishes the snapshot with state
CHECKED, the advanced netns offset and values.netns set to what the second read
left in its zero-initialised destination, and changes nothing else: the inode
offset is not advanced and no fault is reported. -/
theorem guess_conntrack_offsets_ct_net (K : kernel_mem) (sz : conntrack_sizeof_t)
    (comm : proc_t) (status : conntrack_status_t) (subject : Nat)
    (h1 : status.state = guess_state.STATE_CHECKING)
    (h2 : proc_t_comm_equals status.proc comm = true)
    (h3 : status.what = conntrack_guess_what.GUESS_CT_NET) :
    guess_conntrack_offsets K sz comm status subject =
      (0, { status with
              state := guess_state.STATE_CHECKED, proc := comm,
              offsets := { status.offsets with
                netns := aligned_offset subject status.offsets.netns sz.SIZEOF_CT_NET },
              values := { status.values with
                netns := (bpf_probe_read_kernel K 0 sizeof_u32
                  (ptr_add
                    (bpf_probe_read_kernel K 0 sizeof_ptr
                      (ptr_add subject
                        (aligned_offset subject status.offsets.netns sz.SIZEOF_CT_NET))).2
                    status.offsets.ino)).2 } }) := by
  rw [guess_conntrack_offsets_checking K sz comm status subject h1 h2]
  unfold guess_conntrack_offsets_switch
  rw [h3]

/-- C18 witness: the namespace pointer field points 16 bytes into the subject;
with prior inode offset 1 the bytes 2, 3, 4, 5 are published. -/
theorem guess_conntrack_offsets_ct_net_witness :
    (guess_conntrack_offsets (sim_image sim_subject
        [16, 16, 0, 0, 128, 136, 255, 255, 0, 0, 0, 0, 0, 0, 0, 0, 1, 2, 3, 4, 5, 6, 7, 8]) sim_ct_sizes sim_comm
      (sim_ct_status guess_state.STATE_CHECKING conntrack_guess_what.GUESS_CT_NET
        ⟨0, 0, 0, 0, 1⟩ ⟨0, 0, 0, 7⟩) sim_subject).2
      = sim_ct_status guess_state.STATE_CHECKED conntrack_guess_what.GUESS_CT_NET
          ⟨0, 0, 0, 0, 1⟩ ⟨0, 0, 0, 2 + 256 * 3 + 65536 * 4 + 16777216 * 5⟩ := by
  rw [guess_conntrack_offsets_ct_net (sim_image sim_subject
        [16, 16, 0, 0, 128, 136, 255, 255, 0, 0, 0, 0, 0, 0, 0, 0, 1, 2, 3, 4, 5, 6, 7, 8]) sim_ct_sizes sim_comm
      (sim_ct_status guess_state.STATE_CHECKING conntrack_guess_what.GUESS_CT_NET
        ⟨0, 0, 0, 0, 1⟩ ⟨0, 0, 0, 7⟩) sim_subject (by decide) (by decide) (by decide)]
  decide

/-- C19: the conntrack hook leaves the maps as they were when the record is
absent, when its target is none of GUESS_CT_TUPLE_ORIGIN, GUESS_CT_TUPLE_REPLY,
GUESS_CT_STATUS, GUESS_CT_NET, when its state is not CHECKING, or when the name
of the triggering thread does not match; in every other case it replaces the
record by a snapshot with state CHECKED in which the offset of the target is
`aligned_offset` of the subject, the previous offset and the size of the
field. -/
theorem conntrack_hook_effect (K : kernel_mem) (sz : conntrack_sizeof_t) (comm : proc_t)
    (maps : maps_t) (ctx : pt_regs) :
    (maps.conntrack_status = none →
      (kprobe___nf_conntrack_hash_insert K sz comm maps ctx).maps = maps) ∧
    (∀ status, maps.conntrack_status = some status →
      ((status.what ≠ conntrack_guess_what.GUESS_CT_TUPLE_ORIGIN ∧
          status.what ≠ conntrack_guess_what.GUESS_CT_TUPLE_REPLY ∧
          status.what ≠ conntrack_guess_what.GUESS_CT_STATUS ∧
          status.what ≠ conntrack_guess_what.GUESS_CT_NET) ∨
        status.state ≠ guess_state.STATE_CHECKING ∨
        proc_t_comm_equals status.proc comm = false →
        (kprobe___nf_conntrack_hash_insert K sz comm maps ctx).maps = maps ∧
        (guess_conntrack_offsets K sz comm status ctx.parm1).2 = status) ∧
      ((status.what = conntrack_guess_what.GUESS_CT_TUPLE_ORIGIN ∨
          status.what = conntrack_guess_what.GUESS_CT_TUPLE_REPLY ∨
          status.what = conntrack_guess_what.GUESS_CT_STATUS ∨
          status.what = conntrack_guess_what.GUESS_CT_NET) →
        status.state = guess_state.STATE_CHECKING →
        proc_t_comm_equals status.proc comm = true →
        ∃ r, (kprobe___nf_conntrack_hash_insert K sz comm maps ctx).maps
              = { maps with conntrack_status := some r } ∧
          r = (guess_conntrack_offsets K sz comm status ctx.parm1).2 ∧
          r.state = guess_state.STATE_CHECKED ∧
          (status.what = conntrack_guess_what.GUESS_CT_TUPLE_ORIGIN →
            r.offsets.origin
              = aligned_offset ctx.parm1 status.offsets.origin sz.SIZEOF_CT_TUPLE_ORIGIN) ∧
          (status.what = conntrack_guess_what.GUESS_CT_TUPLE_REPLY →
            r.offsets.reply
              = aligned_offset ctx.parm1 status.offsets.reply sz.SIZEOF_CT_TUPLE_REPLY) ∧
          (status.what = conntrack_guess_what.GUESS_CT_STATUS →
            r.offsets.status
              = aligned_offset ctx.parm1 status.offsets.status sz.SIZEOF_CT_STATUS) ∧
          (status.what = conntrack_guess_what.GUESS_CT_NET →
            r.offsets.netns
              = aligned_offset ctx.parm1 status.offsets.netns sz.SIZEOF_CT_NET))) := by
  refine ⟨?_, ?_⟩
  · intro hnone
    unfold kprobe___nf_conntrack_hash_insert
    rw [hnone]
  · intro status hrec
    have hmaps : { maps with conntrack_status := some status } = maps := by
      cases maps
      simp only [maps_t.mk.injEq] at hrec ⊢
      exact ⟨trivial, hrec.symm, trivial⟩
    refine ⟨?_, ?_⟩
    · intro hcond
      have heng : (guess_conntrack_offsets K sz comm status ctx.parm1).2 = status := by
        by_cases hst : status.state = guess_state.STATE_CHECKING
        · cases hnm : proc_t_comm_equals status.proc comm with
          | false => simp [guess_conntrack_offsets, hst, hnm]
          | true =>
            rw [guess_conntrack_offsets_checking K sz comm status ctx.parm1 hst hnm]
            rcases hcond with ⟨n1, n2, n3, n4⟩ | h | h
            · unfold guess_conntrack_offsets_switch
              cases hw : status.what with
              | GUESS_CT_TUPLE_ORIGIN => exact absurd hw n1
              | GUESS_CT_TUPLE_REPLY => exact absurd hw n2
              | GUESS_CT_STATUS => exact absurd hw n3
              | GUESS_CT_NET => exact absurd hw n4
              | unrecognized raw => rfl
            · exact absurd hst h
            · rw [hnm] at h
              cases h
        · simp [guess_conntrack_offsets, hst]
      refine ⟨?_, heng⟩
      unfold kprobe___nf_conntrack_hash_insert
      rw [hrec]
      simp only []
      split_ifs
      · rfl
      · rw [heng]
        exact hmaps
    · intro hw hst hnm
      have hev : is_ct_event status.what = true := by
        rcases hw with h | h | h | h <;> rw [h] <;> rfl
      refine ⟨(guess_conntrack_offsets K sz comm status ctx.parm1).2, ?_, rfl, ?_⟩
      · unfold kprobe___nf_conntrack_hash_insert
        rw [hrec]
        simp [hev]
      · rw [guess_conntrack_offsets_checking K sz comm status ctx.parm1 hst hnm]
        unfold guess_conntrack_offsets_switch
        rcases hw with h | h | h | h <;> rw [h] <;> simp

/-- C19 witness: a conntrack record armed for GUESS_CT_STATUS with prior offset
9 is replaced by a snapshot with state CHECKED and status offset 16. -/
theorem conntrack_hook_effect_witness :
    (kprobe___nf_conntrack_hash_insert (sim_image sim_subject [1, 2, 3, 4]) sim_ct_sizes
      sim_comm
      ⟨none, some (sim_ct_status guess_state.STATE_CHECKING
        conntrack_guess_what.GUESS_CT_STATUS ⟨0, 0, 9, 0, 0⟩ ⟨0, 0, 0, 0⟩), []⟩
      sim_regs).maps.conntrack_status
      = some (sim_ct_status guess_state.STATE_CHECKED conntrack_guess_what.GUESS_CT_STATUS
          ⟨0, 0, 16, 0, 0⟩ ⟨0, 0, 0, 0⟩) := by
  obtain ⟨r, hr, hr2, -⟩ := (conntrack_hook_effect (sim_image sim_subject [1, 2, 3, 4])
    sim_ct_sizes sim_comm
    ⟨none, some (sim_ct_status guess_state.STATE_CHECKING
      conntrack_guess_what.GUESS_CT_STATUS ⟨0, 0, 9, 0, 0⟩ ⟨0, 0, 0, 0⟩), []⟩
    sim_regs).2 _ rfl |>.2 (by decide) (by decide) (by decide)
  rw [hr, hr2]
  decide

/-! ## Gates of the packet hooks -/

/-- The function `is_sk_buff_event` answers true exactly for the three sk_buff
targets. -/
theorem is_sk_buff_event_iff (what : guess_what) :
    is_sk_buff_event what = true ↔
      (what = guess_what.GUESS_SK_BUFF_SOCK ∨ what = guess_what.GUESS_SK_BUFF_TRANSPORT_HEADER ∨
        what = guess_what.GUESS_SK_BUFF_HEAD) := by
  unfold is_sk_buff_event
  simp only [Bool.or_eq_true, beq_iff_eq]
  tauto

/-- C20: when the record is absent, the net_dev_queue tracepoint and the three
packet-build kprobes return 0 and change nothing.  When the record exists, the
tracepoint hands its sk_buff to `guess_offsets` (and stores what the engine
leaves) if and only if the target is one of GUESS_SK_BUFF_SOCK,
GUESS_SK_BUFF_TRANSPORT_HEADER, GUESS_SK_BUFF_HEAD, and ip_make_skb,
ip6_make_skb and its pre-4.7.0 variant hand over their flow descriptor
(arguments 2, 7 and 9) if and only if the target is none of the three; a hook
that does not hand over changes nothing. -/
theorem packet_hook_gates (K : kernel_mem) (sz : sizeof_t) (comm : proc_t) (maps : maps_t)
    (ctx : pt_regs) (tctx : net_dev_queue_ctx) :
    (maps.tracer_status = none →
      tracepoint__net__net_dev_queue K sz comm maps tctx = ⟨0, maps, none⟩ ∧
      kprobe__ip_make_skb K sz comm maps ctx = ⟨0, maps, none⟩ ∧
      kprobe__ip6_make_skb K sz comm maps ctx = ⟨0, maps, none⟩ ∧
      kprobe__ip6_make_skb__pre_4_7_0 K sz comm maps ctx = ⟨0, maps, none⟩) ∧
    (∀ status, maps.tracer_status = some status →
      ((tracepoint__net__net_dev_queue K sz comm maps tctx).forwarded = some tctx.skb ↔
        (status.what = guess_what.GUESS_SK_BUFF_SOCK ∨
          status.what = guess_what.GUESS_SK_BUFF_TRANSPORT_HEADER ∨
          status.what = guess_what.GUESS_SK_BUFF_HEAD)) ∧
      ((kprobe__ip_make_skb K sz comm maps ctx).forwarded = some ctx.parm2 ↔
        ¬ (status.what = guess_what.GUESS_SK_BUFF_SOCK ∨
          status.what = guess_what.GUESS_SK_BUFF_TRANSPORT_HEADER ∨
          status.what = guess_what.GUESS_SK_BUFF_HEAD)) ∧
      ((kprobe__ip6_make_skb K sz comm maps ctx).forwarded = some ctx.parm7 ↔
        ¬ (status.what = guess_what.GUESS_SK_BUFF_SOCK ∨
          status.what = guess_what.GUESS_SK_BUFF_TRANSPORT_HEADER ∨
          status.what = guess_what.GUESS_SK_BUFF_HEAD)) ∧
      ((kprobe__ip6_make_skb__pre_4_7_0 K sz comm maps ctx).forwarded = some ctx.parm9 ↔
        ¬ (status.what = guess_what.GUESS_SK_BUFF_SOCK ∨
          status.what = guess_what.GUESS_SK_BUFF_TRANSPORT_HEADER ∨
          status.what = guess_what.GUESS_SK_BUFF_HEAD)) ∧
      ((status.what = guess_what.GUESS_SK_BUFF_SOCK ∨
          status.what = guess_what.GUESS_SK_BUFF_TRANSPORT_HEADER ∨
          status.what = guess_what.GUESS_SK_BUFF_HEAD) →
        tracepoint__net__net_dev_queue K sz comm maps tctx
          = ⟨0, { maps with tracer_status := some (guess_offsets K sz comm status tctx.skb).2 },
              some tctx.skb⟩ ∧
        kprobe__ip_make_skb K sz comm maps ctx = ⟨0, maps, none⟩ ∧
        kprobe__ip6_make_skb K sz comm maps ctx = ⟨0, maps, none⟩ ∧
        kprobe__ip6_make_skb__pre_4_7_0 K sz comm maps ctx = ⟨0, maps, none⟩) ∧
      (¬ (status.what = guess_what.GUESS_SK_BUFF_SOCK ∨
          status.what = guess_what.GUESS_SK_BUFF_TRANSPORT_HEADER ∨
          status.what = guess_what.GUESS_SK_BUFF_HEAD) →
        tracepoint__net__net_dev_queue K sz comm maps tctx = ⟨0, maps, none⟩ ∧
        kprobe__ip_make_skb K sz comm maps ctx
          = ⟨0, { maps with tracer_status := some (guess_offsets K sz comm status ctx.parm2).2 },
              some ctx.parm2⟩ ∧
        kprobe__ip6_make_skb K sz comm maps ctx
          = ⟨0, { maps with tracer_status := some (guess_offsets K sz comm status ctx.parm7).2 },
              some ctx.parm7⟩ ∧
        kprobe__ip6_make_skb__pre_4_7_0 K sz comm maps ctx
          = ⟨0, { maps with tracer_status := some (guess_offsets K sz comm status ctx.parm9).2 },
              some ctx.parm9⟩)) := by
  refine ⟨?_, ?_⟩
  · intro hnone
    unfold tracepoint__net__net_dev_queue kprobe__ip_make_skb kprobe__ip6_make_skb
      kprobe__ip6_make_skb__pre_4_7_0
    rw [hnone]
    exact ⟨rfl, rfl, rfl, rfl⟩
  · intro status hrec
    rw [← is_sk_buff_event_iff status.what]
    unfold tracepoint__net__net_dev_queue kprobe__ip_make_skb kprobe__ip6_make_skb
      kprobe__ip6_make_skb__pre_4_7_0
    rw [hrec]
    cases hg : is_sk_buff_event status.what <;> simp [hg]

/-- C20 witness: with target GUESS_SK_BUFF_HEAD the tracepoint hands over its
sk_buff and `ip_make_skb` does nothing. -/
theorem packet_hook_gates_witness :
    (tracepoint__net__net_dev_queue sim_invalid sim_sizes sim_comm
      (sim_maps (sim_status guess_state.STATE_CHECKING guess_what.GUESS_SK_BUFF_HEAD))
      ⟨0, sim_subject⟩).forwarded = some sim_subject ∧
    kprobe__ip_make_skb sim_invalid sim_sizes sim_comm
      (sim_maps (sim_status guess_state.STATE_CHECKING guess_what.GUESS_SK_BUFF_HEAD)) sim_regs
      = ⟨0, sim_maps (sim_status guess_state.STATE_CHECKING guess_what.GUESS_SK_BUFF_HEAD),
          none⟩ :=
  ⟨((packet_hook_gates sim_invalid sim_sizes sim_comm
      (sim_maps (sim_status guess_state.STATE_CHECKING guess_what.GUESS_SK_BUFF_HEAD)) sim_regs
      ⟨0, sim_subject⟩).2 _ rfl).1.mpr (by decide),
   (((packet_hook_gates sim_invalid sim_sizes sim_comm
      (sim_maps (sim_status guess_state.STATE_CHECKING guess_what.GUESS_SK_BUFF_HEAD)) sim_regs
      ⟨0, sim_subject⟩).2 _ rfl).2.2.2.2.1 (by decide)).2.1⟩

/-! ## The tcp_getsockopt hook and the tcp_v6_connect probe pair -/

/-- No case of the switch writes the liveness flag of the snapshot. -/
theorem guess_offsets_switch_liveness (K : kernel_mem) (sz : sizeof_t)
    (status new_status r : tracer_status_t) (subject : Nat)
    (h : guess_offsets_switch K sz status new_status subject = some r) :
    r.tcp_info_kprobe_status = new_status.tcp_info_kprobe_status := by
  unfold guess_offsets_switch at h
  cases hw : status.what <;> rw [hw] at h <;> simp only [] at h <;>
    (try split_ifs at h) <;> cases h <;> rfl

/-- The record that `guess_offsets` leaves in the map carries the liveness flag
of the record it was given. -/
theorem guess_offsets_liveness (K : kernel_mem) (sz : sizeof_t) (comm : proc_t)
    (status : tracer_status_t) (subject : Nat) :
    (guess_offsets K sz comm status subject).2.tcp_info_kprobe_status
      = status.tcp_info_kprobe_status := by
  by_cases h1 : status.state = guess_state.STATE_CHECKING
  · cases h2 : proc_t_comm_equals status.proc comm with
    | false => rw [guess_offsets_of_other_thread K sz comm status subject h1 h2]
    | true =>
      rw [guess_offsets_checking K sz comm status subject h1 h2]
      cases hsw : guess_offsets_switch K sz status
        { status with state := guess_state.STATE_CHECKED, err := 0, proc := comm } subject with
      | none => rfl
      | some r =>
        have hr := guess_offsets_switch_liveness K sz status _ r subject hsw
        exact hr
  · rw [guess_offsets_of_not_checking K sz comm status subject h1]

/-- C21: the tcp_getsockopt hook returns 0 without calling the engine and
leaves the maps as they were when level is not SOL_TCP or optname is not
TCP_INFO, when the record is absent, and when the target is GUESS_SOCKET_SK or
one of the three sk_buff targets; in every other case it hands the sock pointer
(argument 1) to `guess_offsets`, run on the record with tcp_info_kprobe_status
set to 1, and the record stored after the hook has the flag 1. -/
theorem tcp_getsockopt_gate (K : kernel_mem) (sz : sizeof_t) (comm : proc_t) (maps : maps_t)
    (ctx : pt_regs) :
    (cast_int ctx.parm2 ≠ SOL_TCP ∨ cast_int ctx.parm3 ≠ TCP_INFO →
      kprobe__tcp_getsockopt K sz comm maps ctx = ⟨0, maps, none⟩) ∧
    (maps.tracer_status = none →
      kprobe__tcp_getsockopt K sz comm maps ctx = ⟨0, maps, none⟩) ∧
    (∀ status, maps.tracer_status = some status →
      (status.what = guess_what.GUESS_SOCKET_SK ∨
        status.what = guess_what.GUESS_SK_BUFF_SOCK ∨
        status.what = guess_what.GUESS_SK_BUFF_TRANSPORT_HEADER ∨
        status.what = guess_what.GUESS_SK_BUFF_HEAD →
        kprobe__tcp_getsockopt K sz comm maps ctx = ⟨0, maps, none⟩) ∧
      (cast_int ctx.parm2 = SOL_TCP → cast_int ctx.parm3 = TCP_INFO →
        status.what ≠ guess_what.GUESS_SOCKET_SK →
        status.what ≠ guess_what.GUESS_SK_BUFF_SOCK →
        status.what ≠ guess_what.GUESS_SK_BUFF_TRANSPORT_HEADER →
        status.what ≠ guess_what.GUESS_SK_BUFF_HEAD →
        (kprobe__tcp_getsockopt K sz comm maps ctx).ret = 0 ∧
        (kprobe__tcp_getsockopt K sz comm maps ctx).forwarded = some ctx.parm1 ∧
        (kprobe__tcp_getsockopt K sz comm maps ctx).maps.tracer_status
          = some (guess_offsets K sz comm { status with tcp_info_kprobe_status := 1 }
              ctx.parm1).2 ∧
        (kprobe__tcp_getsockopt K sz comm maps ctx).maps.conntrack_status
          = maps.conntrack_status ∧
        (kprobe__tcp_getsockopt K sz comm maps ctx).maps.connectsock_ipv6
          = maps.connectsock_ipv6 ∧
        ∃ r, (kprobe__tcp_getsockopt K sz comm maps ctx).maps.tracer_status = some r ∧
          r.tcp_info_kprobe_status = 1)) := by
  refine ⟨?_, ?_, ?_⟩
  · intro h
    unfold kprobe__tcp_getsockopt
    simp only []
    rw [if_pos h]
  · intro h
    unfold kprobe__tcp_getsockopt
    simp only []
    split_ifs
    · rfl
    · rw [h]
  · intro status hrec
    refine ⟨?_, ?_⟩
    · intro hw
      have hg : (status.what == guess_what.GUESS_SOCKET_SK || is_sk_buff_event status.what)
          = true := by
        unfold is_sk_buff_event
        rcases hw with h | h | h | h <;> rw [h] <;> rfl
      unfold kprobe__tcp_getsockopt
      simp only []
      split_ifs
      · rfl
      · rw [hrec]
        simp only []
        rw [if_pos hg]
    · intro hl ho n1 n2 n3 n4
      have hg : ¬ ((status.what == guess_what.GUESS_SOCKET_SK || is_sk_buff_event status.what)
          = true) := by
        unfold is_sk_buff_event
        simp only [Bool.or_eq_true, beq_iff_eq]
        tauto
      have hlo : ¬ (cast_int ctx.parm2 ≠ SOL_TCP ∨ cast_int ctx.parm3 ≠ TCP_INFO) := by
        intro h
        rcases h with h | h
        · exact h hl
        · exact h ho
      unfold kprobe__tcp_getsockopt
      simp only []
      rw [if_neg hlo, hrec]
      simp only []
      rw [if_neg hg]
      refine ⟨rfl, rfl, rfl, rfl, rfl, _, rfl, ?_⟩
      rw [guess_offsets_liveness]

/-- C21 witness: level SOL_TCP, option TCP_INFO, target GUESS_SPORT, a port
field holding 0x1F 0x90: the hook publishes port 8080 with the flag set. -/
theorem tcp_getsockopt_gate_witness :
    (kprobe__tcp_getsockopt (sim_image sim_subject [31, 144]) sim_sizes sim_comm
      (sim_maps (sim_status guess_state.STATE_CHECKING guess_what.GUESS_SPORT))
      sim_regs).forwarded = some sim_regs.parm1 ∧
    (kprobe__tcp_getsockopt (sim_image sim_subject [31, 144]) sim_sizes sim_comm
      (sim_maps (sim_status guess_state.STATE_CHECKING guess_what.GUESS_SPORT))
      sim_regs).maps.tracer_status
      = some (guess_offsets (sim_image sim_subject [31, 144]) sim_sizes sim_comm
          { sim_status guess_state.STATE_CHECKING guess_what.GUESS_SPORT with
              tcp_info_kprobe_status := 1 } sim_regs.parm1).2 :=
  ⟨(((tcp_getsockopt_gate (sim_image sim_subject [31, 144]) sim_sizes sim_comm
      (sim_maps (sim_status guess_state.STATE_CHECKING guess_what.GUESS_SPORT))
      sim_regs).2.2 _ rfl).2 (by decide) (by decide) (by decide) (by decide) (by decide)
      (by decide)).2.1,
   (((tcp_getsockopt_gate (sim_image sim_subject [31, 144]) sim_sizes sim_comm
      (sim_maps (sim_status guess_state.STATE_CHECKING guess_what.GUESS_SPORT))
      sim_regs).2.2 _ rfl).2 (by decide) (by decide) (by decide) (by decide) (by decide)
      (by decide)).2.2.1⟩

/-- A key is absent from a hash map after its removal. -/
theorem hash_lookup_delete (m : List (Nat × Nat)) (key : Nat) :
    hash_lookup (hash_delete m key) key = none := by
  unfold hash_lookup hash_delete
  induction m with
  | nil => rfl
  | cons e m ih =>
    obtain ⟨a, b⟩ := e
    by_cases h : a = key
    · have e1 : List.filter (fun e => e.1 != key) ((a, b) :: m)
          = List.filter (fun e => e.1 != key) m := by
        simp [List.filter_cons, h]
      rw [e1]
      exact ih
    · have e1 : List.filter (fun e => e.1 != key) ((a, b) :: m)
          = (a, b) :: List.filter (fun e => e.1 != key) m := by
        simp [List.filter_cons, h]
      have hk : (key == a) = false := by
        simp only [beq_eq_false_iff_ne, ne_eq]
        exact fun hc => h hc.symm
      rw [e1, List.lookup_cons, hk]
      exact ih

/-- No entry of the full stash has key 0. -/
theorem sim_full_stash_lookup_zero : hash_lookup sim_full_stash 0 = none := by
  unfold hash_lookup sim_full_stash
  generalize List.range 1024 = l
  induction l with
  | nil => rfl
  | cons i l ih =>
    rw [List.map_cons, List.lookup_cons]
    have hk : ((0 : Nat) == i + 1) = false := by
      simp only [beq_eq_false_iff_ne, ne_eq]
      omega
    rw [hk]
    exact ih

/-- The full stash holds 1024 entries. -/
theorem sim_full_stash_length : sim_full_stash.length = 1024 := by
  unfold sim_full_stash
  rw [List.length_map, List.length_range]

/-- C22 (as stated, refuted): with the stash filled to its capacity of 1024
entries by other threads, the entry probe of thread 0 stores nothing: the stash
is as before and holds no entry for key 0. -/
theorem tcp_v6_connect_full_stash_drops :
    (kprobe__tcp_v6_connect 0 ⟨none, none, sim_full_stash⟩ sim_regs).maps.connectsock_ipv6
      = sim_full_stash ∧
    hash_lookup
      (kprobe__tcp_v6_connect 0 ⟨none, none, sim_full_stash⟩ sim_regs).maps.connectsock_ipv6 0
      = none := by
  have hu : hash_update sim_full_stash CONNECTSOCK_IPV6_MAX_ENTRIES 0 sim_regs.parm1
      = sim_full_stash := by
    unfold hash_update
    rw [sim_full_stash_lookup_zero, sim_full_stash_length]
    rfl
  unfold kprobe__tcp_v6_connect
  simp only [hu]
  exact ⟨trivial, sim_full_stash_lookup_zero⟩

/-- An update that finds its key or finds room stores the value under the
key. -/
theorem hash_lookup_update (m : List (Nat × Nat)) (max_entries key value : Nat)
    (h : (hash_lookup m key).isSome = true ∨ m.length < max_entries) :
    hash_lookup (hash_update m max_entries key value) key = some value := by
  unfold hash_update
  split_ifs with h1 h2
  · unfold hash_lookup
    rw [List.lookup_cons, beq_self_eq_true]
  · unfold hash_lookup
    rw [List.lookup_cons, beq_self_eq_true]
  · rcases h with h | h
    · exact absurd h h1
    · exact absurd h h2

/-- C22 (amended): the entry probe stores the sock pointer under the pid_tgid
of the calling thread whenever the stash already has an entry for that key or
holds fewer than 1024 entries, and touches neither the record nor the engine;
the return probe for a key with a stored entry removes that entry from the
stash whether or not the engine is then called, and hands exactly the stored
pointer to `guess_offsets` when the record exists and the target is not a
sk_buff target; a return probe with no stored entry for its key changes
nothing. -/
theorem tcp_v6_connect_pair (K : kernel_mem) (sz : sizeof_t) (comm : proc_t) (pid : Nat)
    (maps : maps_t) (ctx : pt_regs) :
    ((hash_lookup maps.connectsock_ipv6 pid).isSome = true ∨
        maps.connectsock_ipv6.length < CONNECTSOCK_IPV6_MAX_ENTRIES →
      hash_lookup (kprobe__tcp_v6_connect pid maps ctx).maps.connectsock_ipv6 pid
        = some ctx.parm1) ∧
    (kprobe__tcp_v6_connect pid maps ctx).maps.tracer_status = maps.tracer_status ∧
    (kprobe__tcp_v6_connect pid maps ctx).forwarded = none ∧
    (∀ skp, hash_lookup maps.connectsock_ipv6 pid = some skp →
      (kretprobe__tcp_v6_connect K sz comm pid maps).maps.connectsock_ipv6
        = hash_delete maps.connectsock_ipv6 pid ∧
      hash_lookup (kretprobe__tcp_v6_connect K sz comm pid maps).maps.connectsock_ipv6 pid
        = none ∧
      (∀ status, maps.tracer_status = some status →
        (¬ (status.what = guess_what.GUESS_SK_BUFF_SOCK ∨
            status.what = guess_what.GUESS_SK_BUFF_TRANSPORT_HEADER ∨
            status.what = guess_what.GUESS_SK_BUFF_HEAD) →
          (kretprobe__tcp_v6_connect K sz comm pid maps).forwarded = some skp ∧
          (kretprobe__tcp_v6_connect K sz comm pid maps).maps.tracer_status
            = some (guess_offsets K sz comm status skp).2) ∧
        ((status.what = guess_what.GUESS_SK_BUFF_SOCK ∨
            status.what = guess_what.GUESS_SK_BUFF_TRANSPORT_HEADER ∨
            status.what = guess_what.GUESS_SK_BUFF_HEAD) →
          (kretprobe__tcp_v6_connect K sz comm pid maps).forwarded = none ∧
          (kretprobe__tcp_v6_connect K sz comm pid maps).maps.tracer_status
            = some status)) ∧
      (maps.tracer_status = none →
        (kretprobe__tcp_v6_connect K sz comm pid maps).forwarded = none ∧
        (kretprobe__tcp_v6_connect K sz comm pid maps).maps.tracer_status = none)) ∧
    (hash_lookup maps.connectsock_ipv6 pid = none →
      kretprobe__tcp_v6_connect K sz comm pid maps = ⟨0, maps, none⟩) := by
  refine ⟨?_, rfl, rfl, ?_, ?_⟩
  · intro h
    unfold kprobe__tcp_v6_connect
    exact hash_lookup_update _ _ _ _ h
  · intro skp hl
    unfold kretprobe__tcp_v6_connect
    rw [hl]
    simp only []
    refine ⟨?_, ?_, ?_, ?_⟩
    · cases hrec : maps.tracer_status with
      | none => rfl
      | some status => simp only []; split_ifs <;> rfl
    · cases hrec : maps.tracer_status with
      | none => exact hash_lookup_delete _ _
      | some status => simp only []; split_ifs <;> exact hash_lookup_delete _ _
    · intro status hrec
      rw [hrec]
      simp only []
      refine ⟨?_, ?_⟩
      · intro hn
        have hg : ¬ (is_sk_buff_event status.what = true) :=
          fun hc => hn ((is_sk_buff_event_iff status.what).mp hc)
        rw [if_neg hg]
        exact ⟨rfl, rfl⟩
      · intro hs
        rw [if_pos ((is_sk_buff_event_iff status.what).mpr hs)]
        exact ⟨rfl, rfl⟩
    · intro hrec
      rw [hrec]
      exact ⟨rfl, rfl⟩
  · intro hl
    unfold kretprobe__tcp_v6_connect
    rw [hl]

/-- C22 witness: thread 7 enters with an empty stash and returns; the return
probe hands the sock pointer of the entry to the engine and empties the
stash. -/
theorem tcp_v6_connect_pair_witness :
    hash_lookup
      (kprobe__tcp_v6_connect 7
        (sim_maps (sim_status guess_state.STATE_CHECKING guess_what.GUESS_DADDR_IPV6))
        sim_regs).maps.connectsock_ipv6 7 = some sim_regs.parm1 ∧
    (kretprobe__tcp_v6_connect sim_invalid sim_sizes sim_comm 7
      (kprobe__tcp_v6_connect 7
        (sim_maps (sim_status guess_state.STATE_CHECKING guess_what.GUESS_DADDR_IPV6))
        sim_regs).maps).forwarded = some sim_regs.parm1 ∧
    (kretprobe__tcp_v6_connect sim_invalid sim_sizes sim_comm 7
      (kprobe__tcp_v6_connect 7
        (sim_maps (sim_status guess_state.STATE_CHECKING guess_what.GUESS_DADDR_IPV6))
        sim_regs).maps).maps.connectsock_ipv6 = [] :=
  ⟨(tcp_v6_connect_pair sim_invalid sim_sizes sim_comm 7
      (sim_maps (sim_status guess_state.STATE_CHECKING guess_what.GUESS_DADDR_IPV6))
      sim_regs).1 (Or.inr (by decide)),
   by decide, by decide⟩

/-! ## Raw targets and pointer targets of guess_offsets -/

/-- C28: for every single-read raw target F (GUESS_SADDR, GUESS_DADDR,
GUESS_FAMILY, GUESS_SADDR_FL4, GUESS_DADDR_FL4, GUESS_SADDR_FL6,
GUESS_DADDR_FL6), state CHECKING, matching thread and a successful read of the
value v at subject + aligned offset, `guess_offsets` returns 0 and stores the
prior record with state CHECKED, fault flag 0, the name of the triggering
thread, offsets[F] = aligned_offset(subject, previous offsets[F], SIZEOF_F) and
values[F] = v, the bytes as they were read. -/
theorem guess_offsets_raw_target (K : kernel_mem) (sz : sizeof_t) (comm : proc_t)
    (status : tracer_status_t) (subject v : Nat)
    (h1 : status.state = guess_state.STATE_CHECKING)
    (h2 : proc_t_comm_equals status.proc comm = true) :
    (status.what = guess_what.GUESS_SADDR →
      load_bytes K (ptr_add subject (aligned_offset subject status.offsets.saddr sz.SIZEOF_SADDR))
        sizeof_u32 = some v →
      guess_offsets K sz comm status subject =
        (0, { status with
                state := guess_state.STATE_CHECKED, err := 0, proc := comm,
                offsets := { status.offsets with
                  saddr := aligned_offset subject status.offsets.saddr sz.SIZEOF_SADDR },
                values := { status.values with saddr := v } })) ∧
    (status.what = guess_what.GUESS_DADDR →
      load_bytes K (ptr_add subject (aligned_offset subject status.offsets.daddr sz.SIZEOF_DADDR))
        sizeof_u32 = some v →
      guess_offsets K sz comm status subject =
        (0, { status with
                state := guess_state.STATE_CHECKED, err := 0, proc := comm,
                offsets := { status.offsets with
                  daddr := aligned_offset subject status.offsets.daddr sz.SIZEOF_DADDR },
                values := { status.values with daddr := v } })) ∧
    (status.what = guess_what.GUESS_FAMILY →
      load_bytes K (ptr_add subject (aligned_offset subject status.offsets.family sz.SIZEOF_FAMILY))
        sizeof_u16 = some v →
      guess_offsets K sz comm status subject =
        (0, { status with
                state := guess_state.STATE_CHECKED, err := 0, proc := comm,
                offsets := { status.offsets with
                  family := aligned_offset subject status.offsets.family sz.SIZEOF_FAMILY },
                values := { status.values with family := v } })) ∧
    (status.what = guess_what.GUESS_SADDR_FL4 →
      load_bytes K (ptr_add subject (aligned_offset subject status.offsets.saddr_fl4 sz.SIZEOF_SADDR_FL4))
        sizeof_u32 = some v →
      guess_offsets K sz comm status subject =
        (0, { status with
                state := guess_state.STATE_CHECKED, err := 0, proc := comm,
                offsets := { status.offsets with
                  saddr_fl4 := aligned_offset subject status.offsets.saddr_fl4 sz.SIZEOF_SADDR_FL4 },
                values := { status.values with saddr_fl4 := v } })) ∧
    (status.what = guess_what.GUESS_DADDR_FL4 →
      load_bytes K (ptr_add subject (aligned_offset subject status.offsets.daddr_fl4 sz.SIZEOF_DADDR_FL4))
        sizeof_u32 = some v →
      guess_offsets K sz comm status subject =
        (0, { status with
                state := guess_state.STATE_CHECKED, err := 0, proc := comm,
                offsets := { status.offsets with
                  daddr_fl4 := aligned_offset subject status.offsets.daddr_fl4 sz.SIZEOF_DADDR_FL4 },
                values := { status.values with daddr_fl4 := v } })) ∧
    (status.what = guess_what.GUESS_SADDR_FL6 →
      load_bytes K (ptr_add subject (aligned_offset subject status.offsets.saddr_fl6 sz.SIZEOF_SADDR_FL6))
        (sizeof_u32 * 4) = some v →
      guess_offsets K sz comm status subject =
        (0, { status with
                state := guess_state.STATE_CHECKED, err := 0, proc := comm,
                offsets := { status.offsets with
                  saddr_fl6 := aligned_offset subject status.offsets.saddr_fl6 sz.SIZEOF_SADDR_FL6 },
                values := { status.values with saddr_fl6 := v } })) ∧
    (status.what = guess_what.GUESS_DADDR_FL6 →
      load_bytes K (ptr_add subject (aligned_offset subject status.offsets.daddr_fl6 sz.SIZEOF_DADDR_FL6))
        (sizeof_u32 * 4) = some v →
      guess_offsets K sz comm status subject =
        (0, { status with
                state := guess_state.STATE_CHECKED, err := 0, proc := comm,
                offsets := { status.offsets with
                  daddr_fl6 := aligned_offset subject status.offsets.daddr_fl6 sz.SIZEOF_DADDR_FL6 },
                values := { status.values with daddr_fl6 := v } })) := by
  rw [guess_offsets_checking K sz comm status subject h1 h2]
  unfold guess_offsets_switch
  refine ⟨?_, ?_, ?_, ?_, ?_, ?_, ?_⟩ <;>
  · intro hw hv
    rw [hw]
    simp only []
    rw [bpf_probe_read_kernel_of_load K _ _ _ v hv]

/-- C28 witness: target GUESS_SADDR over a subject that starts with the bytes
10, 0, 0, 1. -/
theorem guess_offsets_raw_target_witness :
    load_bytes (sim_image sim_subject [10, 0, 0, 1])
      (ptr_add sim_subject (aligned_offset sim_subject 0 sim_sizes.SIZEOF_SADDR))
      sizeof_u32 = some 16777226 ∧
    guess_offsets (sim_image sim_subject [10, 0, 0, 1]) sim_sizes sim_comm
      (sim_status guess_state.STATE_CHECKING guess_what.GUESS_SADDR) sim_subject =
      (0, { sim_status guess_state.STATE_CHECKED guess_what.GUESS_SADDR with
              values := { zero_values with saddr := 16777226 } }) :=
  ⟨by decide,
   (guess_offsets_raw_target (sim_image sim_subject [10, 0, 0, 1]) sim_sizes sim_comm
      (sim_status guess_state.STATE_CHECKING guess_what.GUESS_SADDR) sim_subject 16777226
      (by decide) (by decide)).1 (by decide) (by decide)⟩

/-- C29: for targets GUESS_SOCKET_SK and GUESS_SK_BUFF_SOCK (state CHECKING,
matching thread), when the pointer stored at subject + aligned pointer offset
reads as ptr and the bytes s0, s1 at ptr + offsets.sport and d0, d1 at ptr +
offsets.dport are readable, `guess_offsets` stores the prior record with state
CHECKED, fault flag 0, the name of the triggering thread, the pointer offset
advanced by `aligned_offset` and the via-pointer port values 256*s0 + s1 and
256*d0 + d1; every other offset, offsets.sport and offsets.dport included, and
every other value is unchanged. -/
theorem guess_offsets_pointer_target (K : kernel_mem) (sz : sizeof_t) (comm : proc_t)
    (status : tracer_status_t) (subject ptr s0 s1 d0 d1 : Nat)
    (h1 : status.state = guess_state.STATE_CHECKING)
    (h2 : proc_t_comm_equals status.proc comm = true)
    (hs0 : s0 < 256) (hs1 : s1 < 256) (hd0 : d0 < 256) (hd1 : d1 < 256)
    (hsp0 : K.byte (ptr_add ptr status.offsets.sport) = some s0)
    (hsp1 : K.byte (ptr_add ptr status.offsets.sport + 1) = some s1)
    (hdp0 : K.byte (ptr_add ptr status.offsets.dport) = some d0)
    (hdp1 : K.byte (ptr_add ptr status.offsets.dport + 1) = some d1) :
    (status.what = guess_what.GUESS_SOCKET_SK →
      load_bytes K
        (ptr_add subject (aligned_offset subject status.offsets.socket_sk sz.SIZEOF_SOCKET_SK))
        sizeof_ptr = some ptr →
      guess_offsets K sz comm status subject =
        (0, { status with
                state := guess_state.STATE_CHECKED, err := 0, proc := comm,
                offsets := { status.offsets with
                  socket_sk :=
                    aligned_offset subject status.offsets.socket_sk sz.SIZEOF_SOCKET_SK },
                values := { status.values with
                  sport_via_sk := 256 * s0 + s1, dport_via_sk := 256 * d0 + d1 } })) ∧
    (status.what = guess_what.GUESS_SK_BUFF_SOCK →
      load_bytes K
        (ptr_add subject
          (aligned_offset subject status.offsets.sk_buff_sock sz.SIZEOF_SK_BUFF_SOCK))
        sizeof_ptr = some ptr →
      guess_offsets K sz comm status subject =
        (0, { status with
                state := guess_state.STATE_CHECKED, err := 0, proc := comm,
                offsets := { status.offsets with
                  sk_buff_sock :=
                    aligned_offset subject status.offsets.sk_buff_sock sz.SIZEOF_SK_BUFF_SOCK },
                values := { status.values with
                  sport_via_sk_via_sk_buff := 256 * s0 + s1,
                  dport_via_sk_via_sk_buff := 256 * d0 + d1 } })) := by
  rw [guess_offsets_checking K sz comm status subject h1 h2]
  unfold guess_offsets_switch
  refine ⟨?_, ?_⟩ <;>
  · intro hw hp
    rw [hw]
    simp only []
    rw [bpf_probe_read_kernel_of_load K _ _ _ ptr hp,
      bpf_probe_read_kernel_of_load K _ _ _ _ (load_bytes_two K _ s0 s1 hsp0 hsp1 hs0 hs1),
      bpf_probe_read_kernel_of_load K _ _ _ _ (load_bytes_two K _ d0 d1 hdp0 hdp1 hd0 hd1),
      bpf_ntohs_bytes s0 s1 hs0 hs1, bpf_ntohs_bytes d0 d1 hd0 hd1]

/-- C29 witness: target GUESS_SOCKET_SK with the prior pointer offset 3, ports
discovered at offsets 18 and 20; the pointer at subject + 8 leads 16 bytes into
the image, where the ports 8080 and 443 are stored in network byte order. -/
theorem guess_offsets_pointer_target_witness :
    (guess_offsets
      (sim_image sim_subject
        [0, 0, 0, 0, 0, 0, 0, 0, 16, 16, 0, 0, 128, 136, 255, 255,
         0, 0, 0, 0, 0, 0, 0, 0, 0, 0, 0, 0, 0, 0, 0, 0, 0, 0, 31, 144, 1, 187])
      sim_sizes sim_comm
      { sim_status guess_state.STATE_CHECKING guess_what.GUESS_SOCKET_SK with
          offsets := { zero_offsets with socket_sk := 3, sport := 18, dport := 20 } }
      sim_subject).2.values.sport_via_sk = 8080 ∧
    (guess_offsets
      (sim_image sim_subject
        [0, 0, 0, 0, 0, 0, 0, 0, 16, 16, 0, 0, 128, 136, 255, 255,
         0, 0, 0, 0, 0, 0, 0, 0, 0, 0, 0, 0, 0, 0, 0, 0, 0, 0, 31, 144, 1, 187])
      sim_sizes sim_comm
      { sim_status guess_state.STATE_CHECKING guess_what.GUESS_SOCKET_SK with
          offsets := { zero_offsets with socket_sk := 3, sport := 18, dport := 20 } }
      sim_subject).2.values.dport_via_sk = 443 := by
  have h := (guess_offsets_pointer_target
    (sim_image sim_subject
      [0, 0, 0, 0, 0, 0, 0, 0, 16, 16, 0, 0, 128, 136, 255, 255,
       0, 0, 0, 0, 0, 0, 0, 0, 0, 0, 0, 0, 0, 0, 0, 0, 0, 0, 31, 144, 1, 187])
    sim_sizes sim_comm
    { sim_status guess_state.STATE_CHECKING guess_what.GUESS_SOCKET_SK with
        offsets := { zero_offsets with socket_sk := 3, sport := 18, dport := 20 } }
    sim_subject (sim_subject + 16) 31 144 1 187
    (by decide) (by decide) (by decide) (by decide) (by decide) (by decide)
    (by decide) (by decide) (by decide) (by decide)).1 (by decide) (by decide)
  rw [h]
  exact ⟨rfl, rfl⟩

/-! ## HPACK integers -/

/-- A number below 128 has bit 7 clear and is not changed by the mask 127. -/
theorem and_masks_of_lt_128 : ∀ c, c < 128 → c &&& 128 = 0 ∧ c &&& 127 = c := by
  decide

/-- One valid byte is loaded as its value. -/
theorem load_bytes_one (K : kernel_mem) (a b : Nat) (h : K.byte a = some b) (hb : b < 256) :
    load_bytes K a 1 = some b := by
  simp [load_bytes, h, Nat.mod_eq_of_lt hb]

/-- C23: for every prefix mask m in {MAX_6_BITS, MAX_7_BITS} and every integer
n ≤ m + 127: when n < m and the low prefix bits of the first byte are n, the
function returns true with *out = n and leaves info->off; when n ≥ m, the low
prefix bits are all ones and the continuation byte n - m is readable at buffer
offset info->off, the function returns true with *out = n and info->off
advanced by exactly 1.  The high bits of the first byte do not matter. -/
theorem hpack_int_decodes (K : kernel_mem) (info : tls_dispatcher_arguments_t)
    (m n first out : Nat) (hm : m = MAX_6_BITS ∨ m = MAX_7_BITS) (hn : n ≤ m + 127) :
    (n < m → first &&& m = n →
      tls_read_hpack_int_with_given_current_char K info first m out = ⟨true, info, n⟩) ∧
    (m ≤ n → first &&& m = m →
      K.byte (ptr_add info.buffer_ptr info.off) = some (n - m) →
      tls_read_hpack_int_with_given_current_char K info first m out
        = ⟨true, { info with off := info.off + 1 }, n⟩) := by
  refine ⟨?_, ?_⟩
  · intro hlt hfirst
    unfold tls_read_hpack_int_with_given_current_char
    simp only [hfirst]
    rw [if_pos hlt]
  · intro hle hfirst hbyte
    have hc : n - m < 128 := by omega
    obtain ⟨hc1, hc2⟩ := and_masks_of_lt_128 (n - m) hc
    have hload := load_bytes_one K _ (n - m) hbyte (by omega)
    have hm127 : m ≤ 127 := by
      rcases hm with rfl | rfl <;> decide
    have hm64 : m + (n - m) < U64 := by
      unfold U64
      omega
    unfold tls_read_hpack_int_with_given_current_char
    simp only [hfirst, bpf_probe_read_user, bpf_probe_read_kernel_of_load K _ _ _ _ hload,
      lt_irrefl, if_false, hc1, hc2, ge_iff_le, le_refl, and_self, if_true]
    have hadd : add64 m (n - m) = n := by
      unfold add64
      rw [Nat.mod_eq_of_lt hm64]
      omega
    rw [hadd]

/-- C23 witness: mask 127, n = 200, first byte 0xFF, continuation byte 73. -/
theorem hpack_int_decodes_witness :
    (255 &&& 127 = 127) ∧
    (sim_image sim_buffer [73]).byte (ptr_add (sim_info 1).buffer_ptr (sim_info 1).off)
      = some (200 - 127) ∧
    tls_read_hpack_int_with_given_current_char (sim_image sim_buffer [73]) (sim_info 1) 255
      127 0 = ⟨true, { sim_info 1 with off := 1 }, 200⟩ :=
  ⟨by decide, by decide,
   (hpack_int_decodes (sim_image sim_buffer [73]) (sim_info 1) 127 200 255 0
      (Or.inr rfl) (by decide)).2 (by decide) (by decide) (by decide)⟩

/-- C24: for every first byte, mask and buffer, when the function returns true
the parsed value is at most max_number_for_bits + 127, and when it returns
false `info` (with info->off) and *out are as they were. -/
theorem hpack_int_bound (K : kernel_mem) (info : tls_dispatcher_arguments_t)
    (first m out : Nat) :
    ((tls_read_hpack_int_with_given_current_char K info first m out).ret = true →
      (tls_read_hpack_int_with_given_current_char K info first m out).out ≤ m + 127) ∧
    ((tls_read_hpack_int_with_given_current_char K info first m out).ret = false →
      (tls_read_hpack_int_with_given_current_char K info first m out).info = info ∧
      (tls_read_hpack_int_with_given_current_char K info first m out).info.off = info.off ∧
      (tls_read_hpack_int_with_given_current_char K info first m out).out = out) := by
  have h1 : first &&& m ≤ m := Nat.and_le_right
  unfold tls_read_hpack_int_with_given_current_char
  simp only []
  split_ifs with ha hb
  · refine ⟨fun _ => ?_, fun h => ?_⟩
    · show first &&& m ≤ m + 127
      omega
    · cases h
  · refine ⟨fun _ => ?_, fun h => ?_⟩
    · have h2 : (bpf_probe_read_user K 0 1 (ptr_add info.buffer_ptr info.off)).2 &&& 127
          ≤ 127 := Nat.and_le_right
      have h3 : add64 (first &&& m)
          ((bpf_probe_read_user K 0 1 (ptr_add info.buffer_ptr info.off)).2 &&& 127)
          ≤ (first &&& m)
            + ((bpf_probe_read_user K 0 1 (ptr_add info.buffer_ptr info.off)).2 &&& 127) := by
        unfold add64
        exact Nat.mod_le _ _
      show add64 (first &&& m) _ ≤ m + 127
      omega
    · cases h
  · refine ⟨fun h => ?_, fun _ => ?_⟩
    · cases h
    · simp

/-- C24 witness: with mask 63 and first byte 0x7F the continuation byte 0x85
has its top bit set; the function returns false and changes nothing. -/
theorem hpack_int_bound_witness :
    (tls_read_hpack_int_with_given_current_char (sim_image sim_buffer [133]) (sim_info 1) 127
      63 9).ret = false ∧
    (tls_read_hpack_int_with_given_current_char (sim_image sim_buffer [133]) (sim_info 1) 127
      63 9).info.off = (sim_info 1).off ∧
    (tls_read_hpack_int_with_given_current_char (sim_image sim_buffer [133]) (sim_info 1) 127
      63 9).out = 9 :=
  ⟨by decide,
   ((hpack_int_bound (sim_image sim_buffer [133]) (sim_info 1) 127 63 9).2 (by decide)).2.1,
   ((hpack_int_bound (sim_image sim_buffer [133]) (sim_info 1) 127 63 9).2 (by decide)).2.2⟩

/-! ## The counter of tls_parse_field_literal -/

/-- C25 (as stated, refuted): a literal with index kIndexPath and a string of
length 3 that lies inside the buffer, parsed while no header slot is left
(`headers_to_process` is NULL): the call returns true and the counter stays
at 0. -/
theorem parse_field_literal_null_slot :
    (tls_read_hpack_int (sim_image sim_buffer [3, 47, 97, 98]) (sim_info 4) MAX_7_BITS 0
      false).out = 3 ∧
    (tls_parse_field_literal sim_decoding (sim_image sim_buffer [3, 47, 97, 98]) (sim_info 4)
      none sim_decoding.kIndexPath 1 0 zero_telemetry).ret = true ∧
    (tls_parse_field_literal sim_decoding (sim_image sim_buffer [3, 47, 97, 98]) (sim_info 4)
      none sim_decoding.kIndexPath 1 0 zero_telemetry).interesting_headers_counter = 0 ∧
    (tls_parse_field_literal sim_decoding (sim_image sim_buffer [3, 47, 97, 98]) (sim_info 4)
      none sim_decoding.kIndexPath 1 0 zero_telemetry).interesting_headers_counter ≠ 0 + 1 := by
  decide

/-- The case the comment above line 118 includes and the code leaves out: a
path literal of length 0 with a header slot available is not counted. -/
theorem parse_field_literal_empty_path :
    (tls_parse_field_literal sim_decoding (sim_image sim_buffer [0]) (sim_info 1)
      (some zero_header) sim_decoding.kIndexPath 1 0 zero_telemetry).ret = true ∧
    (tls_parse_field_literal sim_decoding (sim_image sim_buffer [0]) (sim_info 1)
      (some zero_header) sim_decoding.kIndexPath 1 0 zero_telemetry).interesting_headers_counter
      = 0 := by
  decide

/-- C25 (amended): let str_len be the string length that the first
`tls_read_hpack_int` of the call delivers and info->off the position after it.
The counter, a `__u8`, is increased by exactly one modulo 256 (and the call
returns true) when index is kIndexPath and not 0, a header slot is given
(`headers_to_process` is not NULL), info->off + str_len ≤ info->len and str_len
is in the range [1, HTTP2_MAX_PATH_LEN]; it is left unchanged when the length
cannot be read, when index is 0 or not kIndexPath, when no header slot is
given, when info->off + str_len > info->len and when str_len >
HTTP2_MAX_PATH_LEN. -/
theorem parse_field_literal_counter (H : decoding_common_h) (K : kernel_mem)
    (info : tls_dispatcher_arguments_t) (headers_to_process : Option http2_header_t)
    (index global_dynamic_counter counter : Nat) (http2_tel : http2_telemetry_t)
    (hc : counter < 256) :
    ((tls_read_hpack_int K info MAX_7_BITS 0 false).ret = true →
      index = H.kIndexPath → index ≠ 0 → headers_to_process ≠ none →
      (tls_read_hpack_int K info MAX_7_BITS 0 false).info.off
        + (tls_read_hpack_int K info MAX_7_BITS 0 false).out
        ≤ (tls_read_hpack_int K info MAX_7_BITS 0 false).info.len →
      1 ≤ (tls_read_hpack_int K info MAX_7_BITS 0 false).out →
      (tls_read_hpack_int K info MAX_7_BITS 0 false).out ≤ H.HTTP2_MAX_PATH_LEN →
      (tls_parse_field_literal H K info headers_to_process index global_dynamic_counter counter
        http2_tel).ret = true ∧
      (tls_parse_field_literal H K info headers_to_process index global_dynamic_counter counter
        http2_tel).interesting_headers_counter = (counter + 1) % 256) ∧
    ((tls_read_hpack_int K info MAX_7_BITS 0 false).ret = false ∨
      index = 0 ∨ index ≠ H.kIndexPath ∨ headers_to_process = none ∨
      (tls_read_hpack_int K info MAX_7_BITS 0 false).info.off
        + (tls_read_hpack_int K info MAX_7_BITS 0 false).out
        > (tls_read_hpack_int K info MAX_7_BITS 0 false).info.len ∨
      (tls_read_hpack_int K info MAX_7_BITS 0 false).out > H.HTTP2_MAX_PATH_LEN →
      (tls_parse_field_literal H K info headers_to_process index global_dynamic_counter counter
        http2_tel).interesting_headers_counter = counter) := by
  refine ⟨?_, ?_⟩
  · intro hret hidx h0 hslot hfit hpos hmax
    obtain ⟨header, rfl⟩ := Option.ne_none_iff_exists'.mp hslot
    unfold tls_parse_field_literal
    simp only [hret, Bool.not_true, Bool.false_eq_true, if_false, if_neg h0, if_pos hidx]
    rw [if_neg (by omega)]
    have hcond : (tls_read_hpack_int K info MAX_7_BITS 0 false).out > 0 ∧
        (tls_read_hpack_int K info MAX_7_BITS 0 false).out ≤ H.HTTP2_MAX_PATH_LEN :=
      ⟨by omega, hmax⟩
    simp only [hcond, and_self, if_true]
  · intro hcase
    unfold tls_parse_field_literal
    simp only []
    cases hret : (tls_read_hpack_int K info MAX_7_BITS 0 false).ret
    · simp
    · simp only [Bool.not_true, Bool.false_eq_true, if_false]
      by_cases h0 : index = 0
      · rw [if_pos h0]
        split_ifs <;> rfl
      · rw [if_neg h0]
        by_cases hidx : index = H.kIndexPath
        · rw [if_pos hidx]
          cases headers_to_process with
          | none => rfl
          | some header =>
            simp only []
            split_ifs with hfit hcnd
            · rfl
            · rcases hcase with h | h | h | h | h | h
              · rw [hret] at h
                cases h
              · exact absurd h h0
              · exact absurd hidx h
              · cases h
              · exact absurd h hfit
              · omega
            · show (counter + 0) % 256 = counter
              rw [Nat.add_zero]
              exact Nat.mod_eq_of_lt hc
        · rw [if_neg hidx]

/-- C25 witness: the literal "/ab" with index kIndexPath and a header slot is
counted. -/
theorem parse_field_literal_counter_witness :
    (tls_read_hpack_int (sim_image sim_buffer [3, 47, 97, 98]) (sim_info 4) MAX_7_BITS 0
      false).out = 3 ∧
    (tls_parse_field_literal sim_decoding (sim_image sim_buffer [3, 47, 97, 98]) (sim_info 4)
      (some zero_header) sim_decoding.kIndexPath 1 0 zero_telemetry).interesting_headers_counter
      = (0 + 1) % 256 :=
  ⟨by decide,
   ((parse_field_literal_counter sim_decoding (sim_image sim_buffer [3, 47, 97, 98]) (sim_info 4)
      (some zero_header) sim_decoding.kIndexPath 1 0 zero_telemetry (by decide)).1
      (by decide) rfl (by decide) (by decide) (by decide) (by decide) (by decide)).2⟩

/-! ## The scan of tls_find_relevant_frames -/

/-- The test for relevant frames in the words of the comment above the
function. -/
theorem is_relevant_frame_iff (H : decoding_common_h) (f : http2_frame_t) :
    is_relevant_frame H f = true ↔
      (f.type = H.kHeadersFrame ∨ f.type = H.kRSTStreamFrame ∨
        (f.type = H.kDataFrame ∧ f.flags &&& H.HTTP2_END_OF_STREAM = H.HTTP2_END_OF_STREAM)) := by
  unfold is_relevant_frame
  simp only [Bool.or_eq_true, Bool.and_eq_true, beq_iff_eq]
  tauto

/-- One run of the loop body either meets no valid frame, leaves the loop and
stores nothing, or meets one frame, records it, and stores it at index
`frames_count` exactly when that index is below the maximum and the frame is
relevant. -/
theorem find_frames_body_spec (H : decoding_common_h) (K : kernel_mem) (s : find_frames_state) :
    ((tls_find_relevant_frames_body H K s).2 = false ∧
      (tls_find_relevant_frames_body H K s).1.scanned = s.scanned ∧
      (tls_find_relevant_frames_body H K s).1.iteration_value.frames_count
        = s.iteration_value.frames_count ∧
      (tls_find_relevant_frames_body H K s).1.iteration_value.frames_array
        = s.iteration_value.frames_array ∧
      (tls_find_relevant_frames_body H K s).1.header_reads ≤ s.header_reads + 1) ∨
    (∃ e : scanned_frame,
      (tls_find_relevant_frames_body H K s).1.scanned = s.scanned ++ [e] ∧
      (tls_find_relevant_frames_body H K s).1.header_reads = s.header_reads + 1 ∧
      e.count_before = s.iteration_value.frames_count ∧
      e.header_off = s.info.off ∧
      e.appended = (decide (s.iteration_value.frames_count < H.HTTP2_MAX_FRAMES_ITERATIONS)
        && is_relevant_frame H e.frame) ∧
      (tls_find_relevant_frames_body H K s).1.iteration_value.frames_count
        = s.iteration_value.frames_count + (if e.appended = true then 1 else 0) ∧
      (tls_find_relevant_frames_body H K s).1.iteration_value.frames_array
        = (if e.appended = true then
            array_set s.iteration_value.frames_array s.iteration_value.frames_count
              ⟨e.frame, s.info.off + H.HTTP2_FRAME_HEADER_SIZE⟩
          else s.iteration_value.frames_array) ∧
      ((tls_find_relevant_frames_body H K s).2 = true →
        (tls_find_relevant_frames_body H K s).1.iteration_value.frames_count
          < H.HTTP2_MAX_FRAMES_ITERATIONS)) := by
  unfold tls_find_relevant_frames_body
  simp only []
  split_ifs with h1 h2 h3 h4 h5
  all_goals first
    | (left; exact ⟨rfl, rfl, rfl, rfl, by simp⟩)
    | (right
       refine ⟨_, rfl, rfl, rfl, rfl, ?_, ?_, ?_, ?_⟩ <;> simp_all <;>
         (rw [if_neg (fun hh => absurd hh.1 (by omega))]))

/-- What the loop does to the frames it meets: with `n` iterations left it
records at most `n` further frames; each of them is stored exactly when
`frames_count` is below the maximum and the frame is relevant, at index
`frames_count`, with the offset right after its header; slots below the
`frames_count` of the start are not written, and the slots from there up to the
final `frames_count` are those of the stored frames. -/
theorem find_frames_loop_spec (H : decoding_common_h) (K : kernel_mem) :
    ∀ (n : Nat) (s : find_frames_state), ∃ new : List scanned_frame,
      (tls_find_relevant_frames_loop H K n s).scanned = s.scanned ++ new ∧
      new.length ≤ n ∧
      (tls_find_relevant_frames_loop H K n s).header_reads ≤ s.header_reads + n ∧
      (tls_find_relevant_frames_loop H K n s).iteration_value.frames_count
        = s.iteration_value.frames_count + new.countP (fun e => e.appended) ∧
      (s.iteration_value.frames_count ≤ H.HTTP2_MAX_FRAMES_ITERATIONS →
        (tls_find_relevant_frames_loop H K n s).iteration_value.frames_count
          ≤ H.HTTP2_MAX_FRAMES_ITERATIONS) ∧
      (∀ i, i < s.iteration_value.frames_count →
        (tls_find_relevant_frames_loop H K n s).iteration_value.frames_array i
          = s.iteration_value.frames_array i) ∧
      (∀ e ∈ new, s.iteration_value.frames_count ≤ e.count_before ∧
        (e.appended = true ↔
          e.count_before < H.HTTP2_MAX_FRAMES_ITERATIONS ∧ is_relevant_frame H e.frame = true) ∧
        (e.appended = true →
          e.count_before < (tls_find_relevant_frames_loop H K n s).iteration_value.frames_count ∧
          (tls_find_relevant_frames_loop H K n s).iteration_value.frames_array e.count_before
            = ⟨e.frame, e.header_off + H.HTTP2_FRAME_HEADER_SIZE⟩)) ∧
      (∀ i, s.iteration_value.frames_count ≤ i →
        i < (tls_find_relevant_frames_loop H K n s).iteration_value.frames_count →
        ∃ e ∈ new, e.appended = true ∧ e.count_before = i) ∧
      (∀ l1 e l2, new = l1 ++ e :: l2 →
        e.count_before = s.iteration_value.frames_count + l1.countP (fun e => e.appended)) := by
  intro n
  induction n with
  | zero =>
    intro s
    refine ⟨[], ?_, ?_, ?_, ?_, ?_, ?_, ?_, ?_, ?_⟩
    · simp [tls_find_relevant_frames_loop]
    · simp
    · simp [tls_find_relevant_frames_loop]
    · simp [tls_find_relevant_frames_loop]
    · intro h; simpa [tls_find_relevant_frames_loop] using h
    · intro i _; rfl
    · intro e he; cases he
    · intro i h1 h2
      simp only [tls_find_relevant_frames_loop] at h2
      omega
    · intro l1 e l2 h
      simp at h
  | succ n ih =>
    intro s
    have hstep : tls_find_relevant_frames_loop H K (n + 1) s =
        if (tls_find_relevant_frames_body H K s).2 = true then
          tls_find_relevant_frames_loop H K n
            { (tls_find_relevant_frames_body H K s).1 with
              iteration := (tls_find_relevant_frames_body H K s).1.iteration + 1 }
        else (tls_find_relevant_frames_body H K s).1 := rfl
    rcases find_frames_body_spec H K s with
      ⟨hb, hsc, hcnt, harr, hrd⟩ | ⟨e, hsc, hrd, hcb, hoff, happ, hcnt, harr, hlt⟩
    · rw [hstep, if_neg (by rw [hb]; decide)]
      refine ⟨[], ?_, ?_, ?_, ?_, ?_, ?_, ?_, ?_, ?_⟩
      · simp [hsc]
      · simp
      · omega
      · simp [hcnt]
      · intro h; rw [hcnt]; exact h
      · intro i _; rw [harr]
      · intro e he; cases he
      · intro i h1 h2
        rw [hcnt] at h2
        omega
      · intro l1 e l2 h
        simp at h
    · have hiff : e.appended = true ↔
          e.count_before < H.HTTP2_MAX_FRAMES_ITERATIONS ∧ is_relevant_frame H e.frame = true := by
        rw [happ, hcb]
        simp only [Bool.and_eq_true, decide_eq_true_eq]
      cases hb : (tls_find_relevant_frames_body H K s).2 with
      | false =>
        rw [hstep, if_neg (by rw [hb]; decide)]
        refine ⟨[e], hsc, by simp, by omega, ?_, ?_, ?_, ?_, ?_, ?_⟩
        · rw [hcnt]
          cases ha : e.appended <;> simp [ha]
        · intro h
          rw [hcnt]
          cases ha : e.appended
          · simp; exact h
          · have := hiff.mp ha
            simp
            omega
        · intro i hi
          rw [harr]
          cases ha : e.appended
          · simp
          · simp only [if_true]
            unfold array_set
            rw [if_neg (by omega)]
        · intro e1 he1
          rw [List.mem_singleton] at he1
          subst he1
          refine ⟨by omega, hiff, ?_⟩
          intro ha
          rw [hcnt, harr, ha, hcb, hoff]
          simp [array_set]
        · intro i h1 h2
          rw [hcnt] at h2
          cases ha : e.appended
          · rw [ha] at h2
            simp at h2
            omega
          · rw [ha] at h2
            simp at h2
            exact ⟨e, by simp, ha, by omega⟩
        · intro l1 e1 l2 h
          cases l1 with
          | nil =>
            simp at h
            rw [← h.1]
            simp
            omega
          | cons a l1 => simp at h
      | true =>
        rw [hstep, if_pos hb]
        simp only []
        obtain ⟨new, i1, i2, i3, i4, i5, i6, i7, i8, i9⟩ := ih
          { (tls_find_relevant_frames_body H K s).1 with
            iteration := (tls_find_relevant_frames_body H K s).1.iteration + 1 }
        simp only [] at i1 i3 i4 i5 i6 i7 i8 i9
        have hc1 : (tls_find_relevant_frames_body H K s).1.iteration_value.frames_count
            ≤ H.HTTP2_MAX_FRAMES_ITERATIONS := le_of_lt (hlt hb)
        refine ⟨e :: new, ?_, ?_, ?_, ?_, ?_, ?_, ?_, ?_, ?_⟩
        · rw [i1, hsc]
          simp
        · simp
          omega
        · omega
        · rw [i4, hcnt, List.countP_cons]
          cases ha : e.appended <;> (simp; try omega)
        · intro _
          exact i5 hc1
        · intro i hi
          rw [i6 i (by omega), harr]
          cases ha : e.appended
          · simp
          · simp only [if_true]
            unfold array_set
            rw [if_neg (by omega)]
        · intro e1 he1
          rw [List.mem_cons] at he1
          rcases he1 with rfl | he1
          · refine ⟨by omega, hiff, ?_⟩
            intro ha
            have hlt1 : e1.count_before
                < (tls_find_relevant_frames_body H K s).1.iteration_value.frames_count := by
              rw [hcnt, ha]
              simp
              omega
            refine ⟨lt_of_lt_of_le hlt1 (by rw [i4]; omega), ?_⟩
            rw [i6 _ hlt1, harr, ha, hcb, hoff]
            simp [array_set]
          · obtain ⟨j1, j2, j3⟩ := i7 e1 he1
            exact ⟨by omega, j2, j3⟩
        · intro i h1 h2
          by_cases hi : i < (tls_find_relevant_frames_body H K s).1.iteration_value.frames_count
          · rw [hcnt] at hi
            cases ha : e.appended
            · rw [ha] at hi
              simp at hi
              omega
            · rw [ha] at hi
              simp at hi
              exact ⟨e, by simp, ha, by omega⟩
          · obtain ⟨e1, k1, k2, k3⟩ := i8 i (by omega) h2
            exact ⟨e1, List.mem_cons_of_mem _ k1, k2, k3⟩
        · intro l1 e1 l2 h
          cases l1 with
          | nil =>
            simp at h
            rw [← h.1]
            simp
            omega
          | cons a l1 =>
            simp at h
            have h9 := i9 l1 e1 l2 h.2
            rw [h9, hcnt, ← h.1, List.countP_cons]
            cases ha : e.appended <;> (simp; try omega)

/-- Slots at and above the final `frames_count` are not written by the loop. -/
theorem find_frames_loop_untouched (H : decoding_common_h) (K : kernel_mem) :
    ∀ (n : Nat) (s : find_frames_state) (i : Nat),
      (tls_find_relevant_frames_loop H K n s).iteration_value.frames_count ≤ i →
      (tls_find_relevant_frames_loop H K n s).iteration_value.frames_array i
        = s.iteration_value.frames_array i := by
  intro n
  induction n with
  | zero => intro s i _; rfl
  | succ n ih =>
    intro s i
    have hstep : tls_find_relevant_frames_loop H K (n + 1) s =
        if (tls_find_relevant_frames_body H K s).2 = true then
          tls_find_relevant_frames_loop H K n
            { (tls_find_relevant_frames_body H K s).1 with
              iteration := (tls_find_relevant_frames_body H K s).1.iteration + 1 }
        else (tls_find_relevant_frames_body H K s).1 := rfl
    have hbody : (tls_find_relevant_frames_body H K s).1.iteration_value.frames_count ≤ i →
        (tls_find_relevant_frames_body H K s).1.iteration_value.frames_array i
          = s.iteration_value.frames_array i := by
      intro hi
      rcases find_frames_body_spec H K s with
        ⟨_, _, _, harr, _⟩ | ⟨e, _, _, _, _, _, hcnt, harr, _⟩
      · rw [harr]
      · rw [harr]
        rw [hcnt] at hi
        cases ha : e.appended
        · simp
        · rw [ha] at hi
          simp only [if_true] at hi ⊢
          unfold array_set
          rw [if_neg (by omega)]
    cases hb : (tls_find_relevant_frames_body H K s).2 with
    | false =>
      rw [hstep, if_neg (by rw [hb]; decide)]
      exact hbody
    | true =>
      rw [hstep, if_pos hb]
      simp only []
      intro hi
      obtain ⟨new, _, _, _, i4, _⟩ := find_frames_loop_spec H K n
        { (tls_find_relevant_frames_body H K s).1 with
          iteration := (tls_find_relevant_frames_body H K s).1.iteration + 1 }
      simp only [] at i4
      have h1 := ih { (tls_find_relevant_frames_body H K s).1 with
          iteration := (tls_find_relevant_frames_body H K s).1.iteration + 1 } i hi
      simp only [] at h1
      rw [h1]
      exact hbody (by omega)

/-- The records of the scan and the frame table that `tls_find_relevant_frames`
returns are those of its loop: the telemetry updates after the loop leave them
as they are. -/
theorem find_frames_fields (H : decoding_common_h) (K : kernel_mem)
    (info : tls_dispatcher_arguments_t) (iteration_value : http2_tail_call_state_t)
    (http2_tel : http2_telemetry_t)
    (h : iteration_value.frames_count < H.HTTP2_MAX_FRAMES_ITERATIONS) :
    (tls_find_relevant_frames H K info iteration_value http2_tel).scanned
      = (tls_find_relevant_frames_loop H K H.HTTP2_MAX_FRAMES_TO_FILTER
          ⟨info, iteration_value, http2_tel, ⟨0, 0, 0, 0⟩, 0, 0, []⟩).scanned ∧
    (tls_find_relevant_frames H K info iteration_value http2_tel).iteration_value
      = (tls_find_relevant_frames_loop H K H.HTTP2_MAX_FRAMES_TO_FILTER
          ⟨info, iteration_value, http2_tel, ⟨0, 0, 0, 0⟩, 0, 0, []⟩).iteration_value ∧
    (tls_find_relevant_frames H K info iteration_value http2_tel).header_reads
      = (tls_find_relevant_frames_loop H K H.HTTP2_MAX_FRAMES_TO_FILTER
          ⟨info, iteration_value, http2_tel, ⟨0, 0, 0, 0⟩, 0, 0, []⟩).header_reads := by
  unfold tls_find_relevant_frames
  simp only []
  rw [if_neg (by omega)]
  split_ifs <;> exact ⟨rfl, rfl, rfl⟩

/-- When `frames_count` has reached the maximum on entry the function returns
at once. -/
theorem find_frames_full (H : decoding_common_h) (K : kernel_mem)
    (info : tls_dispatcher_arguments_t) (iteration_value : http2_tail_call_state_t)
    (http2_tel : http2_telemetry_t)
    (h : H.HTTP2_MAX_FRAMES_ITERATIONS ≤ iteration_value.frames_count) :
    tls_find_relevant_frames H K info iteration_value http2_tel
      = ⟨info, iteration_value, http2_tel, ⟨0, 0, 0, 0⟩, 0, 0, []⟩ := by
  unfold tls_find_relevant_frames
  simp only []
  rw [if_pos h]

/-- The scan of `sim_frames` from an empty table: three headers are read, the
HEADERS and the DATA frame are stored at indexes 0 and 1 with the offsets 9 and
29, the SETTINGS frame is met and not stored; with a table that is full on
entry nothing is scanned. -/
theorem sim_frames_scan :
    (tls_find_relevant_frames sim_decoding (sim_image sim_buffer sim_frames) (sim_info 30)
      zero_frames zero_telemetry).scanned
      = [⟨0, ⟨2, 1, 4, 1⟩, 0, true⟩, ⟨11, ⟨0, 4, 0, 0⟩, 1, false⟩, ⟨20, ⟨1, 0, 1, 1⟩, 1, true⟩] ∧
    (tls_find_relevant_frames sim_decoding (sim_image sim_buffer sim_frames) (sim_info 30)
      zero_frames zero_telemetry).header_reads = 3 ∧
    (tls_find_relevant_frames sim_decoding (sim_image sim_buffer sim_frames) (sim_info 30)
      zero_frames zero_telemetry).iteration_value.frames_count = 2 ∧
    (tls_find_relevant_frames sim_decoding (sim_image sim_buffer sim_frames) (sim_info 30)
      zero_frames zero_telemetry).iteration_value.frames_array 0 = ⟨⟨2, 1, 4, 1⟩, 9⟩ ∧
    (tls_find_relevant_frames sim_decoding (sim_image sim_buffer sim_frames) (sim_info 30)
      zero_frames zero_telemetry).iteration_value.frames_array 1 = ⟨⟨1, 0, 1, 1⟩, 29⟩ ∧
    (tls_find_relevant_frames sim_decoding (sim_image sim_buffer sim_frames) (sim_info 30)
      ⟨2, fun _ => zero_frame_slot⟩ zero_telemetry).header_reads = 0 := by
  decide

/-- A table that is full takes no further frame. -/
theorem spec_append_relevant_full (H : decoding_common_h) :
    ∀ (l : List (Nat × http2_frame_t)) (iteration_value : http2_tail_call_state_t),
      H.HTTP2_MAX_FRAMES_ITERATIONS ≤ iteration_value.frames_count →
      spec_append_relevant H iteration_value l = iteration_value := by
  intro l
  induction l with
  | nil => intro _ _; rfl
  | cons e rest ih =>
    intro iv h
    unfold spec_append_relevant
    rw [if_neg (fun hc => absurd hc.1 (by omega))]
    exact ih iv h

/-- Going through a list of frames does not lower frames_count and leaves the
slots below the frames_count of the start as they are. -/
theorem spec_append_relevant_keeps (H : decoding_common_h) :
    ∀ (l : List (Nat × http2_frame_t)) (iteration_value : http2_tail_call_state_t),
      iteration_value.frames_count ≤ (spec_append_relevant H iteration_value l).frames_count ∧
      ∀ i, i < iteration_value.frames_count →
        (spec_append_relevant H iteration_value l).frames_array i
          = iteration_value.frames_array i := by
  intro l
  induction l with
  | nil => intro iv; exact ⟨le_refl _, fun _ _ => rfl⟩
  | cons e rest ih =>
    intro iv
    unfold spec_append_relevant
    split_ifs with hc
    · obtain ⟨k1, k2⟩ := ih ⟨iv.frames_count + 1,
        array_set iv.frames_array iv.frames_count ⟨e.2, e.1 + H.HTTP2_FRAME_HEADER_SIZE⟩⟩
      simp only [] at k1 k2
      refine ⟨by omega, ?_⟩
      intro i hi
      rw [k2 i (by omega)]
      unfold array_set
      rw [if_neg (by omega)]
    · exact ih iv

/-- The number of entries appended: the relevant frames of the list, as far as
the table has room. -/
theorem spec_append_relevant_count (H : decoding_common_h) :
    ∀ (l : List (Nat × http2_frame_t)) (iteration_value : http2_tail_call_state_t),
      (spec_append_relevant H iteration_value l).frames_count
        = iteration_value.frames_count
          + min (l.filter (fun e => decide (spec_relevant H e.2))).length
              (H.HTTP2_MAX_FRAMES_ITERATIONS - iteration_value.frames_count) := by
  intro l
  induction l with
  | nil => intro iv; simp [spec_append_relevant]
  | cons e rest ih =>
    intro iv
    unfold spec_append_relevant
    split_ifs with hc
    · rw [ih]
      have hf : List.filter (fun e => decide (spec_relevant H e.2)) (e :: rest)
          = e :: List.filter (fun e => decide (spec_relevant H e.2)) rest := by
        simp [List.filter_cons, hc.2]
      rw [hf, List.length_cons]
      simp only []
      omega
    · rw [ih]
      by_cases hr : spec_relevant H e.2
      · have hfull : H.HTTP2_MAX_FRAMES_ITERATIONS ≤ iv.frames_count := by
          by_contra hlt
          exact hc ⟨by omega, hr⟩
        omega
      · have hf : List.filter (fun e => decide (spec_relevant H e.2)) (e :: rest)
            = List.filter (fun e => decide (spec_relevant H e.2)) rest := by
          simp [List.filter_cons, hr]
        rw [hf]

/-- Every slot between the frames_count of the start and the final
frames_count holds a relevant frame of the list with the offset right after its
header. -/
theorem spec_append_relevant_slots (H : decoding_common_h) :
    ∀ (l : List (Nat × http2_frame_t)) (iteration_value : http2_tail_call_state_t) (i : Nat),
      iteration_value.frames_count ≤ i →
      i < (spec_append_relevant H iteration_value l).frames_count →
      ∃ e ∈ l, spec_relevant H e.2 ∧
        (spec_append_relevant H iteration_value l).frames_array i
          = ⟨e.2, e.1 + H.HTTP2_FRAME_HEADER_SIZE⟩ := by
  intro l
  induction l with
  | nil =>
    intro iv i h1 h2
    simp only [spec_append_relevant] at h2
    omega
  | cons e rest ih =>
    intro iv i h1 h2
    unfold spec_append_relevant at h2 ⊢
    split_ifs at h2 ⊢ with hc
    · by_cases hi : i = iv.frames_count
      · refine ⟨e, List.mem_cons_self _ _, hc.2, ?_⟩
        obtain ⟨_, k2⟩ := spec_append_relevant_keeps H rest ⟨iv.frames_count + 1,
          array_set iv.frames_array iv.frames_count ⟨e.2, e.1 + H.HTTP2_FRAME_HEADER_SIZE⟩⟩
        simp only [] at k2
        rw [k2 i (by omega), hi]
        simp [array_set]
      · obtain ⟨e1, m1, m2, m3⟩ := ih ⟨iv.frames_count + 1,
          array_set iv.frames_array iv.frames_count ⟨e.2, e.1 + H.HTTP2_FRAME_HEADER_SIZE⟩⟩ i
          (by simp only []; omega) h2
        exact ⟨e1, List.mem_cons_of_mem _ m1, m2, m3⟩
    · obtain ⟨e1, m1, m2, m3⟩ := ih iv i h1 h2
      exact ⟨e1, List.mem_cons_of_mem _ m1, m2, m3⟩

/-- The loop body when no frame header fits below `len`. -/
theorem find_frames_body_of_short (H : decoding_common_h) (K : kernel_mem)
    (s : find_frames_state) (h : s.info.off + H.HTTP2_FRAME_HEADER_SIZE > s.info.len) :
    tls_find_relevant_frames_body H K s = (s, false) := by
  unfold tls_find_relevant_frames_body
  rw [if_pos h]

/-- The loop body when the header read is not valid. -/
theorem find_frames_body_of_invalid (H : decoding_common_h) (K : kernel_mem)
    (s : find_frames_state) (h1 : ¬ s.info.off + H.HTTP2_FRAME_HEADER_SIZE > s.info.len)
    (h2 : (H.format_http2_frame_header (H.read_into_user_buffer_http2_frame_header K
      s.current_frame (ptr_add s.info.buffer_ptr s.info.off))).1 = false) :
    (tls_find_relevant_frames_body H K s).2 = false ∧
    (tls_find_relevant_frames_body H K s).1.iteration_value = s.iteration_value ∧
    (tls_find_relevant_frames_body H K s).1.scanned = s.scanned := by
  unfold tls_find_relevant_frames_body
  rw [if_neg h1]
  simp only [h2, Bool.not_false, if_true]
  exact ⟨trivial, trivial, trivial⟩

/-- The loop body when the header read is valid: the frame is recorded, it is
stored exactly when the table has room and the frame is relevant, the position
moves behind its payload, and the loop goes on exactly when the table still has
room. -/
theorem find_frames_body_of_valid (H : decoding_common_h) (K : kernel_mem)
    (s : find_frames_state) (h1 : ¬ s.info.off + H.HTTP2_FRAME_HEADER_SIZE > s.info.len)
    (h2 : (H.format_http2_frame_header (H.read_into_user_buffer_http2_frame_header K
      s.current_frame (ptr_add s.info.buffer_ptr s.info.off))).1 = true) :
    (tls_find_relevant_frames_body H K s).1.iteration_value
      = (if s.iteration_value.frames_count < H.HTTP2_MAX_FRAMES_ITERATIONS ∧
            spec_relevant H (H.format_http2_frame_header
              (H.read_into_user_buffer_http2_frame_header K s.current_frame
                (ptr_add s.info.buffer_ptr s.info.off))).2 then
          ⟨s.iteration_value.frames_count + 1,
            array_set s.iteration_value.frames_array s.iteration_value.frames_count
              ⟨(H.format_http2_frame_header (H.read_into_user_buffer_http2_frame_header K
                  s.current_frame (ptr_add s.info.buffer_ptr s.info.off))).2,
                s.info.off + H.HTTP2_FRAME_HEADER_SIZE⟩⟩
        else s.iteration_value) ∧
    (tls_find_relevant_frames_body H K s).1.info
      = { s.info with off := s.info.off + H.HTTP2_FRAME_HEADER_SIZE
            + (H.format_http2_frame_header (H.read_into_user_buffer_http2_frame_header K
                s.current_frame (ptr_add s.info.buffer_ptr s.info.off))).2.length } ∧
    (tls_find_relevant_frames_body H K s).1.current_frame
      = (H.format_http2_frame_header (H.read_into_user_buffer_http2_frame_header K
          s.current_frame (ptr_add s.info.buffer_ptr s.info.off))).2 ∧
    (∃ e : scanned_frame,
      (tls_find_relevant_frames_body H K s).1.scanned = s.scanned ++ [e] ∧
      e.header_off = s.info.off ∧
      e.frame = (H.format_http2_frame_header (H.read_into_user_buffer_http2_frame_header K
          s.current_frame (ptr_add s.info.buffer_ptr s.info.off))).2) ∧
    ((tls_find_relevant_frames_body H K s).2 = true ↔
      (tls_find_relevant_frames_body H K s).1.iteration_value.frames_count
        < H.HTTP2_MAX_FRAMES_ITERATIONS) := by
  unfold tls_find_relevant_frames_body
  rw [if_neg h1]
  simp only [h2, Bool.not_true, Bool.false_eq_true, if_false]
  by_cases hroom : s.iteration_value.frames_count < H.HTTP2_MAX_FRAMES_ITERATIONS
  · by_cases hrel : spec_relevant H (H.format_http2_frame_header
        (H.read_into_user_buffer_http2_frame_header K s.current_frame
          (ptr_add s.info.buffer_ptr s.info.off))).2
    · have hb := (is_relevant_frame_iff H _).mpr hrel
      simp only [hroom, hrel, hb, decide_True, Bool.and_self, and_self, if_true]
      split_ifs <;> first | omega | simp_all
    · have hb : is_relevant_frame H (H.format_http2_frame_header
          (H.read_into_user_buffer_http2_frame_header K s.current_frame
            (ptr_add s.info.buffer_ptr s.info.off))).2 = false := by
        cases hq : is_relevant_frame H (H.format_http2_frame_header
          (H.read_into_user_buffer_http2_frame_header K s.current_frame
            (ptr_add s.info.buffer_ptr s.info.off))).2
        · rfl
        · exact absurd ((is_relevant_frame_iff H _).mp hq) hrel
      simp only [hroom, hrel, hb, decide_True, Bool.and_false, and_false, if_false,
        Bool.false_eq_true]
      split_ifs <;> first | omega | simp_all
  · simp only [hroom, decide_False, Bool.false_and, false_and, if_false, Bool.false_eq_true]
    split_ifs <;> first | omega | simp_all

/-- The loop refines the specification: the table it leaves is the one obtained
by going through the frames of the packet from the current position on, and the
frames it records are, in order, a first part of those frames, all of them
unless the table became full. -/
theorem find_frames_loop_refines (H : decoding_common_h) (K : kernel_mem) :
    ∀ (n : Nat) (s : find_frames_state),
      (tls_find_relevant_frames_loop H K n s).iteration_value
        = spec_append_relevant H s.iteration_value
            (spec_frames_of_packet H K s.info.buffer_ptr s.info.len n s.info.off
              s.current_frame) ∧
      ∃ new : List scanned_frame,
        (tls_find_relevant_frames_loop H K n s).scanned = s.scanned ++ new ∧
        new.map (fun e => (e.header_off, e.frame))
          <+: spec_frames_of_packet H K s.info.buffer_ptr s.info.len n s.info.off
                s.current_frame ∧
        (new.map (fun e => (e.header_off, e.frame))
            = spec_frames_of_packet H K s.info.buffer_ptr s.info.len n s.info.off
                s.current_frame ∨
          H.HTTP2_MAX_FRAMES_ITERATIONS
            ≤ (tls_find_relevant_frames_loop H K n s).iteration_value.frames_count) := by
  intro n
  induction n with
  | zero =>
    intro s
    refine ⟨rfl, [], ?_, ?_, Or.inl rfl⟩
    · simp [tls_find_relevant_frames_loop]
    · exact List.nil_prefix
  | succ n ih =>
    intro s
    have hstep : tls_find_relevant_frames_loop H K (n + 1) s =
        if (tls_find_relevant_frames_body H K s).2 = true then
          tls_find_relevant_frames_loop H K n
            { (tls_find_relevant_frames_body H K s).1 with
              iteration := (tls_find_relevant_frames_body H K s).1.iteration + 1 }
        else (tls_find_relevant_frames_body H K s).1 := rfl
    by_cases h1 : s.info.off + H.HTTP2_FRAME_HEADER_SIZE > s.info.len
    · have hw : spec_frames_of_packet H K s.info.buffer_ptr s.info.len (n + 1) s.info.off
          s.current_frame = [] := by
        unfold spec_frames_of_packet
        rw [if_pos h1]
      rw [hstep, find_frames_body_of_short H K s h1, hw]
      simp only [Bool.false_eq_true, if_false]
      exact ⟨rfl, [], by simp, List.nil_prefix, Or.inl rfl⟩
    · cases h2 : (H.format_http2_frame_header (H.read_into_user_buffer_http2_frame_header K
          s.current_frame (ptr_add s.info.buffer_ptr s.info.off))).1 with
      | false =>
        have hw : spec_frames_of_packet H K s.info.buffer_ptr s.info.len (n + 1) s.info.off
            s.current_frame = [] := by
          unfold spec_frames_of_packet
          rw [if_neg h1]
          simp only [h2, if_true]
        obtain ⟨b1, b2, b3⟩ := find_frames_body_of_invalid H K s h1 h2
        rw [hstep, if_neg (by rw [b1]; decide), hw, b2, b3]
        exact ⟨rfl, [], by simp, List.nil_prefix, Or.inl rfl⟩
      | true =>
        have hw : spec_frames_of_packet H K s.info.buffer_ptr s.info.len (n + 1) s.info.off
            s.current_frame
            = (s.info.off, (H.format_http2_frame_header
                (H.read_into_user_buffer_http2_frame_header K s.current_frame
                  (ptr_add s.info.buffer_ptr s.info.off))).2)
              :: spec_frames_of_packet H K s.info.buffer_ptr s.info.len n
                  (s.info.off + H.HTTP2_FRAME_HEADER_SIZE
                    + (H.format_http2_frame_header
                        (H.read_into_user_buffer_http2_frame_header K s.current_frame
                          (ptr_add s.info.buffer_ptr s.info.off))).2.length)
                  (H.format_http2_frame_header
                    (H.read_into_user_buffer_http2_frame_header K s.current_frame
                      (ptr_add s.info.buffer_ptr s.info.off))).2 := by
          conv => lhs; unfold spec_frames_of_packet
          rw [if_neg h1]
          simp only [h2, Bool.true_eq_false, if_false]
        obtain ⟨b1, b2, b3, ⟨e, b4, b5, b6⟩, b7⟩ := find_frames_body_of_valid H K s h1 h2
        have hspec : spec_append_relevant H s.iteration_value
            (spec_frames_of_packet H K s.info.buffer_ptr s.info.len (n + 1) s.info.off
              s.current_frame)
            = spec_append_relevant H (tls_find_relevant_frames_body H K s).1.iteration_value
                (spec_frames_of_packet H K s.info.buffer_ptr s.info.len n
                  (s.info.off + H.HTTP2_FRAME_HEADER_SIZE
                    + (H.format_http2_frame_header
                        (H.read_into_user_buffer_http2_frame_header K s.current_frame
                          (ptr_add s.info.buffer_ptr s.info.off))).2.length)
                  (H.format_http2_frame_header
                    (H.read_into_user_buffer_http2_frame_header K s.current_frame
                      (ptr_add s.info.buffer_ptr s.info.off))).2) := by
          rw [hw, b1]
          conv => lhs; unfold spec_append_relevant
          split_ifs <;> rfl
        have hproj : (e.header_off, e.frame)
            = (s.info.off, (H.format_http2_frame_header
                (H.read_into_user_buffer_http2_frame_header K s.current_frame
                  (ptr_add s.info.buffer_ptr s.info.off))).2) := by
          rw [b5, b6]
        cases hb : (tls_find_relevant_frames_body H K s).2 with
        | false =>
          have hfull : H.HTTP2_MAX_FRAMES_ITERATIONS
              ≤ (tls_find_relevant_frames_body H K s).1.iteration_value.frames_count := by
            by_contra hlt
            have := b7.mpr (by omega)
            rw [hb] at this
            cases this
          rw [hstep, if_neg (by rw [hb]; decide), hspec,
            spec_append_relevant_full H _ _ hfull]
          refine ⟨rfl, [e], b4, ?_, Or.inr hfull⟩
          rw [hw, List.map_singleton, hproj]
          exact List.prefix_cons_inj _ |>.mpr List.nil_prefix
        | true =>
          obtain ⟨i1, new, i2, i3, i4⟩ := ih
            { (tls_find_relevant_frames_body H K s).1 with
              iteration := (tls_find_relevant_frames_body H K s).1.iteration + 1 }
          simp only [] at i1 i2 i3 i4
          rw [b2, b3] at i1 i2 i3 i4
          simp only [] at i1 i3 i4
          rw [hstep, if_pos hb]
          simp only []
          rw [b2, b3]
          refine ⟨?_, e :: new, ?_, ?_, ?_⟩
          · rw [i1, hspec]
          · rw [i2, b4]
            simp
          · rw [hw, List.map_cons, hproj]
            exact (List.prefix_cons_inj _).mpr i3
          · rcases i4 with i4 | i4
            · left
              rw [hw, List.map_cons, hproj, i4]
            · right
              exact i4

/-- The frames of the packet `sim_frames`, and the table the specification
builds from them starting from an empty table. -/
theorem sim_frames_of_packet :
    spec_frames_of_packet sim_decoding (sim_image sim_buffer sim_frames) sim_buffer 30 4 0
        ⟨0, 0, 0, 0⟩
      = [(0, ⟨2, 1, 4, 1⟩), (11, ⟨0, 4, 0, 0⟩), (20, ⟨1, 0, 1, 1⟩)] ∧
    (spec_append_relevant sim_decoding zero_frames
      [(0, ⟨2, 1, 4, 1⟩), (11, ⟨0, 4, 0, 0⟩), (20, ⟨1, 0, 1, 1⟩)]).frames_count = 2 ∧
    (spec_append_relevant sim_decoding zero_frames
      [(0, ⟨2, 1, 4, 1⟩), (11, ⟨0, 4, 0, 0⟩), (20, ⟨1, 0, 1, 1⟩)]).frames_array 1
      = ⟨⟨1, 0, 1, 1⟩, 29⟩ := by
  decide

/-- C26: for every packet buffer and every entry state.  The frames of the
packet are those whose headers are read from the buffer one after the other,
each header starting where the payload of the frame before ends, as long as a
header fits and is valid, at most HTTP2_MAX_FRAMES_TO_FILTER of them
(`spec_frames_of_packet`).  The table that tls_find_relevant_frames leaves is
the one obtained by going through these frames and appending each HEADERS
frame, RST_STREAM frame and DATA frame with the END_STREAM flag set, with the
offset right after its frame header, as long as frames_count <
HTTP2_MAX_FRAMES_ITERATIONS (`spec_append_relevant`); frames_count grows by the
number of such frames in the packet, as far as the table has room; every slot
between the entry value and the final value of frames_count holds such a frame
of the packet with the offset right after its header, and no other slot is
changed.  The frames recorded by the scan are, in order, a first part of the
frames of the packet, all of them unless the table became full; a recorded
frame is marked as stored exactly when it is of the three kinds and frames_count
was below the maximum when it was met, it is then in the table at the index
frames_count had, and frames_count grows by the number of frames so marked. -/
theorem find_relevant_frames_appends (H : decoding_common_h) (K : kernel_mem)
    (info : tls_dispatcher_arguments_t) (iteration_value : http2_tail_call_state_t)
    (http2_tel : http2_telemetry_t) :
    (tls_find_relevant_frames H K info iteration_value http2_tel).iteration_value
      = spec_append_relevant H iteration_value
        (spec_frames_of_packet H K info.buffer_ptr info.len H.HTTP2_MAX_FRAMES_TO_FILTER info.off
          ⟨0, 0, 0, 0⟩) ∧
    (tls_find_relevant_frames H K info iteration_value http2_tel).iteration_value.frames_count
      = iteration_value.frames_count
        + min (List.filter (fun e => decide (spec_relevant H e.2))
            (spec_frames_of_packet H K info.buffer_ptr info.len H.HTTP2_MAX_FRAMES_TO_FILTER info.off
          ⟨0, 0, 0, 0⟩)).length
          (H.HTTP2_MAX_FRAMES_ITERATIONS - iteration_value.frames_count) ∧
    (∀ i, iteration_value.frames_count ≤ i →
      i < (tls_find_relevant_frames H K info iteration_value http2_tel).iteration_value.frames_count →
      ∃ e ∈ spec_frames_of_packet H K info.buffer_ptr info.len H.HTTP2_MAX_FRAMES_TO_FILTER
          info.off ⟨0, 0, 0, 0⟩,
        spec_relevant H e.2 ∧
        (tls_find_relevant_frames H K info iteration_value http2_tel).iteration_value.frames_array i
          = ⟨e.2, e.1 + H.HTTP2_FRAME_HEADER_SIZE⟩) ∧
    (∀ i, i < iteration_value.frames_count ∨
        (tls_find_relevant_frames H K info iteration_value http2_tel).iteration_value.frames_count ≤ i →
      (tls_find_relevant_frames H K info iteration_value http2_tel).iteration_value.frames_array i
        = iteration_value.frames_array i) ∧
    (tls_find_relevant_frames H K info iteration_value http2_tel).scanned.map
        (fun e => (e.header_off, e.frame))
      <+: spec_frames_of_packet H K info.buffer_ptr info.len H.HTTP2_MAX_FRAMES_TO_FILTER info.off
            ⟨0, 0, 0, 0⟩ ∧
    ((tls_find_relevant_frames H K info iteration_value http2_tel).scanned.map
        (fun e => (e.header_off, e.frame))
        = spec_frames_of_packet H K info.buffer_ptr info.len H.HTTP2_MAX_FRAMES_TO_FILTER info.off
            ⟨0, 0, 0, 0⟩ ∨
      H.HTTP2_MAX_FRAMES_ITERATIONS
        ≤ (tls_find_relevant_frames H K info iteration_value http2_tel).iteration_value.frames_count) ∧
    (∀ e ∈ (tls_find_relevant_frames H K info iteration_value http2_tel).scanned,
      e.appended = true →
        (e.frame.type = H.kHeadersFrame ∨ e.frame.type = H.kRSTStreamFrame ∨
          (e.frame.type = H.kDataFrame ∧
            e.frame.flags &&& H.HTTP2_END_OF_STREAM = H.HTTP2_END_OF_STREAM)) ∧
        e.count_before
          < (tls_find_relevant_frames H K info iteration_value http2_tel).iteration_value.frames_count ∧
        (tls_find_relevant_frames H K info iteration_value http2_tel).iteration_value.frames_array
          e.count_before = ⟨e.frame, e.header_off + H.HTTP2_FRAME_HEADER_SIZE⟩) ∧
    (∀ e ∈ (tls_find_relevant_frames H K info iteration_value http2_tel).scanned,
      (e.frame.type = H.kHeadersFrame ∨ e.frame.type = H.kRSTStreamFrame ∨
        (e.frame.type = H.kDataFrame ∧
          e.frame.flags &&& H.HTTP2_END_OF_STREAM = H.HTTP2_END_OF_STREAM)) →
      e.count_before < H.HTTP2_MAX_FRAMES_ITERATIONS → e.appended = true) ∧
    (tls_find_relevant_frames H K info iteration_value http2_tel).iteration_value.frames_count
      = iteration_value.frames_count
        + (tls_find_relevant_frames H K info iteration_value http2_tel).scanned.countP
            (fun e => e.appended) ∧
    (∀ l1 e l2,
      (tls_find_relevant_frames H K info iteration_value http2_tel).scanned = l1 ++ e :: l2 →
      e.count_before = iteration_value.frames_count + l1.countP (fun e => e.appended)) ∧
    (∀ i, iteration_value.frames_count ≤ i →
      i < (tls_find_relevant_frames H K info iteration_value http2_tel).iteration_value.frames_count →
      ∃ e ∈ (tls_find_relevant_frames H K info iteration_value http2_tel).scanned,
        e.appended = true ∧ e.count_before = i) := by
  have hR : (tls_find_relevant_frames H K info iteration_value http2_tel).iteration_value
        = spec_append_relevant H iteration_value
            (spec_frames_of_packet H K info.buffer_ptr info.len H.HTTP2_MAX_FRAMES_TO_FILTER
              info.off ⟨0, 0, 0, 0⟩) ∧
      (tls_find_relevant_frames H K info iteration_value http2_tel).scanned.map
          (fun e => (e.header_off, e.frame))
        <+: spec_frames_of_packet H K info.buffer_ptr info.len H.HTTP2_MAX_FRAMES_TO_FILTER
              info.off ⟨0, 0, 0, 0⟩ ∧
      ((tls_find_relevant_frames H K info iteration_value http2_tel).scanned.map
          (fun e => (e.header_off, e.frame))
          = spec_frames_of_packet H K info.buffer_ptr info.len H.HTTP2_MAX_FRAMES_TO_FILTER
              info.off ⟨0, 0, 0, 0⟩ ∨
        H.HTTP2_MAX_FRAMES_ITERATIONS
          ≤ (tls_find_relevant_frames H K info iteration_value
              http2_tel).iteration_value.frames_count) := by
    by_cases h : iteration_value.frames_count < H.HTTP2_MAX_FRAMES_ITERATIONS
    · obtain ⟨hs, hv, _⟩ := find_frames_fields H K info iteration_value http2_tel h
      rw [hs, hv]
      obtain ⟨r1, new, r2, r3, r4⟩ := find_frames_loop_refines H K
        H.HTTP2_MAX_FRAMES_TO_FILTER ⟨info, iteration_value, http2_tel, ⟨0, 0, 0, 0⟩, 0, 0, []⟩
      simp only [List.nil_append] at r1 r2 r3 r4
      rw [r2]
      exact ⟨r1, r3, r4⟩
    · rw [find_frames_full H K info iteration_value http2_tel (by omega)]
      refine ⟨?_, ?_, Or.inr (show H.HTTP2_MAX_FRAMES_ITERATIONS ≤ iteration_value.frames_count by omega)⟩
      · exact (spec_append_relevant_full H _ iteration_value (by omega)).symm
      · exact List.nil_prefix
  obtain ⟨hR1, hR2, hR3⟩ := hR
  refine ⟨hR1, ?_, ?_, ?_, hR2, hR3, ?_⟩
  · rw [hR1]
    exact spec_append_relevant_count H _ _
  · intro i h1 h2
    rw [hR1] at h2 ⊢
    exact spec_append_relevant_slots H _ _ i h1 h2
  · by_cases h : iteration_value.frames_count < H.HTTP2_MAX_FRAMES_ITERATIONS
    · obtain ⟨_, hv, _⟩ := find_frames_fields H K info iteration_value http2_tel h
      rw [hv]
      obtain ⟨new, _, _, _, _, _, j6, _⟩ := find_frames_loop_spec H K
        H.HTTP2_MAX_FRAMES_TO_FILTER ⟨info, iteration_value, http2_tel, ⟨0, 0, 0, 0⟩, 0, 0, []⟩
      simp only [] at j6
      intro i hi
      rcases hi with hi | hi
      · exact j6 i hi
      · exact find_frames_loop_untouched H K _ _ i hi
    · rw [find_frames_full H K info iteration_value http2_tel (by omega)]
      intro i _
      rfl
  · by_cases h : iteration_value.frames_count < H.HTTP2_MAX_FRAMES_ITERATIONS
    · obtain ⟨hs, hv, _⟩ := find_frames_fields H K info iteration_value http2_tel h
      rw [hs, hv]
      obtain ⟨new, j1, _, _, j4, _, _, j7, j8, j9⟩ := find_frames_loop_spec H K
        H.HTTP2_MAX_FRAMES_TO_FILTER ⟨info, iteration_value, http2_tel, ⟨0, 0, 0, 0⟩, 0, 0, []⟩
      simp only [List.nil_append] at j1 j4 j7 j8 j9
      rw [j1]
      refine ⟨?_, ?_, j4, j9, j8⟩
      · intro e he ha
        obtain ⟨_, k2, k3⟩ := j7 e he
        exact ⟨(is_relevant_frame_iff H e.frame).mp (k2.mp ha).2, (k3 ha).1, (k3 ha).2⟩
      · intro e he hty hlt
        exact (j7 e he).2.1.mpr ⟨hlt, (is_relevant_frame_iff H e.frame).mpr hty⟩
    · rw [find_frames_full H K info iteration_value http2_tel (by omega)]
      refine ⟨?_, ?_, ?_, ?_, ?_⟩
      · intro e he; cases he
      · intro e he; cases he
      · simp
      · intro l1 e l2 hl
        simp at hl
      · intro i h1 h2
        simp only [] at h2
        omega

/-- C30: for every packet buffer and every entry state with frames_count ≤
HTTP2_MAX_FRAMES_ITERATIONS, with r the result of tls_find_relevant_frames:
frames_count ≤ HTTP2_MAX_FRAMES_ITERATIONS on exit; every frame stored went to
an index below HTTP2_MAX_FRAMES_ITERATIONS, and every slot of frames_array
whose content differs from the content on entry has such an index; when
frames_count equals the maximum on entry no frame header is read, no frame is
met, and the position, the frame table and the telemetry are as on entry; and
at most HTTP2_MAX_FRAMES_TO_FILTER frame headers are read. -/
theorem find_relevant_frames_bounded (H : decoding_common_h) (K : kernel_mem)
    (info : tls_dispatcher_arguments_t) (iteration_value : http2_tail_call_state_t)
    (http2_tel : http2_telemetry_t)
    (h : iteration_value.frames_count ≤ H.HTTP2_MAX_FRAMES_ITERATIONS) :
    (tls_find_relevant_frames H K info iteration_value http2_tel).iteration_value.frames_count
      ≤ H.HTTP2_MAX_FRAMES_ITERATIONS ∧
    (∀ e ∈ (tls_find_relevant_frames H K info iteration_value http2_tel).scanned,
      e.appended = true → e.count_before < H.HTTP2_MAX_FRAMES_ITERATIONS) ∧
    (∀ i, (tls_find_relevant_frames H K info iteration_value http2_tel).iteration_value.frames_array i
        ≠ iteration_value.frames_array i → i < H.HTTP2_MAX_FRAMES_ITERATIONS) ∧
    (iteration_value.frames_count = H.HTTP2_MAX_FRAMES_ITERATIONS →
      (tls_find_relevant_frames H K info iteration_value http2_tel).header_reads = 0 ∧
      (tls_find_relevant_frames H K info iteration_value http2_tel).scanned = [] ∧
      (tls_find_relevant_frames H K info iteration_value http2_tel).info = info ∧
      (tls_find_relevant_frames H K info iteration_value http2_tel).iteration_value
        = iteration_value ∧
      (tls_find_relevant_frames H K info iteration_value http2_tel).http2_tel = http2_tel) ∧
    (tls_find_relevant_frames H K info iteration_value http2_tel).header_reads
      ≤ H.HTTP2_MAX_FRAMES_TO_FILTER := by
  by_cases hlt : iteration_value.frames_count < H.HTTP2_MAX_FRAMES_ITERATIONS
  · obtain ⟨hs, hv, hr⟩ := find_frames_fields H K info iteration_value http2_tel hlt
    rw [hs, hv, hr]
    obtain ⟨new, j1, _, j3, _, j5, _, j7, _⟩ := find_frames_loop_spec H K
      H.HTTP2_MAX_FRAMES_TO_FILTER ⟨info, iteration_value, http2_tel, ⟨0, 0, 0, 0⟩, 0, 0, []⟩
    simp only [List.nil_append] at j1 j3 j5 j7
    rw [j1]
    refine ⟨j5 h, ?_, ?_, ?_, by omega⟩
    · intro e he ha
      exact ((j7 e he).2.1.mp ha).1
    · intro i hne
      by_contra hge
      exact hne (find_frames_loop_untouched H K _ _ i (le_trans (j5 h) (by omega)))
    · intro heq
      omega
  · rw [find_frames_full H K info iteration_value http2_tel (by omega)]
    refine ⟨h, ?_, ?_, ?_, Nat.zero_le _⟩
    · intro e he; cases he
    · intro i hne
      exact absurd rfl hne
    · intro _
      exact ⟨rfl, rfl, rfl, rfl, rfl⟩

/-- C30 witness: the scan of `sim_frames` from an empty table, where the bound
of 2 frames is reached. -/
theorem find_relevant_frames_bounded_witness :
    zero_frames.frames_count ≤ sim_decoding.HTTP2_MAX_FRAMES_ITERATIONS ∧
    (tls_find_relevant_frames sim_decoding (sim_image sim_buffer sim_frames) (sim_info 30)
      zero_frames zero_telemetry).iteration_value.frames_count ≤ 2 ∧
    (tls_find_relevant_frames sim_decoding (sim_image sim_buffer sim_frames) (sim_info 30)
      zero_frames zero_telemetry).header_reads ≤ 4 :=
  ⟨by decide,
   (find_relevant_frames_bounded sim_decoding (sim_image sim_buffer sim_frames) (sim_info 30)
      zero_frames zero_telemetry (by decide)).1,
   (find_relevant_frames_bounded sim_decoding (sim_image sim_buffer sim_frames) (sim_info 30)
      zero_frames zero_telemetry (by decide)).2.2.2.2⟩

/-! ## The dynamic table size update in tls_filter_relevant_headers -/

/-- C27 (defect): the header block 0x25 0x84 is a dynamic table size update
whose integer, 5, is complete in its first byte (37 &&& 224 = 32 and the 5-bit
prefix is below 31), followed by the indexed header 0x84. The filter consumes
both bytes and hands no byte to the header parser: the byte after the complete
integer is skipped. The same header alone is parsed and counted, and so is the
header after an update whose integer does continue (0x3f 0x05). -/
theorem size_update_swallows_next_header :
    (37 &&& 224 = 32 ∧ 37 &&& 31 < 31) ∧
    Option.map (fun s => (s.parsed, s.interesting_headers, s.info.off))
      (tls_filter_relevant_headers sim_decoding (sim_image sim_buffer [37, 132]) (sim_info 2)
        ⟨0⟩ (fun _ => zero_header) 2 zero_telemetry (some 0) 0) = some ([], 0, 2) ∧
    Option.map (fun s => (s.parsed, s.interesting_headers, s.info.off))
      (tls_filter_relevant_headers sim_decoding (sim_image sim_buffer [132]) (sim_info 1)
        ⟨0⟩ (fun _ => zero_header) 1 zero_telemetry (some 0) 0) = some ([0], 1, 1) ∧
    Option.map (fun s => (s.parsed, s.interesting_headers, s.info.off))
      (tls_filter_relevant_headers sim_decoding (sim_image sim_buffer [63, 5, 132]) (sim_info 3)
        ⟨0⟩ (fun _ => zero_header) 3 zero_telemetry (some 0) 0) = some ([2], 1, 3) := by
  decide


/-! ## What an invocation of guess_offsets leaves alone -/

/-- C31 (as stated, refuted): a publishing invocation for target
GUESS_SK_BUFF_TRANSPORT_HEADER over a subject that starts with the 16-bit
values 54, 34 and 14 stores, next to transport_header = 54, the values
network_header = 34 and mac_header = 14, which were 0 in the record before the
call; neither is among the companions the claim lists. -/
theorem transport_header_writes_network_header :
    (guess_offsets (sim_image sim_subject [54, 0, 34, 0, 14, 0]) sim_sizes sim_comm
      (sim_status guess_state.STATE_CHECKING guess_what.GUESS_SK_BUFF_TRANSPORT_HEADER)
      sim_subject).2.state = guess_state.STATE_CHECKED ∧
    (sim_status guess_state.STATE_CHECKING
      guess_what.GUESS_SK_BUFF_TRANSPORT_HEADER).values.network_header = 0 ∧
    (sim_status guess_state.STATE_CHECKING
      guess_what.GUESS_SK_BUFF_TRANSPORT_HEADER).values.mac_header = 0 ∧
    (guess_offsets (sim_image sim_subject [54, 0, 34, 0, 14, 0]) sim_sizes sim_comm
      (sim_status guess_state.STATE_CHECKING guess_what.GUESS_SK_BUFF_TRANSPORT_HEADER)
      sim_subject).2.values.transport_header = 54 ∧
    (guess_offsets (sim_image sim_subject [54, 0, 34, 0, 14, 0]) sim_sizes sim_comm
      (sim_status guess_state.STATE_CHECKING guess_what.GUESS_SK_BUFF_TRANSPORT_HEADER)
      sim_subject).2.values.network_header = 34 ∧
    (guess_offsets (sim_image sim_subject [54, 0, 34, 0, 14, 0]) sim_sizes sim_comm
      (sim_status guess_state.STATE_CHECKING guess_what.GUESS_SK_BUFF_TRANSPORT_HEADER)
      sim_subject).2.values.mac_header = 14 := by
  decide

/-- C31 (amended): a publishing invocation of `guess_offsets` (state CHECKING,
matching thread, recognized target F) stores a record with state CHECKED and
the name of the calling thread, whose target and liveness flag are those of the
record before the call, whose
candidate offsets agree with the prior ones outside F's own offset and its
companion (ino for GUESS_NETNS, rtt_var for GUESS_RTT), whose discovered values
agree with the prior ones outside F's own value and its companions (rtt_var for
GUESS_RTT, the two via-pointer port values for GUESS_SOCKET_SK,
GUESS_SK_BUFF_SOCK and GUESS_SK_BUFF_HEAD, network_header and mac_header for
GUESS_SK_BUFF_TRANSPORT_HEADER), and whose fault flag is 0 unless the target is
GUESS_NETNS and this attempt set it to 1. -/
theorem guess_offsets_frame (K : kernel_mem) (sz : sizeof_t) (comm : proc_t)
    (status : tracer_status_t) (subject : Nat)
    (h1 : status.state = guess_state.STATE_CHECKING)
    (h2 : proc_t_comm_equals status.proc comm = true)
    (h3 : ∀ raw, status.what ≠ guess_what.unrecognized raw) :
    (guess_offsets K sz comm status subject).2.state = guess_state.STATE_CHECKED ∧
    (guess_offsets K sz comm status subject).2.proc = comm ∧
    (guess_offsets K sz comm status subject).2.what = status.what ∧
    (guess_offsets K sz comm status subject).2.tcp_info_kprobe_status
      = status.tcp_info_kprobe_status ∧
    offsets_t.forget status.what (guess_offsets K sz comm status subject).2.offsets
      = offsets_t.forget status.what status.offsets ∧
    values_t.forget status.what (guess_offsets K sz comm status subject).2.values
      = values_t.forget status.what status.values ∧
    ((guess_offsets K sz comm status subject).2.err = 0 ∨
      (status.what = guess_what.GUESS_NETNS ∧
        (guess_offsets K sz comm status subject).2.err = 1)) := by
  rw [guess_offsets_checking K sz comm status subject h1 h2]
  unfold guess_offsets_switch
  cases hw : status.what <;> simp only [] <;> (try split_ifs) <;>
    first
    | exact absurd hw (h3 _)
    | (refine ⟨?_, ?_, ?_, ?_, ?_, ?_, ?_⟩ <;>
        first
        | trivial
        | rfl
        | exact Or.inl rfl
        | exact Or.inr ⟨rfl, rfl⟩
        | exact Or.inr ⟨trivial, rfl⟩)

/-- C31 witness: target GUESS_RTT over an image holding srtt_us = 800 and
mdev_us = 40: the record stored differs from the prior one in rtt and rtt_var
only, and its fault flag is 0. -/
theorem guess_offsets_frame_witness :
    (guess_offsets (sim_image sim_subject [32, 3, 0, 0, 40, 0, 0, 0]) sim_sizes sim_comm
      (sim_status guess_state.STATE_CHECKING guess_what.GUESS_RTT) sim_subject).2.what
      = guess_what.GUESS_RTT ∧
    values_t.forget guess_what.GUESS_RTT
      (guess_offsets (sim_image sim_subject [32, 3, 0, 0, 40, 0, 0, 0]) sim_sizes sim_comm
        (sim_status guess_state.STATE_CHECKING guess_what.GUESS_RTT) sim_subject).2.values
      = values_t.forget guess_what.GUESS_RTT zero_values ∧
    (guess_offsets (sim_image sim_subject [32, 3, 0, 0, 40, 0, 0, 0]) sim_sizes sim_comm
      (sim_status guess_state.STATE_CHECKING guess_what.GUESS_RTT) sim_subject).2.values.rtt
      = 100 :=
  ⟨(guess_offsets_frame (sim_image sim_subject [32, 3, 0, 0, 40, 0, 0, 0]) sim_sizes sim_comm
      (sim_status guess_state.STATE_CHECKING guess_what.GUESS_RTT) sim_subject
      (by decide) (by decide) (fun _ h => guess_what.noConfusion h)).2.2.1,
   (guess_offsets_frame (sim_image sim_subject [32, 3, 0, 0, 40, 0, 0, 0]) sim_sizes sim_comm
      (sim_status guess_state.STATE_CHECKING guess_what.GUESS_RTT) sim_subject
      (by decide) (by decide) (fun _ h => guess_what.noConfusion h)).2.2.2.2.2.1,
   by decide⟩

/-! ## Exclusive gates of the hooks -/

/-- The function `is_ct_event` answers true exactly for the four conntrack
targets. -/
theorem is_ct_event_iff (what : conntrack_guess_what) :
    is_ct_event what = true ↔
      (what = conntrack_guess_what.GUESS_CT_TUPLE_ORIGIN ∨
        what = conntrack_guess_what.GUESS_CT_TUPLE_REPLY ∨
        what = conntrack_guess_what.GUESS_CT_STATUS ∨
        what = conntrack_guess_what.GUESS_CT_NET) := by
  cases what <;> simp [is_ct_event]

/-- C32: with a primary record whose target is `status.what`, a gate being open
when the hook hands a subject to the engine: the net_dev_queue tracepoint is
open exactly when ip_make_skb, both ip6_make_skb variants, tcp_getsockopt,
sock_common_getsockopt and the tcp_v6_connect probes are all closed, and that
is exactly for the three sk_buff targets; tcp_getsockopt and
sock_common_getsockopt are never both open; sock_common_getsockopt is open
exactly for GUESS_SOCKET_SK and tcp_getsockopt (called with SOL_TCP and
TCP_INFO) exactly for the targets that are neither GUESS_SOCKET_SK nor a sk_buff
target; and with a conntrack record the conntrack hook is open exactly for the
four GUESS_CT_* targets. -/
theorem hook_gates_exclusive (K : kernel_mem) (sz : sizeof_t) (csz : conntrack_sizeof_t)
    (comm : proc_t) (pid : Nat) (maps : maps_t) (ctx : pt_regs) (tctx : net_dev_queue_ctx)
    (status : tracer_status_t) (hrec : maps.tracer_status = some status) :
    ((tracepoint__net__net_dev_queue K sz comm maps tctx).forwarded.isSome = true ↔
      ((kprobe__ip_make_skb K sz comm maps ctx).forwarded = none ∧
        (kprobe__ip6_make_skb K sz comm maps ctx).forwarded = none ∧
        (kprobe__ip6_make_skb__pre_4_7_0 K sz comm maps ctx).forwarded = none ∧
        (kprobe__tcp_getsockopt K sz comm maps ctx).forwarded = none ∧
        (kprobe__sock_common_getsockopt K sz comm maps ctx).forwarded = none ∧
        (kprobe__tcp_v6_connect pid maps ctx).forwarded = none ∧
        (kretprobe__tcp_v6_connect K sz comm pid maps).forwarded = none)) ∧
    ((tracepoint__net__net_dev_queue K sz comm maps tctx).forwarded.isSome = true ↔
      (status.what = guess_what.GUESS_SK_BUFF_SOCK ∨
        status.what = guess_what.GUESS_SK_BUFF_TRANSPORT_HEADER ∨
        status.what = guess_what.GUESS_SK_BUFF_HEAD)) ∧
    ¬ ((kprobe__tcp_getsockopt K sz comm maps ctx).forwarded.isSome = true ∧
        (kprobe__sock_common_getsockopt K sz comm maps ctx).forwarded.isSome = true) ∧
    ((kprobe__sock_common_getsockopt K sz comm maps ctx).forwarded.isSome = true ↔
      status.what = guess_what.GUESS_SOCKET_SK) ∧
    (cast_int ctx.parm2 = SOL_TCP → cast_int ctx.parm3 = TCP_INFO →
      ((kprobe__tcp_getsockopt K sz comm maps ctx).forwarded.isSome = true ↔
        (status.what ≠ guess_what.GUESS_SOCKET_SK ∧
          ¬ (status.what = guess_what.GUESS_SK_BUFF_SOCK ∨
            status.what = guess_what.GUESS_SK_BUFF_TRANSPORT_HEADER ∨
            status.what = guess_what.GUESS_SK_BUFF_HEAD)))) ∧
    (∀ cstatus, maps.conntrack_status = some cstatus →
      ((kprobe___nf_conntrack_hash_insert K csz comm maps ctx).forwarded.isSome = true ↔
        (cstatus.what = conntrack_guess_what.GUESS_CT_TUPLE_ORIGIN ∨
          cstatus.what = conntrack_guess_what.GUESS_CT_TUPLE_REPLY ∨
          cstatus.what = conntrack_guess_what.GUESS_CT_STATUS ∨
          cstatus.what = conntrack_guess_what.GUESS_CT_NET))) := by
  refine ⟨?_, ?_, ?_, ?_, ?_, ?_⟩
  · unfold tracepoint__net__net_dev_queue kprobe__ip_make_skb kprobe__ip6_make_skb
      kprobe__ip6_make_skb__pre_4_7_0 kprobe__tcp_getsockopt kprobe__sock_common_getsockopt
      kprobe__tcp_v6_connect kretprobe__tcp_v6_connect
    rw [hrec]
    cases hg : is_sk_buff_event status.what
    · simp [hg]
    · have hne : status.what ≠ guess_what.GUESS_SOCKET_SK := by
        intro h
        rw [h] at hg
        exact absurd hg (by decide)
      cases hl : hash_lookup maps.connectsock_ipv6 pid <;> simp [hg, hne, hrec]
  · rw [← is_sk_buff_event_iff status.what]
    unfold tracepoint__net__net_dev_queue
    rw [hrec]
    cases hg : is_sk_buff_event status.what <;> simp [hg]
  · unfold kprobe__tcp_getsockopt kprobe__sock_common_getsockopt
    rw [hrec]
    by_cases hs : status.what = guess_what.GUESS_SOCKET_SK
    · simp [hs]
    · simp [hs]
  · unfold kprobe__sock_common_getsockopt
    rw [hrec]
    by_cases hs : status.what = guess_what.GUESS_SOCKET_SK
    · simp [hs]
    · simp [hs]
  · intro hl ho
    rw [← is_sk_buff_event_iff status.what]
    unfold kprobe__tcp_getsockopt
    rw [hrec]
    by_cases hs : status.what = guess_what.GUESS_SOCKET_SK
    · simp [hs, hl, ho]
    · cases hg : is_sk_buff_event status.what <;> simp [hs, hl, ho, hg]
  · intro cstatus hc
    rw [← is_ct_event_iff cstatus.what]
    unfold kprobe___nf_conntrack_hash_insert
    rw [hc]
    cases hg : is_ct_event cstatus.what <;> simp [hg]

/-- C32 witness: with target GUESS_SK_BUFF_HEAD the tracepoint is open and
tcp_getsockopt, called with SOL_TCP and TCP_INFO, is closed. -/
theorem hook_gates_exclusive_witness :
    (sim_maps (sim_status guess_state.STATE_CHECKING guess_what.GUESS_SK_BUFF_HEAD)).tracer_status
      = some (sim_status guess_state.STATE_CHECKING guess_what.GUESS_SK_BUFF_HEAD) ∧
    (tracepoint__net__net_dev_queue sim_invalid sim_sizes sim_comm
      (sim_maps (sim_status guess_state.STATE_CHECKING guess_what.GUESS_SK_BUFF_HEAD))
      ⟨0, sim_subject⟩).forwarded.isSome = true ∧
    (kprobe__tcp_getsockopt sim_invalid sim_sizes sim_comm
      (sim_maps (sim_status guess_state.STATE_CHECKING guess_what.GUESS_SK_BUFF_HEAD))
      sim_regs).forwarded = none :=
  ⟨rfl,
   (hook_gates_exclusive sim_invalid sim_sizes sim_ct_sizes sim_comm 7
      (sim_maps (sim_status guess_state.STATE_CHECKING guess_what.GUESS_SK_BUFF_HEAD)) sim_regs
      ⟨0, sim_subject⟩ (sim_status guess_state.STATE_CHECKING guess_what.GUESS_SK_BUFF_HEAD)
      rfl).2.1.mpr (by decide),
   ((hook_gates_exclusive sim_invalid sim_sizes sim_ct_sizes sim_comm 7
      (sim_maps (sim_status guess_state.STATE_CHECKING guess_what.GUESS_SK_BUFF_HEAD)) sim_regs
      ⟨0, sim_subject⟩ (sim_status guess_state.STATE_CHECKING guess_what.GUESS_SK_BUFF_HEAD)
      rfl).1.mp (by decide)).2.2.2.1⟩

/-! ## get_conn_stats -/

/-- A lookup under another key does not see an entry put in front of a map. -/
theorem lookup_cons_of_ne (m : List (conn_tuple_t × conn_stats_ts_t))
    (key k : conn_tuple_t) (value : conn_stats_ts_t) (h : k ≠ key) :
    List.lookup k ((key, value) :: m) = List.lookup k m := by
  rw [List.lookup_cons]
  have hk : (k == key) = false := by
    simp only [beq_eq_false_iff_ne, ne_eq]
    exact h
  rw [hk]

/-- C33: for every map content and every tuple t whose pid fits its `u32`,
with key the tuple t with pid set to 0: on return *t is as before the call; the
pointer returned is the entry of the map under key; an entry present under key
before the call is returned with its contents, and the maps are unchanged; when
none is present and the map has room, an entry of zero bytes is put under key
and returned; when none is present and the map is full, NULL is returned, the
map is unchanged and the telemetry counter grows by one; entries under other
keys are never touched, and the map changes only when no entry was present
under key. -/
theorem get_conn_stats_get_or_create (P : tracer_conn_maps_h) (maps : conn_maps_t)
    (t : conn_tuple_t) (hpid : t.pid < 2 ^ 32) :
    (get_conn_stats P maps t).t = t ∧
    (get_conn_stats P maps t).s
      = (get_conn_stats P maps t).maps.conn_stats.lookup { t with pid := 0 } ∧
    (∀ v, maps.conn_stats.lookup { t with pid := 0 } = some v →
      (get_conn_stats P maps t).s = some v ∧ (get_conn_stats P maps t).maps = maps) ∧
    (maps.conn_stats.lookup { t with pid := 0 } = none →
      maps.conn_stats.length < P.CONN_STATS_MAX_ENTRIES →
      (get_conn_stats P maps t).s = some ⟨List.replicate P.SIZEOF_CONN_STATS_TS_T 0⟩ ∧
      (get_conn_stats P maps t).maps
        = { maps with conn_stats :=
              ({ t with pid := 0 }, ⟨List.replicate P.SIZEOF_CONN_STATS_TS_T 0⟩)
                :: maps.conn_stats }) ∧
    (maps.conn_stats.lookup { t with pid := 0 } = none →
      P.CONN_STATS_MAX_ENTRIES ≤ maps.conn_stats.length →
      (get_conn_stats P maps t).s = none ∧
      (get_conn_stats P maps t).maps
        = { maps with conn_stats_max_entries_hit := add64 maps.conn_stats_max_entries_hit 1 }) ∧
    (∀ k, k ≠ { t with pid := 0 } →
      (get_conn_stats P maps t).maps.conn_stats.lookup k = maps.conn_stats.lookup k) ∧
    ((get_conn_stats P maps t).maps.conn_stats ≠ maps.conn_stats →
      maps.conn_stats.lookup { t with pid := 0 } = none) := by
  have ht : ({ pid := t.pid % 2 ^ 32, rest := t.rest } : conn_tuple_t) = t := by
    rw [Nat.mod_eq_of_lt hpid]
  have he1 : ¬ (-EEXIST = -E2BIG) := by decide
  have he2 : ¬ ((0 : Int) = -E2BIG) := by decide
  cases hl : List.lookup ({ t with pid := 0 } : conn_tuple_t) maps.conn_stats with
  | some v =>
    have hres : get_conn_stats P maps t = ⟨some v, maps, t⟩ := by
      unfold get_conn_stats hash_update_noexist increment_telemetry_count
      simp only [hl, Option.isSome_some, if_true, if_neg he1, ht]
    rw [hres]
    refine ⟨rfl, hl.symm, ?_, ?_, ?_, ?_, ?_⟩
    · intro w hw
      exact ⟨hw, rfl⟩
    · intro h
      cases h
    · intro h
      cases h
    · intro k _
      rfl
    · intro h
      exact absurd rfl h
  | none =>
    by_cases hroom : maps.conn_stats.length < P.CONN_STATS_MAX_ENTRIES
    · have hres : get_conn_stats P maps t =
          ⟨some ⟨List.replicate P.SIZEOF_CONN_STATS_TS_T 0⟩,
            { maps with conn_stats :=
                ({ t with pid := 0 }, ⟨List.replicate P.SIZEOF_CONN_STATS_TS_T 0⟩)
                  :: maps.conn_stats }, t⟩ := by
        unfold get_conn_stats hash_update_noexist increment_telemetry_count
        simp only [hl, Option.isSome_none, Bool.false_eq_true, if_false, if_pos hroom,
          if_neg he2, ht, List.lookup_cons, beq_self_eq_true]
      rw [hres]
      refine ⟨rfl, ?_, ?_, ?_, ?_, ?_, ?_⟩
      · show _ = List.lookup _ (_ :: _)
        rw [List.lookup_cons, beq_self_eq_true]
      · intro w hw
        cases hw
      · intro _ _
        exact ⟨rfl, rfl⟩
      · intro _ hfull
        omega
      · intro k hk
        exact lookup_cons_of_ne _ _ _ _ hk
      · intro _
        trivial
    · have hres : get_conn_stats P maps t =
          ⟨none, { maps with
              conn_stats_max_entries_hit := add64 maps.conn_stats_max_entries_hit 1 }, t⟩ := by
        unfold get_conn_stats hash_update_noexist increment_telemetry_count
        simp only [hl, Option.isSome_none, Bool.false_eq_true, if_false, if_neg hroom, if_true,
          ht]
      rw [hres]
      refine ⟨rfl, hl.symm, ?_, ?_, ?_, ?_, ?_⟩
      · intro w hw
        cases hw
      · intro _ hr
        exact absurd hr hroom
      · intro _ _
        exact ⟨rfl, rfl⟩
      · intro k _
        rfl
      · intro _
        trivial

/-- C33 witness: process 4242 asks for the statistics of `sim_tuple`.  With an
empty map a record of four zero bytes is created under the key with pid 0;
with a record present under that key it is returned as it is, and the map,
which holds a second connection, is unchanged; the tuple keeps pid 4242. -/
theorem get_conn_stats_get_or_create_witness :
    sim_tuple.pid < 2 ^ 32 ∧
    (get_conn_stats sim_conn_maps_h ⟨[], 0⟩ sim_tuple).t = sim_tuple ∧
    get_conn_stats sim_conn_maps_h ⟨[], 0⟩ sim_tuple
      = ⟨some ⟨[0, 0, 0, 0]⟩, ⟨[({ sim_tuple with pid := 0 }, ⟨[0, 0, 0, 0]⟩)], 0⟩, sim_tuple⟩ ∧
    get_conn_stats sim_conn_maps_h
      ⟨[({ sim_tuple_other with pid := 0 }, ⟨[9, 9, 9, 9]⟩),
        ({ sim_tuple with pid := 0 }, ⟨[1, 2, 3, 4]⟩)], 0⟩ sim_tuple
      = ⟨some ⟨[1, 2, 3, 4]⟩,
          ⟨[({ sim_tuple_other with pid := 0 }, ⟨[9, 9, 9, 9]⟩),
            ({ sim_tuple with pid := 0 }, ⟨[1, 2, 3, 4]⟩)], 0⟩, sim_tuple⟩ :=
  ⟨by decide,
   (get_conn_stats_get_or_create sim_conn_maps_h ⟨[], 0⟩ sim_tuple (by decide)).1,
   by decide, by decide⟩

end OffsetGuess
